import Mathlib

/-!
# Surface lightmap and geometry compiler (`src/refresh/gl/surf.c`)

A shallow embedding of the surface post-processing code of the GL renderer:
the colour adjuster, the light accumulator, the lightmap builder, the
polygon builder and the per-frame refresh, followed by theorems about them.

Conventions of the embedding:

* `float` / `vec_t` values are exact rationals (`ℚ`); the colour adjuster is
  given a second time with every operation rounded to binary32
  (`adjust_color_f32`), for the statements that depend on the rounding;
* `int` values are integers; the block bounds of `build_surface_poly`, which
  come from coordinates of any size, are reduced to 32 bits (`wrap_int`);
  counters, sizes, array indices and texture numbers are naturals;
* a C array or pointer target is a total map from indices to values, a write
  is a pointwise update, a pointer is a base index into such a map;
* the process-wide singletons (`lm`, `blocklights`, `gl_static`, `glr`,
  `tess`) are explicit values passed in and out.

`gl.h` is not among the sources, so its constants are fields of `glconst_t`
and its macros are modelled where they are first used.
-/

namespace Q2Surf

/-! ## Basic types -/

/-- The C type `vec_t` (a `float`), as an exact rational. -/
abbrev vec_t := ℚ

/-- The C type `byte`. -/
abbrev byte := Nat

/-- The value an `int` variable holds for the arithmetic result `x`: `x` reduced modulo
`2^32` into the range `-2^31 .. 2^31 - 1`. C leaves a signed result outside that range
undefined; the reduction is what the two's complement targets of the renderer compute for
`-` and `<<`. An out-of-range conversion from `double` is reduced the same way; the sample
inputs below keep every conversion in range. -/
def wrap_int (x : ℤ) : ℤ :=
  (x + 2147483648) % 4294967296 - 2147483648

/-- Constants declared in `gl.h`, which is not part of the sources. -/
structure glconst_t where
  LM_BLOCK_WIDTH : Nat
  LM_BLOCK_HEIGHT : Nat
  LM_MAX_LIGHTMAPS : Nat
  TEXNUM_LIGHTMAP : Nat
  TESS_MAX_VERTICES : Nat
  SURF_SKY : Nat
  SURF_NOLM_MASK : Nat
  DSURF_PLANEBACK : Nat
  /-- weights of the `LUMINANCE(r, g, b)` macro -/
  lum_r : vec_t
  lum_g : vec_t
  lum_b : vec_t

/-- The fields of `gl_static.world` read by the colour adjuster. -/
structure world_t where
  add : vec_t
  scale : vec_t
  modulate : vec_t

/-- Modelled from the spec: the `LUMINANCE` macro of `gl.h`, "a luminance scalar
as a fixed weighted sum of the three channels". -/
def LUMINANCE (k : glconst_t) (r g b : vec_t) : vec_t :=
  r * k.lum_r + g * k.lum_g + b * k.lum_b

/-! ## Lightmap colour adjusting -/

/-- The function `adjust_color_f`, on the three input channels `in[0..2]`; the result is
`(out[0], out[1], out[2])`. -/
def adjust_color_f (k : glconst_t) (w : world_t) (in0 in1 in2 : vec_t) (modulate : vec_t) :
    vec_t × vec_t × vec_t :=
  -- add & modulate
  let r := (in0 + w.add) * modulate
  let g := (in1 + w.add) * modulate
  let b := (in2 + w.add) * modulate
  -- catch negative lights
  let r := if r < 0 then 0 else r
  let g := if g < 0 then 0 else g
  let b := if b < 0 then 0 else b
  -- determine the brightest of the three color components
  let max := g
  let max := if r > max then r else max
  let max := if b > max then b else max
  -- rescale all the color components if the intensity of the greatest
  -- channel exceeds 1.0
  let y := 255 / max
  let r := if max > 255 then r * y else r
  let g := if max > 255 then g * y else g
  let b := if max > 255 then b * y else b
  -- transform to grayscale
  let y := LUMINANCE k r g b
  let r' := if w.scale ≠ 1 then y + (r - y) * w.scale else r
  let g' := if w.scale ≠ 1 then y + (g - y) * w.scale else g
  let b' := if w.scale ≠ 1 then y + (b - y) * w.scale else b
  (r', g', b')

/-- The C conversion `(byte)x` of a float: truncation toward zero, reduced modulo 256. -/
def float_to_byte (x : vec_t) : byte :=
  Int.toNat ((if 0 ≤ x then Int.floor x else Int.ceil x) % 256)

/-- The function `adjust_color_ub`: the four bytes `out[0..3]` for the input channels
`in[0..2]`. -/
def adjust_color_ub (k : glconst_t) (w : world_t) (in0 in1 in2 : vec_t) :
    byte × byte × byte × byte :=
  let tmp := adjust_color_f k w in0 in1 in2 w.modulate
  (float_to_byte tmp.1, float_to_byte tmp.2.1, float_to_byte tmp.2.2, 255)

/-! ## World data -/

/-- The type `lightstyle_t` of `ref_public.h`: `white` is the highest of RGB,
`rgb[0..2]` range over 0.0 - 2.0. -/
structure lightstyle_t where
  white : vec_t
  rgb : Nat → vec_t

/-- A map vertex (`mvertex_t`): its `point[0..2]`. -/
structure mvertex_t where
  point : Nat → vec_t

/-- A map edge (`medge_t`): its two end vertices `v[0]`, `v[1]`. -/
structure medge_t where
  v : Nat → mvertex_t

/-- An edge reference of a surface loop (`msurfedge_t`). -/
structure msurfedge_t where
  edge : medge_t
  vert : Nat

/-- The fields of `image_t` read here. -/
structure image_t where
  texnum : Nat
  width : Nat
  height : Nat

/-- Texture projection (`mtexinfo_t`): `axis[0..1][0..2]`, `offset[0..1]`, the image and
the surface flags `c.flags`. -/
structure mtexinfo_t where
  axis : Nat → Nat → vec_t
  offset : Nat → vec_t
  image : image_t
  flags : Nat

/-- A plane (`cplane_t`). -/
structure cplane_t where
  normal : Nat → vec_t
  dist : vec_t

/-- A world surface (`mface_t`). Pointers into the world's lightmap data are addresses
of the byte memory `lightdata`, with `0` for `NULL`; `firstsurfedge` is the surface's
slice of the surfedge array. -/
structure mface_t where
  firstsurfedge : Nat → msurfedge_t
  numsurfedges : Nat
  plane : cplane_t
  texinfo : mtexinfo_t
  lightmap : Nat
  styles : Nat → Nat
  numstyles : Nat
  stylecache : Nat → vec_t
  texturemins : Nat → ℤ
  extents : Nat → ℤ
  texnum : Nat → Nat
  drawflags : Nat
  firstvert : Nat
  light_s : Nat
  light_t : Nat
  dlightframe : ℤ
  dlightbits : Nat

/-- The fields of `bsp_t` read by the lightmap builder: the address of the lightmap lump
and its size. -/
structure bsp_t where
  lightmap : Nat
  numlightmapbytes : Nat

/-- The global `lm` (`lightmap_builder_t`). -/
structure lightmap_builder_t where
  inuse : Nat → Nat
  dirty : Bool
  comp : Nat
  nummaps : Nat
  highwater : Nat
  buffer : Nat → byte

/-- Messages printed through `Com_EPrintf`. -/
inductive emsg_t where
  | bad_surface_extents
  | MAX_BLOCKLIGHTS_exceeded
  | bad_surface_lightmap
  | LM_MAX_LIGHTMAPS_exceeded
  | LM_AllocBlock_failed
  | too_many_verts
  deriving DecidableEq, Repr

/-- The mutable globals of the lightmap code: `lm`, the scratch array `blocklights`, the
style table `glr.fd.lightstyles` with the map `gl_static.lightstylemap`, the GL texture
objects by name, and what `Com_EPrintf` has printed (latest first). -/
structure gl_t where
  lm : lightmap_builder_t
  blocklights : Nat → vec_t
  lightstyles : Nat → lightstyle_t
  lightstylemap : Nat → Nat
  textures : Nat → Nat → byte
  eprintf : List emsg_t

/-- The signature of the block allocator `GL_AllocBlock(width, height, inuse, w, h, &s, &t)`:
on success the raised column heights and the origin `(s, t)`, on failure nothing. -/
abbrev allocator_t := Nat → Nat → (Nat → Nat) → Nat → Nat → Option ((Nat → Nat) × Nat × Nat)

/-- Read-only surroundings of the lightmap code: the constants of `gl.h`, the colour
settings `gl_static.world`, the loaded world `gl_static.world.cache`, the bytes of the
map's memory, the configuration variables `gl_fullbright` and `gl_dynamic`, and the
allocator `GL_AllocBlock`, whose source file is not among the sources. -/
structure env_t where
  k : glconst_t
  world : world_t
  bsp : bsp_t
  lightdata : Nat → byte
  alloc : allocator_t
  gl_fullbright : ℤ
  gl_dynamic : ℤ

/-- The loop `for (i = 0; i < n; i++) body`, on an explicit loop state. -/
def forLoop {σ : Type} (n : Nat) (body : Nat → σ → σ) (s : σ) : σ :=
  match n with
  | 0 => s
  | i + 1 => body i (forLoop i body s)

/-- A write `a[i] = v`. -/
def store {α : Type} (a : Nat → α) (i : Nat) (v : α) : Nat → α :=
  fun j => if j = i then v else a j

def MAX_SURFACE_EXTENTS : ℤ := 2048

def MAX_LIGHTMAP_EXTENTS : ℤ := MAX_SURFACE_EXTENTS / 16 + 1

def MAX_BLOCKLIGHTS : ℤ := MAX_LIGHTMAP_EXTENTS * MAX_LIGHTMAP_EXTENTS

/-- Modelled from the spec: the per-vertex stride `VERTEX_SIZE` of `gl.h`, "position + two
texture-coordinate pairs"; the code writes the slots `vbo[0..6]`. -/
def VERTEX_SIZE : Nat := 7

/-- Modelled from the spec: the macro `S_MAX` of `gl.h`, `(extents[0] >> 4) + 1`. -/
def S_MAX (surf : mface_t) : ℤ := surf.extents 0 / 16 + 1

/-- Modelled from the spec: the macro `T_MAX` of `gl.h`, `(extents[1] >> 4) + 1`. -/
def T_MAX (surf : mface_t) : ℤ := surf.extents 1 / 16 + 1

/-- Modelled from the spec: the macro `LIGHT_STYLE` of `gl.h`, the surface's `i`-th
recorded style looked up in the style table through the style map that
`build_style_map` maintains. -/
def LIGHT_STYLE (g : gl_t) (surf : mface_t) (i : Nat) : lightstyle_t :=
  g.lightstyles (g.lightstylemap (surf.styles i))

/-! ## Light accumulation -/

/-- Loop state of the sample loops of `add_light_styles`: the scratch array and the two
running pointers `bl` (an index of `blocklights`) and `src` (an address). -/
structure styles_loop_t where
  blocklights : Nat → vec_t
  bl : Nat
  src : Nat

/-- One pass `bl[c] = src[c]; bl += 3; src += 3`. -/
def copy_sample (lightdata : Nat → byte) (s : styles_loop_t) : styles_loop_t :=
  let a := store s.blocklights s.bl (lightdata s.src : vec_t)
  let a := store a (s.bl + 1) (lightdata (s.src + 1) : vec_t)
  let a := store a (s.bl + 2) (lightdata (s.src + 2) : vec_t)
  ⟨a, s.bl + 3, s.src + 3⟩

/-- One pass `bl[c] = src[c] * style->rgb[c]; bl += 3; src += 3`. -/
def scale_sample (lightdata : Nat → byte) (style : lightstyle_t) (s : styles_loop_t) :
    styles_loop_t :=
  let a := store s.blocklights s.bl ((lightdata s.src : vec_t) * style.rgb 0)
  let a := store a (s.bl + 1) ((lightdata (s.src + 1) : vec_t) * style.rgb 1)
  let a := store a (s.bl + 2) ((lightdata (s.src + 2) : vec_t) * style.rgb 2)
  ⟨a, s.bl + 3, s.src + 3⟩

/-- One pass `bl[c] += src[c] * style->rgb[c]; bl += 3; src += 3`. -/
def add_sample (lightdata : Nat → byte) (style : lightstyle_t) (s : styles_loop_t) :
    styles_loop_t :=
  let a := store s.blocklights s.bl
    (s.blocklights s.bl + (lightdata s.src : vec_t) * style.rgb 0)
  let a := store a (s.bl + 1) (a (s.bl + 1) + (lightdata (s.src + 1) : vec_t) * style.rgb 1)
  let a := store a (s.bl + 2) (a (s.bl + 2) + (lightdata (s.src + 2) : vec_t) * style.rgb 2)
  ⟨a, s.bl + 3, s.src + 3⟩

/-- Loop state of the style loop of `add_light_styles`. -/
structure styles_outer_t where
  blocklights : Nat → vec_t
  src : Nat
  stylecache : Nat → vec_t

/-- One pass of the style loop of `add_light_styles`, for the style number `i = i' + 1`:
the sample loop adding that style, then `surf->stylecache[i] = style->white`. -/
def add_style (e : env_t) (g : gl_t) (surf : mface_t) (size : ℤ) (i' : Nat)
    (o : styles_outer_t) : styles_outer_t :=
  let i := i' + 1
  let style := LIGHT_STYLE g surf i
  let s := forLoop size.toNat (fun _ s => add_sample e.lightdata style s)
    ⟨o.blocklights, 0, o.src⟩
  ⟨s.blocklights, s.src, store o.stylecache i style.white⟩

/-- The function `add_light_styles(surf, size)`: the new contents of `blocklights` and the
surface with its style cache refreshed. -/
def add_light_styles (e : env_t) (g : gl_t) (surf : mface_t) (size : ℤ) :
    (Nat → vec_t) × mface_t :=
  if surf.numstyles = 0 then
    -- memset(blocklights, 0, sizeof(blocklights[0]) * size * 3)
    (fun i => if i < (size * 3).toNat then 0 else g.blocklights i, surf)
  else
    -- init primary lightmap
    let style := LIGHT_STYLE g surf 0
    let first : styles_loop_t :=
      if style.white = 1 then
        forLoop size.toNat (fun _ s => copy_sample e.lightdata s)
          ⟨g.blocklights, 0, surf.lightmap⟩
      else
        forLoop size.toNat (fun _ s => scale_sample e.lightdata style s)
          ⟨g.blocklights, 0, surf.lightmap⟩
    let cache := store surf.stylecache 0 style.white
    -- add remaining lightmaps
    let rest : styles_outer_t :=
      forLoop (surf.numstyles - 1) (add_style e g surf size) ⟨first.blocklights, first.src, cache⟩
    (rest.blocklights, { surf with stylecache := rest.stylecache })

/-! ## Lightmap building -/

/-- Loop state of the texel loops of `build_primary_lightmap`. -/
structure texel_loop_t where
  buffer : Nat → byte
  bl : Nat
  ptr : Nat

/-- The call `adjust_color_ub(ptr, bl)` on the atlas bytes, followed by
`bl += 3; ptr += 4`. -/
def put_texel (e : env_t) (blocklights : Nat → vec_t) (s : texel_loop_t) : texel_loop_t :=
  let c := adjust_color_ub e.k e.world (blocklights s.bl) (blocklights (s.bl + 1))
    (blocklights (s.bl + 2))
  let a := store s.buffer s.ptr c.1
  let a := store a (s.ptr + 1) c.2.1
  let a := store a (s.ptr + 2) c.2.2.1
  let a := store a (s.ptr + 3) c.2.2.2
  ⟨a, s.bl + 3, s.ptr + 4⟩

/-- One row of the texel loops of `build_primary_lightmap`, on the row state and the
running row pointer `dst`: `ptr = dst`, the texel loop, `dst += LM_BLOCK_WIDTH * 4`. -/
def put_row (e : env_t) (blocklights : Nat → vec_t) (smax : ℤ) (s : texel_loop_t × Nat) :
    texel_loop_t × Nat :=
  let row := forLoop smax.toNat (fun _ s => put_texel e blocklights s)
    ⟨s.1.buffer, s.1.bl, s.2⟩
  (row, s.2 + e.k.LM_BLOCK_WIDTH * 4)

/-- The function `build_primary_lightmap(surf)`: the globals and the surface afterwards. -/
def build_primary_lightmap (e : env_t) (g : gl_t) (surf : mface_t) : gl_t × mface_t :=
  let smax := S_MAX surf
  let tmax := T_MAX surf
  let size := smax * tmax
  -- add all the lightmaps
  let r := add_light_styles e g surf size
  let blocklights := r.1
  let surf := { r.2 with dlightframe := 0 }
  -- put into texture format
  let dst := (surf.light_t * e.k.LM_BLOCK_WIDTH + surf.light_s) * 4
  let out : texel_loop_t × Nat :=
    forLoop tmax.toNat (fun _ s => put_row e blocklights smax s) (⟨g.lm.buffer, 0, dst⟩, dst)
  ({ g with blocklights := blocklights, lm := { g.lm with buffer := out.1.buffer } }, surf)

/-- The macro `LM_AllocBlock(w, h, s, t)`. -/
def LM_AllocBlock (e : env_t) (lm : lightmap_builder_t) (w h : Nat) :
    Option ((Nat → Nat) × Nat × Nat) :=
  e.alloc e.k.LM_BLOCK_WIDTH e.k.LM_BLOCK_HEIGHT lm.inuse w h

/-- The function `LM_InitBlock`. -/
def LM_InitBlock (k : glconst_t) (lm : lightmap_builder_t) : lightmap_builder_t :=
  { lm with
    inuse := forLoop k.LM_BLOCK_WIDTH (fun i a => store a i 0) lm.inuse
    dirty := false }

/-- The function `LM_UploadBlock`: when the page is dirty, its `LM_BLOCK_WIDTH x
LM_BLOCK_HEIGHT` RGBA bytes become the image of texture `TEXNUM_LIGHTMAP + lm.nummaps`
and the page count goes up. -/
def LM_UploadBlock (k : glconst_t) (g : gl_t) : gl_t :=
  if g.lm.dirty = false then g
  else
    { g with
      textures := store g.textures (k.TEXNUM_LIGHTMAP + g.lm.nummaps)
        (fun i => if i < k.LM_BLOCK_WIDTH * k.LM_BLOCK_HEIGHT * 4 then g.lm.buffer i else 0)
      lm := { g.lm with
        nummaps := g.lm.nummaps + 1
        highwater := if g.lm.highwater < g.lm.nummaps + 1 then g.lm.nummaps + 1
          else g.lm.highwater } }

def MAX_LIGHTSTYLES : Nat := 256

/-- The static `fake` style of `build_style_map`. -/
def fake_style : lightstyle_t := ⟨1, fun _ => 1⟩

/-- The function `build_style_map(dynamic)`. With `dynamic = 0` the style table becomes the
single fullbright `fake` style. -/
def build_style_map (g : gl_t) (dynamic : ℤ) : gl_t :=
  if dynamic = 0 then
    -- make all styles fullbright
    { g with
      lightstyles := fun _ => fake_style
      lightstylemap := fun i => if i < MAX_LIGHTSTYLES then 0 else g.lightstylemap i }
  else
    let m := forLoop MAX_LIGHTSTYLES (fun i a => store a i i) g.lightstylemap
    -- make dynamic styles fullbright
    let m := if dynamic ≠ 1 then forLoop 31 (fun i' a => store a (i' + 1) 0) m else m
    { g with lightstylemap := m }

/-- The function `LM_BeginBuilding`. -/
def LM_BeginBuilding (e : env_t) (g : gl_t) : gl_t :=
  build_style_map { g with lm := LM_InitBlock e.k g.lm } 0

/-- The function `LM_EndBuilding`. -/
def LM_EndBuilding (e : env_t) (g : gl_t) : gl_t :=
  let g := LM_UploadBlock e.k g
  build_style_map { g with lm := LM_InitBlock e.k g.lm } e.gl_dynamic

/-- The function `LM_FreeLightmaps`. -/
def LM_FreeLightmaps (g : gl_t) : gl_t :=
  { g with lm := { g.lm with nummaps := 0 } }

/-- What `LM_BuildSurface` returns and leaves behind: the `qboolean`, the globals, the
surface and the vertex array. -/
structure build_result_t where
  ok : Bool
  g : gl_t
  surf : mface_t
  vbo : Nat → vec_t

/-- One pass of the vertex loop of `LM_BuildSurface`, on the array and the running pointer
`vbo`. -/
def normalize_lmtc (k : glconst_t) (s t : ℤ) (v : (Nat → vec_t) × Nat) :
    (Nat → vec_t) × Nat :=
  let a := store v.1 (v.2 + 5) (v.1 (v.2 + 5) + (s : vec_t))
  let a := store a (v.2 + 6) (a (v.2 + 6) + (t : vec_t))
  let a := store a (v.2 + 5) (a (v.2 + 5) / ((k.LM_BLOCK_WIDTH * 16 : Nat) : vec_t))
  let a := store a (v.2 + 6) (a (v.2 + 6) / ((k.LM_BLOCK_HEIGHT * 16 : Nat) : vec_t))
  (a, v.2 + VERTEX_SIZE)

/-- The tail of `LM_BuildSurface` once a block with origin `(s, t)` is allocated and the
column heights are `inuse`. The locals `s` and `t` are 32-bit `int`s. -/
def LM_PlaceSurface (e : env_t) (g : gl_t) (surf : mface_t) (vbo : Nat → vec_t) (base : Nat)
    (inuse : Nat → Nat) (s t : Nat) : build_result_t :=
  let g := { g with lm := { g.lm with inuse := inuse, dirty := true } }
  -- store the surface lightmap parameters
  let surf := { surf with
    light_s := s
    light_t := t
    texnum := store surf.texnum 1 (e.k.TEXNUM_LIGHTMAP + g.lm.nummaps) }
  -- build the primary lightmap
  let r := build_primary_lightmap e g surf
  -- normalize and store lmtc in vertices
  let s' : ℤ := wrap_int (wrap_int ((s : ℤ) * 16 + 8) - r.2.texturemins 0)
  let t' : ℤ := wrap_int (wrap_int ((t : ℤ) * 16 + 8) - r.2.texturemins 1)
  let v := forLoop r.2.numsurfedges (fun _ v => normalize_lmtc e.k s' t' v) (vbo, base)
  ⟨true, r.1, r.2, v.1⟩

/-- The allocation part of `LM_BuildSurface`, from the first `LM_AllocBlock` on: try the
current page; failing that, upload it, stop if the page count has reached
`LM_MAX_LIGHTMAPS`, otherwise reset the page and try again. -/
def LM_BuildSurface_alloc (e : env_t) (g : gl_t) (surf : mface_t) (vbo : Nat → vec_t)
    (base : Nat) (smax tmax : ℤ) : build_result_t :=
  match LM_AllocBlock e g.lm smax.toNat tmax.toNat with
  | some (inuse, s, t) => LM_PlaceSurface e g surf vbo base inuse s t
  | none =>
    let g := LM_UploadBlock e.k g
    if g.lm.nummaps = e.k.LM_MAX_LIGHTMAPS then
      ⟨false, { g with eprintf := emsg_t.LM_MAX_LIGHTMAPS_exceeded :: g.eprintf }, surf, vbo⟩
    else
      let g := { g with lm := LM_InitBlock e.k g.lm }
      match LM_AllocBlock e g.lm smax.toNat tmax.toNat with
      | none =>
        ⟨false, { g with eprintf := emsg_t.LM_AllocBlock_failed :: g.eprintf }, surf, vbo⟩
      | some (inuse, s, t) => LM_PlaceSurface e g surf vbo base inuse s t

/-- The function `LM_BuildSurface(surf, vbo)`, `vbo` being the index `base` of the vertex
array. -/
def LM_BuildSurface (e : env_t) (g : gl_t) (surf : mface_t) (vbo : Nat → vec_t) (base : Nat) :
    build_result_t :=
  -- validate extents
  if surf.extents 0 < 0 ∨ surf.extents 0 > MAX_SURFACE_EXTENTS ∨
      surf.extents 1 < 0 ∨ surf.extents 1 > MAX_SURFACE_EXTENTS then
    ⟨false, { g with eprintf := emsg_t.bad_surface_extents :: g.eprintf }, surf, vbo⟩
  else
    -- validate blocklights size
    let smax := S_MAX surf
    let tmax := T_MAX surf
    let size := smax * tmax
    if size > MAX_BLOCKLIGHTS then
      ⟨false, { g with eprintf := emsg_t.MAX_BLOCKLIGHTS_exceeded :: g.eprintf }, surf, vbo⟩
    else
      -- validate lightmap bounds
      let src : ℤ := (surf.lightmap : ℤ) + (surf.numstyles : ℤ) * size * 3
      let ptr : ℤ := ((e.bsp.lightmap + e.bsp.numlightmapbytes : Nat) : ℤ)
      if src > ptr then
        ⟨false, { g with eprintf := emsg_t.bad_surface_lightmap :: g.eprintf }, surf, vbo⟩
      else LM_BuildSurface_alloc e g surf vbo base smax tmax

/-! ## Polygon building -/

/-- The macro `DotProduct(x, y)`. -/
def DotProduct (x y : Nat → vec_t) : vec_t :=
  x 0 * y 0 + x 1 * y 1 + x 2 * y 2

/-- Loop state of `build_surface_poly`: the vertex array with the running pointer `vbo`,
the running surfedge index, and the running bounds `mins[0..1]`, `maxs[0..1]`. -/
structure poly_loop_t where
  vbo : Nat → vec_t
  ptr : Nat
  src_surfedge : Nat
  mins0 : vec_t
  mins1 : vec_t
  maxs0 : vec_t
  maxs1 : vec_t

/-- One pass of the edge loop of `build_surface_poly`. -/
def poly_vertex (surf : mface_t) (s : poly_loop_t) : poly_loop_t :=
  let texinfo := surf.texinfo
  let scale0 : vec_t := 1 / (texinfo.image.width : vec_t)
  let scale1 : vec_t := 1 / (texinfo.image.height : vec_t)
  let src_edge := (surf.firstsurfedge s.src_surfedge).edge
  let src_vert := src_edge.v (surf.firstsurfedge s.src_surfedge).vert
  -- vertex coordinates
  let a := store s.vbo s.ptr (src_vert.point 0)
  let a := store a (s.ptr + 1) (src_vert.point 1)
  let a := store a (s.ptr + 2) (src_vert.point 2)
  -- texture0 coordinates
  let tc0 := DotProduct (fun c => a (s.ptr + c)) (texinfo.axis 0) + texinfo.offset 0
  let tc1 := DotProduct (fun c => a (s.ptr + c)) (texinfo.axis 1) + texinfo.offset 1
  let mins0 := if s.mins0 > tc0 then tc0 else s.mins0
  let maxs0 := if s.maxs0 < tc0 then tc0 else s.maxs0
  let mins1 := if s.mins1 > tc1 then tc1 else s.mins1
  let maxs1 := if s.maxs1 < tc1 then tc1 else s.maxs1
  let a := store a (s.ptr + 3) (tc0 * scale0)
  let a := store a (s.ptr + 4) (tc1 * scale1)
  -- texture1 coordinates
  let a := store a (s.ptr + 5) tc0
  let a := store a (s.ptr + 6) tc1
  ⟨a, s.ptr + VERTEX_SIZE, s.src_surfedge + 1, mins0, mins1, maxs0, maxs1⟩

/-- The function `build_surface_poly(surf, vbo)`, `vbo` being the index `base` of the
vertex array: the surface and the vertex array afterwards. The locals `bmins`, `bmaxs` and
the fields `texturemins`, `extents` are 32-bit `int`s. -/
def build_surface_poly (surf : mface_t) (vbo : Nat → vec_t) (base : Nat) :
    mface_t × (Nat → vec_t) :=
  let texnum := store (store surf.texnum 0 surf.texinfo.image.texnum) 1 0
  let s := forLoop surf.numsurfedges (fun _ s => poly_vertex surf s)
    ⟨vbo, base, 0, 99999, 99999, -99999, -99999⟩
  -- calculate surface extents
  let bmins0 : ℤ := wrap_int (Int.floor (s.mins0 / 16))
  let bmins1 : ℤ := wrap_int (Int.floor (s.mins1 / 16))
  let bmaxs0 : ℤ := wrap_int (Int.ceil (s.maxs0 / 16))
  let bmaxs1 : ℤ := wrap_int (Int.ceil (s.maxs1 / 16))
  ({ surf with
      texnum := texnum
      texturemins := store (store surf.texturemins 0 (wrap_int (bmins0 * 16))) 1
        (wrap_int (bmins1 * 16))
      extents := store (store surf.extents 0 (wrap_int (wrap_int (bmaxs0 - bmins0) * 16))) 1
        (wrap_int (wrap_int (bmaxs1 - bmins1) * 16)) },
    s.vbo)

/-- The function `duplicate_surface_lmtc(surf, vbo)`. -/
def duplicate_surface_lmtc (surf : mface_t) (vbo : Nat → vec_t) (base : Nat) : Nat → vec_t :=
  (forLoop surf.numsurfedges
    (fun _ (v : (Nat → vec_t) × Nat) =>
      let a := store v.1 (v.2 + 5) (v.1 (v.2 + 3))
      let a := store a (v.2 + 6) (a (v.2 + 4))
      (a, v.2 + VERTEX_SIZE))
    (vbo, base)).1


/-! ## World loading: the surface post-processing loop -/

/-- The state threaded through the surface loop of `GL_LoadWorld`: the globals of the
lightmap code, the hunk arena `gl_static.world.vertices` (`has_vertices` tells whether it
is in use, otherwise the GL buffer object is), the staging array `tess.vertices` with
`tess.numverts`, the contents of the GL buffer object, and the locals `count` and
`lastvert`. -/
structure load_t where
  g : gl_t
  has_vertices : Bool
  vertices : Nat → vec_t
  tess_vertices : Nat → vec_t
  tess_numverts : Nat
  buffer_data : Nat → vec_t
  count : Nat
  lastvert : Nat

/-- The function `upload_surface_vbo(lastvert)`: `qglBufferSubDataARB` copies the staged
floats to the buffer object at float offset `lastvert * VERTEX_SIZE`, and the stage is
reset. -/
def upload_surface_vbo (st : load_t) (lastvert : Nat) : load_t :=
  let offset := lastvert * VERTEX_SIZE
  let size := st.tess_numverts * VERTEX_SIZE
  { st with
    buffer_data := fun i =>
      if offset ≤ i ∧ i < offset + size then st.tess_vertices (i - offset)
      else st.buffer_data i
    tess_numverts := 0 }

/-- The C expression `x & ~m` on flag words. -/
def and_not (x m : Nat) : Nat := x ^^^ (x &&& m)

/-- The part of the loop body of `GL_LoadWorld` from `surf->firstvert = count` to the call
of `duplicate_surface_lmtc`, on the vertex array the surface is compiled into. -/
def post_process_surface (e : env_t) (g : gl_t) (surf : mface_t) (vbo : Nat → vec_t)
    (base count : Nat) : gl_t × mface_t × (Nat → vec_t) :=
  let surf := { surf with firstvert := count }
  let p := build_surface_poly surf vbo base
  let r : build_result_t :=
    if e.gl_fullbright ≠ 0 ∨ p.1.drawflags &&& e.k.SURF_NOLM_MASK ≠ 0 then
      ⟨true, g, { p.1 with lightmap := 0 }, p.2⟩
    else if p.1.lightmap ≠ 0 then
      let b := LM_BuildSurface e g p.1 p.2 base
      if b.ok = false then { b with surf := { b.surf with lightmap := 0 } } else b
    else ⟨true, g, p.1, p.2⟩
  if r.surf.lightmap = 0 then (r.g, r.surf, duplicate_surface_lmtc r.surf r.vbo base)
  else (r.g, r.surf, r.vbo)

/-- The first statement of the loop body of `GL_LoadWorld`:
`surf->drawflags |= surf->texinfo->c.flags & ~DSURF_PLANEBACK`. -/
def hack_flags (e : env_t) (surf : mface_t) : mface_t :=
  { surf with
    drawflags := surf.drawflags ||| and_not surf.texinfo.flags e.k.DSURF_PLANEBACK }

/-- The body of the surface loop of `GL_LoadWorld` for one surface. -/
def GL_LoadWorld_surface (e : env_t) (st : load_t) (surf : mface_t) : load_t × mface_t :=
  -- hack surface flags into drawflags for faster access
  let surf := hack_flags e surf
  if surf.drawflags &&& e.k.SURF_SKY ≠ 0 then (st, surf)
  else if st.has_vertices = true then
    let r := post_process_surface e st.g surf st.vertices (st.count * VERTEX_SIZE) st.count
    ({ st with g := r.1, vertices := r.2.2, count := st.count + r.2.1.numsurfedges }, r.2.1)
  else if surf.numsurfedges > e.k.TESS_MAX_VERTICES then
    ({ st with g := { st.g with eprintf := emsg_t.too_many_verts :: st.g.eprintf } }, surf)
  else
    -- upload VBO chunk if needed
    let st :=
      if st.tess_numverts + surf.numsurfedges > e.k.TESS_MAX_VERTICES then
        { upload_surface_vbo st st.lastvert with lastvert := st.count }
      else st
    let base := st.tess_numverts * VERTEX_SIZE
    let st := { st with tess_numverts := st.tess_numverts + surf.numsurfedges }
    let r := post_process_surface e st.g surf st.tess_vertices base st.count
    ({ st with g := r.1, tess_vertices := r.2.2, count := st.count + r.2.1.numsurfedges },
      r.2.1)

/-- The surface loop of `GL_LoadWorld` over the faces `bsp->faces[0 .. numfaces-1]`: the
final state and the faces as the loop leaves them. -/
def GL_LoadWorld_surfaces (e : env_t) (st : load_t) : List mface_t → load_t × List mface_t
  | [] => (st, [])
  | surf :: rest =>
    let r := GL_LoadWorld_surface e st surf
    let q := GL_LoadWorld_surfaces e r.1 rest
    (q.1, r.2 :: q.2)

/-- The statements of `GL_LoadWorld` that open the surface loop: `LM_BeginBuilding()`,
`count = 0`, `lastvert = 0`. -/
def begin_load (e : env_t) (st : load_t) : load_t :=
  { st with g := LM_BeginBuilding e st.g, count := 0, lastvert := 0 }

/-- The part of `GL_LoadWorld` from `LM_BeginBuilding` to `LM_EndBuilding`: the surface loop
from `count = lastvert = 0`, the upload of the last VBO chunk, and the end of the lightmap
building. -/
def GL_LoadWorld_build (e : env_t) (st : load_t) (faces : List mface_t) :
    load_t × List mface_t :=
  let r := GL_LoadWorld_surfaces e (begin_load e st) faces
  let st := if r.1.has_vertices = false then upload_surface_vbo r.1 r.1.lastvert else r.1
  ({ st with g := LM_EndBuilding e st.g }, r.2)

/-! ## The block allocator -/

/-- The highest filled column among the `w` columns starting at `x`. -/
def column_top (inuse : Nat → Nat) (x w : Nat) : Nat :=
  forLoop w (fun j m => if m < inuse (x + j) then inuse (x + j) else m) 0

/-- Modelled from the spec: the allocator `GL_AllocBlock`, whose source file is not among
the sources. "Maintain, for each of the page's column positions, the current filled
height; to place a `width x height` block, scan for the [...] contiguous run of `width`
columns whose maximum filled height plus `height` does not exceed the page height, pick
the best-fit position [...], and raise the filled height for that column range." The
best fit is read as the lowest position, the leftmost one among equals; only runs that lie
inside the page are scanned. -/
def GL_AllocBlock : allocator_t := fun width height inuse w h =>
  let best : Option (Nat × Nat) :=
    forLoop (width + 1 - w)
      (fun x best =>
        let top := column_top inuse x w
        if top + h ≤ height then
          match best with
          | none => some (x, top)
          | some (bx, bt) => if top < bt then some (x, top) else some (bx, bt)
        else best)
      none
  match best with
  | none => none
  | some (x, top) => some (fun i => if x ≤ i ∧ i < x + w then top + h else inuse i, x, top)


/-! ## Reference notions used to state the properties -/

/-- The offset, modulated and clamped channel `max((x + add) * modulate, 0)`, stated with
the order-theoretic maximum. -/
def clamped (w : world_t) (x modulate : vec_t) : vec_t :=
  max ((x + w.add) * modulate) 0

/-- Sample values for the constants of `gl.h`: 256 x 256 pages, 32 of them, the usual
luminance weights. -/
def sample_const : glconst_t where
  LM_BLOCK_WIDTH := 256
  LM_BLOCK_HEIGHT := 256
  LM_MAX_LIGHTMAPS := 32
  TEXNUM_LIGHTMAP := 1024
  TESS_MAX_VERTICES := 4096
  SURF_SKY := 4
  SURF_NOLM_MASK := 60
  DSURF_PLANEBACK := 1
  lum_r := 2126 / 10000
  lum_g := 7152 / 10000
  lum_b := 722 / 10000

/-- The blend the light accumulator is meant to leave in `blocklights[idx]` for a block of
`n` texels: the sum over the recorded styles `i < numstyles` of the style's sample byte
times the style's multiplier for the channel `idx % 3`. -/
def style_blend (e : env_t) (g : gl_t) (surf : mface_t) (n idx : Nat) : vec_t :=
  Finset.sum (Finset.range surf.numstyles) (fun i =>
    (e.lightdata (surf.lightmap + 3 * n * i + idx) : vec_t) *
      (LIGHT_STYLE g surf i).rgb (idx % 3))

/-- What the code writes for the first recorded style: the bare sample when the style's
white level is 1, the scaled sample otherwise. -/
def first_style_term (e : env_t) (g : gl_t) (surf : mface_t) (idx : Nat) : vec_t :=
  if (LIGHT_STYLE g surf 0).white = 1 then (e.lightdata (surf.lightmap + idx) : vec_t)
  else (e.lightdata (surf.lightmap + idx) : vec_t) * (LIGHT_STYLE g surf 0).rgb (idx % 3)

/-- The point of the `i`-th vertex of the surface's edge loop. -/
def loop_point (surf : mface_t) (i : Nat) : Nat → vec_t :=
  ((surf.firstsurfedge i).edge.v (surf.firstsurfedge i).vert).point

/-- The raw texel coordinate of the `i`-th loop vertex on axis `k`:
`dot(point, axis[k]) + offset[k]`. -/
def raw_tc (surf : mface_t) (k i : Nat) : vec_t :=
  DotProduct (loop_point surf i) (surf.texinfo.axis k) + surf.texinfo.offset k

/-- The compiled vertex record: slot `c` of the `i`-th loop vertex. -/
def vertex_slot (surf : mface_t) (i c : Nat) : vec_t :=
  if c < 3 then loop_point surf i c
  else if c = 3 then raw_tc surf 0 i * (1 / (surf.texinfo.image.width : vec_t))
  else if c = 4 then raw_tc surf 1 i * (1 / (surf.texinfo.image.height : vec_t))
  else if c = 5 then raw_tc surf 0 i
  else raw_tc surf 1 i

/-- The running minimum of `f 0, .., f (n-1)` started from `init`. -/
def run_min (init : vec_t) (f : Nat → vec_t) : Nat → vec_t
  | 0 => init
  | n + 1 => min (run_min init f n) (f n)

/-- The running maximum of `f 0, .., f (n-1)` started from `init`. -/
def run_max (init : vec_t) (f : Nat → vec_t) : Nat → vec_t
  | 0 => init
  | n + 1 => max (run_max init f n) (f n)

/-- The block bounds of the surface on axis `k` fit the 32-bit `int`s of
`build_surface_poly`: with `lo` the running minimum started at 99999 and `hi` the running
maximum started at -99999, `-2^31 <= 16 * floor(lo / 16)` and
`16 * (ceil(hi / 16) - floor(lo / 16)) <= 2^31 - 1`. -/
def block_fits_int (surf : mface_t) (k : Nat) : Prop :=
  -2147483648 ≤ Int.floor (run_min 99999 (raw_tc surf k) surf.numsurfedges / 16) * 16 ∧
  (Int.ceil (run_max (-99999) (raw_tc surf k) surf.numsurfedges / 16) -
    Int.floor (run_min 99999 (raw_tc surf k) surf.numsurfedges / 16)) * 16 ≤ 2147483647

/-- The shift `(s << 4) + 8 - texturemins[k]` that `LM_BuildSurface` adds to the raw
coordinates fits the 32-bit `int` that holds it, for the block origin coordinate `s` and
the lower bound `tmin`. -/
def origin_fits_int (s : Nat) (tmin : ℤ) : Prop :=
  (s : ℤ) * 16 + 8 ≤ 2147483647 ∧ -2147483648 ≤ (s : ℤ) * 16 + 8 - tmin ∧
    (s : ℤ) * 16 + 8 - tmin ≤ 2147483647

/-- The two calls `build_surface_poly(surf, vbo); LM_BuildSurface(surf, vbo)` that
`GL_LoadWorld` makes for a surface with light data. -/
def build_and_light (e : env_t) (g : gl_t) (surf : mface_t) (vbo : Nat → vec_t) (base : Nat) :
    build_result_t :=
  LM_BuildSurface e g (build_surface_poly surf vbo base).1 (build_surface_poly surf vbo base).2
    base

/-- The byte `out[c]` of the four bytes written by `adjust_color_ub`. -/
def rgba_get (x : byte × byte × byte × byte) (c : Nat) : byte :=
  if c = 0 then x.1 else if c = 1 then x.2.1 else if c = 2 then x.2.2.1 else x.2.2.2

/-- The byte `c` of the texel that `adjust_color_ub` makes of the scratch entries
`bl[0..2]` at index `b`. -/
def texel_byte (e : env_t) (blocklights : Nat → vec_t) (b c : Nat) : byte :=
  rgba_get (adjust_color_ub e.k e.world (blocklights b) (blocklights (b + 1))
    (blocklights (b + 2))) c

/-- The surface passes the three validations at the head of `LM_BuildSurface`: both
extents within `0 .. MAX_SURFACE_EXTENTS` and the sample range inside the lightmap
lump. -/
def passes_validation (e : env_t) (surf : mface_t) : Prop :=
  (0 ≤ surf.extents 0 ∧ surf.extents 0 ≤ 2048 ∧ 0 ≤ surf.extents 1 ∧ surf.extents 1 ≤ 2048) ∧
  (surf.lightmap : ℤ) + (surf.numstyles : ℤ) * (S_MAX surf * T_MAX surf) * 3 ≤
    ((e.bsp.lightmap + e.bsp.numlightmapbytes : Nat) : ℤ)

/-- The current page has no room for a block of `w x h` texels. -/
def page_full (e : env_t) (inuse : Nat → Nat) (w h : Nat) : Prop :=
  e.alloc e.k.LM_BLOCK_WIDTH e.k.LM_BLOCK_HEIGHT inuse w h = none

/-- A block of `w x h` texels fills a page: it is placed on a page reset by
`LM_InitBlock`, and the page then has no room for a second one. -/
def fills_page (e : env_t) (w h : Nat) : Prop :=
  ∀ a : Nat → Nat, ∃ u s t,
    e.alloc e.k.LM_BLOCK_WIDTH e.k.LM_BLOCK_HEIGHT
      (forLoop e.k.LM_BLOCK_WIDTH (fun i a => store a i 0) a) w h = some (u, s, t) ∧
    e.alloc e.k.LM_BLOCK_WIDTH e.k.LM_BLOCK_HEIGHT u w h = none

/-- The builder holds `m` finished pages and a dirty current page with no room for a block
of `w x h` texels. -/
def full_page_state (e : env_t) (w h m : Nat) (g : gl_t) : Prop :=
  g.lm.nummaps = m ∧ g.lm.dirty = true ∧ page_full e g.lm.inuse w h

/-- The vertices of the faces that are not sky, as the size computation of `GL_LoadWorld`
counts them. -/
def count_verts (e : env_t) : List mface_t → Nat
  | [] => 0
  | surf :: rest =>
    (if (surf.drawflags ||| and_not surf.texinfo.flags e.k.DSURF_PLANEBACK) &&& e.k.SURF_SKY ≠ 0
      then 0 else surf.numsurfedges) + count_verts e rest

/-- A face with light data whose block, after `build_surface_poly`, passes the validations
of `LM_BuildSurface` and measures `w x h` texels; the face is neither sky nor exempt from
lightmapping. -/
def lit_page_filler (e : env_t) (surf : mface_t) (w h : Nat) : Prop :=
  (hack_flags e surf).drawflags &&& e.k.SURF_SKY = 0 ∧
  (hack_flags e surf).drawflags &&& e.k.SURF_NOLM_MASK = 0 ∧
  surf.lightmap ≠ 0 ∧
  ∀ (count : Nat) (vbo : Nat → vec_t) (base : Nat),
    passes_validation e
      (build_surface_poly { hack_flags e surf with firstvert := count } vbo base).1 ∧
    (S_MAX (build_surface_poly { hack_flags e surf with firstvert := count } vbo base).1).toNat
      = w ∧
    (T_MAX (build_surface_poly { hack_flags e surf with firstvert := count } vbo base).1).toNat
      = h

/-! ## Sample data -/

/-- The vector `(a, b, c)`. -/
def vec3 (a b c : vec_t) : Nat → vec_t :=
  fun i => if i = 0 then a else if i = 1 then b else c

/-- A surfedge whose selected vertex is the point `(x, y, z)`. -/
def sample_edge (x y z : vec_t) : msurfedge_t :=
  ⟨⟨fun _ => ⟨vec3 x y z⟩⟩, 0⟩

/-- A projection onto the first two coordinates, with a 64 x 64 image. -/
def sample_texinfo : mtexinfo_t where
  axis := fun k => if k = 0 then vec3 1 0 0 else vec3 0 1 0
  offset := fun _ => 0
  image := ⟨7, 64, 64⟩
  flags := 0

/-- A triangle whose raw texel coordinates range from 3.2 to 130.7 on both axes, with one
light style and its samples at address 1000. -/
def sample_surf : mface_t where
  firstsurfedge := fun i =>
    if i = 0 then sample_edge (16 / 5) (16 / 5) 0
    else if i = 1 then sample_edge (1307 / 10) (16 / 5) 0
    else sample_edge (1307 / 10) (1307 / 10) 0
  numsurfedges := 3
  plane := ⟨vec3 0 0 1, 0⟩
  texinfo := sample_texinfo
  lightmap := 1000
  styles := fun i => if i = 0 then 0 else 255
  numstyles := 1
  stylecache := fun _ => 0
  texturemins := fun _ => 0
  extents := fun _ => 0
  texnum := fun _ => 0
  drawflags := 0
  firstvert := 0
  light_s := 0
  light_t := 0
  dlightframe := 0
  dlightbits := 0

/-- Globals at start-up: an empty builder, a zeroed scratch array, the identity style map
and a style table whose entries are all at nominal intensity. -/
def sample_gl : gl_t where
  lm := ⟨fun _ => 0, false, 0, 0, 0, fun _ => 0⟩
  blocklights := fun _ => 0
  lightstyles := fun _ => ⟨1, fun _ => 1⟩
  lightstylemap := fun i => i
  textures := fun _ _ => 0
  eprintf := []

/-- Surroundings with the sample constants, neutral colour settings, a lightmap lump of
100000 bytes at address 1000 and the modelled allocator. -/
def sample_env : env_t where
  k := sample_const
  world := ⟨0, 1, 1⟩
  bsp := ⟨1000, 100000⟩
  lightdata := fun a => a % 256
  alloc := GL_AllocBlock
  gl_fullbright := 0
  gl_dynamic := 1

/-- A surface with a single loop vertex, at raw texel coordinate 200000 on the first
axis. -/
def far_surf : mface_t :=
  { sample_surf with
    firstsurfedge := fun _ => sample_edge 200000 0 0
    numsurfedges := 1 }

/-- The sample surface as `build_surface_poly` leaves it: extents 144 on both axes, that
is a block of 10 x 10 texels. -/
def lit_surf : mface_t :=
  { sample_surf with extents := fun _ => 144 }

/-- The sample globals with a tinted style table: every style has white level 1 (the
highest of its RGB) and multipliers (1, 1/2, 1/2). -/
def tinted_gl : gl_t :=
  { sample_gl with lightstyles := fun _ => ⟨1, vec3 1 (1 / 2) (1 / 2)⟩ }

/-- A lit triangle whose raw texel coordinates range from 0 to 2048 on both axes: a block
of 129 x 129 texels, the largest `LM_BuildSurface` accepts. -/
def wide_face : mface_t :=
  { sample_surf with
    firstsurfedge := fun i =>
      if i = 0 then sample_edge 0 0 0
      else if i = 1 then sample_edge 2048 0 0
      else sample_edge 2048 2048 0 }

/-- A world of 34 such faces: two more than the 32 pages of 256 x 256 texels hold, since
a page has room for only one block of 129 x 129 texels. -/
def crowded_world : List mface_t := List.replicate 34 wide_face

/-- The state in which `GL_LoadWorld` reaches `LM_BeginBuilding` for a world without a
buffer object: the hunk arena in use, no page built (`lm.nummaps = 0`). -/
def sample_load : load_t where
  g := sample_gl
  has_vertices := true
  vertices := fun _ => 0
  tess_vertices := fun _ => 0
  tess_numverts := 0
  buffer_data := fun _ => 0
  count := 0
  lastvert := 0

/-! ## Reference notions for the later properties -/

/-- The sample surface as `build_surface_poly` leaves it, with no recorded style. -/
def unstyled_surf : mface_t :=
  { lit_surf with numstyles := 0 }

/-- The state after the statement "upload VBO chunk if needed" of the loop body of
`GL_LoadWorld`, for the buffer-object path. -/
def flush_if_needed (e : env_t) (st : load_t) (surf : mface_t) : load_t :=
  if st.tess_numverts + surf.numsurfedges > e.k.TESS_MAX_VERTICES then
    { upload_surface_vbo st st.lastvert with lastvert := st.count }
  else st

/-- The vertex array a surface is compiled into: the hunk arena when it is in use, the
staging array `tess.vertices` otherwise. -/
def compiled_array (st : load_t) : Nat → vec_t :=
  if st.has_vertices = true then st.vertices else st.tess_vertices

/-- The index of that array at which the loop body of `GL_LoadWorld` compiles the surface:
`count * VERTEX_SIZE` in the hunk arena, `tess.numverts * VERTEX_SIZE` (after the chunk
upload, if one is needed) in the staging array. -/
def compiled_base (e : env_t) (st : load_t) (surf : mface_t) : Nat :=
  if st.has_vertices = true then st.count * VERTEX_SIZE
  else (flush_if_needed e st surf).tess_numverts * VERTEX_SIZE

/-- The call of `LM_BuildSurface` that the loop body of `GL_LoadWorld` makes for a surface
with light data. -/
def load_lit (e : env_t) (st : load_t) (surf : mface_t) : build_result_t :=
  LM_BuildSurface e st.g
    (build_surface_poly { hack_flags e surf with firstvert := st.count } (compiled_array st)
      (compiled_base e st surf)).1
    (build_surface_poly { hack_flags e surf with firstvert := st.count } (compiled_array st)
      (compiled_base e st surf)).2
    (compiled_base e st surf)

/-- The surface, globals and vertex array as the loop body of `GL_LoadWorld` has them right
before the test `if (!surf->lightmap)`. -/
def lightmap_decision (e : env_t) (g : gl_t) (surf : mface_t) (vbo : Nat → vec_t)
    (base count : Nat) : build_result_t :=
  if e.gl_fullbright ≠ 0 ∨
      (build_surface_poly { surf with firstvert := count } vbo base).1.drawflags &&&
        e.k.SURF_NOLM_MASK ≠ 0 then
    ⟨true, g, { (build_surface_poly { surf with firstvert := count } vbo base).1 with
      lightmap := 0 }, (build_surface_poly { surf with firstvert := count } vbo base).2⟩
  else if (build_surface_poly { surf with firstvert := count } vbo base).1.lightmap ≠ 0 then
    if (LM_BuildSurface e g (build_surface_poly { surf with firstvert := count } vbo base).1
        (build_surface_poly { surf with firstvert := count } vbo base).2 base).ok = false then
      { LM_BuildSurface e g (build_surface_poly { surf with firstvert := count } vbo base).1
          (build_surface_poly { surf with firstvert := count } vbo base).2 base with
        surf :=
          { (LM_BuildSurface e g
              (build_surface_poly { surf with firstvert := count } vbo base).1
              (build_surface_poly { surf with firstvert := count } vbo base).2 base).surf with
            lightmap := 0 } }
    else
      LM_BuildSurface e g (build_surface_poly { surf with firstvert := count } vbo base).1
        (build_surface_poly { surf with firstvert := count } vbo base).2 base
  else ⟨true, g, (build_surface_poly { surf with firstvert := count } vbo base).1,
    (build_surface_poly { surf with firstvert := count } vbo base).2⟩

/-- The sample triangle without light data (`surf->lightmap == NULL`). -/
def dark_surf : mface_t :=
  { sample_surf with lightmap := 0 }

/-! ## Dynamic lights and per-frame refresh

The per-frame code is compiled under `USE_DLIGHTS`, which the embedding takes as set. -/

/-- The structure `dlight_t` of `ref_public.h`. -/
structure dlight_t where
  origin : Nat → vec_t
  transformed : Nat → vec_t
  color : Nat → vec_t
  intensity : vec_t

/-- The fields of `glr` and the configuration that the per-frame code reads, together with
the constant and the inline function it takes from headers that are not among the
sources. -/
structure glr_t where
  /-- the frame token `glr.dlightframe` -/
  dlightframe : ℤ
  /-- the list `glr.fd.dlights[0 .. num_dlights - 1]` -/
  num_dlights : Nat
  dlights : Nat → dlight_t
  /-- the value `gl_dlight_falloff->integer` -/
  gl_dlight_falloff : ℤ
  /-- the constant `DLIGHT_CUTOFF` of `gl.h` -/
  DLIGHT_CUTOFF : ℤ
  /-- the function `PlaneDiffFast(v, plane)` of the shared headers -/
  PlaneDiffFast : (Nat → vec_t) → cplane_t → vec_t

/-- The globals that the per-frame code writes: the renderer globals and the statistics
counter `c.texUploads`. -/
structure refresh_t where
  g : gl_t
  texUploads : Nat

/-- The C conversion of a `float` to `int`: truncation toward zero. -/
def float_to_int (x : vec_t) : ℤ :=
  if 0 ≤ x then Int.floor x else Int.ceil x

/-- Loop state of the texel loops of `add_dynamic_lights`: the scratch array and the running
pointer `bl`. -/
structure dlight_loop_t where
  blocklights : Nat → vec_t
  bl : Nat

/-- One pass of the inner texel loop of `add_dynamic_lights`, for the column `s`. -/
def light_texel (fd : glr_t) (light : dlight_t) (k : ℤ) (radius : vec_t) (loc0 td : ℤ)
    (s : Nat) (st : dlight_loop_t) : dlight_loop_t :=
  let sd := |loc0 - (s : ℤ) * 16|
  let j := if sd > td then sd + td / 2 else td + sd / 2
  let a :=
    if ((j + fd.DLIGHT_CUTOFF : ℤ) : vec_t) < radius then
      let f := radius - ((j + fd.DLIGHT_CUTOFF * k : ℤ) : vec_t)
      let a := store st.blocklights st.bl (st.blocklights st.bl + light.color 0 * f)
      let a := store a (st.bl + 1) (a (st.bl + 1) + light.color 1 * f)
      store a (st.bl + 2) (a (st.bl + 2) + light.color 2 * f)
    else st.blocklights
  ⟨a, st.bl + 3⟩

/-- One pass of the outer texel loop of `add_dynamic_lights`, for the row `t`. -/
def light_row (fd : glr_t) (light : dlight_t) (k : ℤ) (radius : vec_t) (loc0 loc1 smax : ℤ)
    (t : Nat) (st : dlight_loop_t) : dlight_loop_t :=
  let td := |loc1 - (t : ℤ) * 16|
  forLoop smax.toNat (fun s st => light_texel fd light k radius loc0 td s st) st

/-- One pass of the light loop of `add_dynamic_lights`, for the light number `i`. -/
def add_dynamic_light (fd : glr_t) (surf : mface_t) (smax tmax k : ℤ) (scale : vec_t)
    (i : Nat) (blocklights : Nat → vec_t) : Nat → vec_t :=
  if surf.dlightbits &&& (1 <<< i) = 0 then blocklights
  else
    let light := fd.dlights i
    let plane := surf.plane
    let dist := fd.PlaneDiffFast light.transformed plane
    let radius := light.intensity * scale - |dist|
    if radius < (fd.DLIGHT_CUTOFF : vec_t) then blocklights
    else
      -- VectorMA(light->transformed, -dist, plane->normal, point)
      let point : Nat → vec_t := fun c => light.transformed c + (-dist) * plane.normal c
      let texinfo := surf.texinfo
      let loc0 := float_to_int (DotProduct point (texinfo.axis 0) + texinfo.offset 0)
      let loc1 := float_to_int (DotProduct point (texinfo.axis 1) + texinfo.offset 1)
      let loc0 := loc0 - surf.texturemins 0
      let loc1 := loc1 - surf.texturemins 1
      (forLoop tmax.toNat (fun t st => light_row fd light k radius loc0 loc1 smax t st)
        ⟨blocklights, 0⟩).blocklights

/-- The function `add_dynamic_lights(surf)` on the scratch array. -/
def add_dynamic_lights (fd : glr_t) (surf : mface_t) (blocklights : Nat → vec_t) :
    Nat → vec_t :=
  let smax := S_MAX surf
  let tmax := T_MAX surf
  let k : ℤ := if fd.gl_dlight_falloff ≠ 0 then 1 else 0
  let scale : vec_t := 1 + (1 / 10) * (k : vec_t)
  forLoop fd.num_dlights (fun i bl => add_dynamic_light fd surf smax tmax k scale i bl)
    blocklights

/-- The loop "put into texture format" of `update_dynamic_lightmap`: the local array
`temp` after `size` calls of `adjust_color_ub`. Only its first `4 * size` bytes are read
afterwards. -/
def texture_format (e : env_t) (blocklights : Nat → vec_t) (size : ℤ) : Nat → byte :=
  (forLoop size.toNat (fun _ s => put_texel e blocklights s) ⟨fun _ => 0, 0, 0⟩).buffer

/-- The OpenGL call `qglTexSubImage2D(GL_TEXTURE_2D, 0, xoffset, yoffset, w, h, GL_RGBA,
GL_UNSIGNED_BYTE, pixels)` on the RGBA bytes of an image of the given width: the texels of
the rectangle are replaced by the rows of `pixels`. -/
def TexSubImage2D (width : Nat) (image : Nat → byte) (xoffset yoffset : Nat) (w h : ℤ)
    (pixels : Nat → byte) : Nat → byte :=
  fun idx =>
    let col := idx / 4 % width
    let row := idx / 4 / width
    if xoffset ≤ col ∧ col < xoffset + w.toNat ∧ yoffset ≤ row ∧ row < yoffset + h.toNat then
      pixels (((row - yoffset) * w.toNat + (col - xoffset)) * 4 + idx % 4)
    else image idx

/-- The function `update_dynamic_lightmap(surf)`: the globals and the surface afterwards. -/
def update_dynamic_lightmap (e : env_t) (fd : glr_t) (r : refresh_t) (surf : mface_t) :
    refresh_t × mface_t :=
  let smax := S_MAX surf
  let tmax := T_MAX surf
  let size := smax * tmax
  -- add all the lightmaps
  let p := add_light_styles e r.g surf size
  -- add all the dynamic lights
  let q : (Nat → vec_t) × mface_t :=
    if p.2.dlightframe = fd.dlightframe then (add_dynamic_lights fd p.2 p.1, p.2)
    else (p.1, { p.2 with dlightframe := 0 })
  -- put into texture format
  let temp := texture_format e q.1 size
  -- upload lightmap subimage
  let image := TexSubImage2D e.k.LM_BLOCK_WIDTH (r.g.textures (q.2.texnum 1))
    q.2.light_s q.2.light_t smax tmax temp
  ({ g := { r.g with
        blocklights := q.1
        textures := store r.g.textures (q.2.texnum 1) image }
     texUploads := r.texUploads + 1 }, q.2)

/-- The style loop of `GL_PushLights` from the style number `i` on, with `n` styles left to
check: the first style whose white level differs from the cached one triggers the update
and ends the function. -/
def check_styles (e : env_t) (fd : glr_t) (r : refresh_t) (surf : mface_t) (i : Nat) :
    Nat → refresh_t × mface_t
  | 0 => (r, surf)
  | n + 1 =>
    if (LIGHT_STYLE r.g surf i).white ≠ surf.stylecache i then
      update_dynamic_lightmap e fd r surf
    else check_styles e fd r surf (i + 1) n

/-- The function `GL_PushLights(surf)`. -/
def GL_PushLights (e : env_t) (fd : glr_t) (r : refresh_t) (surf : mface_t) :
    refresh_t × mface_t :=
  -- dynamic this frame or dynamic previously
  if surf.dlightframe ≠ 0 then update_dynamic_lightmap e fd r surf
  else
    -- check for light style updates
    check_styles e fd r surf 0 surf.numstyles

/-- The call `qglTexImage2D(GL_TEXTURE_2D, 0, lm.comp, LM_BLOCK_WIDTH, LM_BLOCK_HEIGHT, 0,
GL_RGBA, GL_UNSIGNED_BYTE, lm.buffer)` with the texture `texnum` bound. -/
def upload_page (k : glconst_t) (g : gl_t) (texnum : Nat) : gl_t :=
  { g with
    textures := store g.textures texnum
      (fun i => if i < k.LM_BLOCK_WIDTH * k.LM_BLOCK_HEIGHT * 4 then g.lm.buffer i else 0) }

/-- Loop state of `LM_RebuildSurfaces`: the globals and the local `texnum`. -/
structure rebuild_t where
  r : refresh_t
  texnum : Nat

/-- The body of the surface loop of `LM_RebuildSurfaces` for one surface. -/
def LM_RebuildSurfaces_surface (e : env_t) (st : rebuild_t) (surf : mface_t) :
    rebuild_t × mface_t :=
  if surf.lightmap = 0 then (st, surf)
  else if surf.drawflags &&& e.k.SURF_NOLM_MASK ≠ 0 then (st, surf)
  else if surf.texnum 1 = 0 then (st, surf)
  else
    let st : rebuild_t :=
      if surf.texnum 1 ≠ st.texnum then
        -- done with previous lightmap
        ⟨⟨upload_page e.k st.r.g st.texnum, st.r.texUploads + 1⟩, surf.texnum 1⟩
      else st
    let b := build_primary_lightmap e st.r.g surf
    (⟨⟨b.1, st.r.texUploads⟩, st.texnum⟩, b.2)

/-- The surface loop of `LM_RebuildSurfaces` over the faces of the world. -/
def LM_RebuildSurfaces_loop (e : env_t) (st : rebuild_t) :
    List mface_t → rebuild_t × List mface_t
  | [] => (st, [])
  | surf :: rest =>
    let a := LM_RebuildSurfaces_surface e st surf
    let q := LM_RebuildSurfaces_loop e a.1 rest
    (q.1, a.2 :: q.2)

/-- The function `LM_RebuildSurfaces`, on the faces of the loaded world
(`gl_static.world.cache`, `none` when no world is loaded). -/
def LM_RebuildSurfaces (e : env_t) (r : refresh_t) (cache : Option (List mface_t)) :
    refresh_t × Option (List mface_t) :=
  match cache with
  | none => (r, none)
  | some faces =>
    let r : refresh_t := { r with g := build_style_map r.g e.gl_dynamic }
    if r.g.lm.nummaps = 0 then (r, some faces)
    else
      let l := LM_RebuildSurfaces_loop e ⟨r, e.k.TEXNUM_LIGHTMAP⟩ faces
      -- upload the last lightmap
      (⟨upload_page e.k l.1.r.g l.1.texnum, l.1.r.texUploads + 1⟩, some l.2)

/-! ## Sample data for the per-frame refresh -/

/-- A frame with token 5 and one white light of intensity 200 at height 100 above the
origin, no falloff, cutoff 64, and the plane distance as the dot product with the normal
minus the plane's distance. -/
def sample_frame : glr_t where
  dlightframe := 5
  num_dlights := 1
  dlights := fun _ => ⟨vec3 0 0 100, vec3 0 0 100, vec3 1 1 1, 200⟩
  gl_dlight_falloff := 0
  DLIGHT_CUTOFF := 64
  PlaneDiffFast := fun v p => DotProduct v p.normal - p.dist

/-- The frame after `sample_frame`: token 6 and no light. -/
def next_frame : glr_t :=
  { sample_frame with dlightframe := 6, num_dlights := 0 }

/-- The sample globals with no texture uploaded yet. -/
def sample_refresh : refresh_t := ⟨sample_gl, 0⟩

/-- The sample surface marked by light 0 on frame 5. -/
def marked_surf : mface_t :=
  { lit_surf with dlightframe := 5, dlightbits := 1 }

/-- The sample surface with its style cache up to date. -/
def quiet_surf : mface_t :=
  { lit_surf with stylecache := fun _ => 1 }

/-- The texel rectangle of a surface: its origin in the page, its page texture, and the
bounds that give its size. -/
def texel_rect (surf : mface_t) : Nat × Nat × Nat × (Nat → ℤ) × (Nat → ℤ) :=
  (surf.light_s, surf.light_t, surf.texnum 1, surf.texturemins, surf.extents)

/-! ## Reference notions for the dynamic lights -/

/-- The vertex buffer that the renderer draws from after the load: the hunk arena
`gl_static.world.vertices` when it is in use, the contents of the buffer object
otherwise. -/
def world_buffer (st : load_t) : Nat → vec_t :=
  if st.has_vertices = true then st.vertices else st.buffer_data

/-- The vertex buffer as the statements after the surface loop would leave it if the loop
ended in this state: the hunk arena, or the buffer object after
`upload_surface_vbo(lastvert)`. -/
def final_buffer (st : load_t) : Nat → vec_t :=
  if st.has_vertices = true then st.vertices
  else (upload_surface_vbo st st.lastvert).buffer_data

/-- The loop invariant of the chunked path: the vertices uploaded so far and the vertices
staged add up to the vertices compiled. -/
def chunk_invariant (st : load_t) : Prop :=
  st.has_vertices = false → st.lastvert + st.tess_numverts = st.count

/-- The sample state for a world with a buffer object: the staging array empty. -/
def sample_vbo_load : load_t :=
  { sample_load with has_vertices := false }

/-! ## Reference notions for the allocation and the staging bounds -/

/-- The extents of the surface pass the first validation of `LM_BuildSurface`. -/
def valid_extents (surf : mface_t) : Prop :=
  0 ≤ surf.extents 0 ∧ surf.extents 0 ≤ MAX_SURFACE_EXTENTS ∧
    0 ≤ surf.extents 1 ∧ surf.extents 1 ≤ MAX_SURFACE_EXTENTS

/-- The globals at the second `LM_AllocBlock` of `LM_BuildSurface`: after `LM_UploadBlock`
and `LM_InitBlock`. -/
def retry_state (e : env_t) (g : gl_t) : gl_t :=
  { LM_UploadBlock e.k g with lm := LM_InitBlock e.k (LM_UploadBlock e.k g).lm }

/-- The sample globals with a dirty page on which every column is filled to the top. -/
def full_gl : gl_t :=
  { sample_gl with lm := { sample_gl.lm with inuse := fun _ => 256, dirty := true } }

/-- A texel block placed on the page: its origin `(s, t)` and its size `w x h`. -/
structure block_t where
  s : Nat
  t : Nat
  w : Nat
  h : Nat

/-- The texel `(x, y)` lies in the rectangle `[s, s + w) x [t, t + h)` of the block. -/
def in_block (b : block_t) (x y : Nat) : Prop :=
  b.s ≤ x ∧ x < b.s + b.w ∧ b.t ≤ y ∧ y < b.t + b.h

/-- Two blocks overlap: some texel lies in both rectangles. -/
def blocks_overlap (a b : block_t) : Prop :=
  ∃ x y, in_block a x y ∧ in_block b x y

/-- Successive calls `LM_AllocBlock(w, h, &s, &t)` on one page, for a list of block sizes:
the builder afterwards and the blocks that were placed, in order. A call that fails leaves
`lm.inuse` as it was. -/
def LM_AllocBlocks (e : env_t) (lm : lightmap_builder_t) :
    List (Nat × Nat) → lightmap_builder_t × List block_t
  | [] => (lm, [])
  | req :: rest =>
    match LM_AllocBlock e lm req.1 req.2 with
    | none => LM_AllocBlocks e lm rest
    | some r =>
      let q := LM_AllocBlocks e { lm with inuse := r.1 } rest
      (q.1, ⟨r.2.1, r.2.2, req.1, req.2⟩ :: q.2)

/-- Every block of the list lies below the column heights on each of its columns. -/
def below_heights (inuse : Nat → Nat) (placed : List block_t) : Prop :=
  ∀ b, b ∈ placed → ∀ x, b.s ≤ x → x < b.s + b.w → b.t + b.h ≤ inuse x

/-! ## Sample data for the 32-bit block bounds and the skipped faces -/

/-- A lit face with two loop vertices, at raw texel coordinates 0 and 2^32 on the first
axis and 0 on the second. -/
def wrap_surf : mface_t :=
  { sample_surf with
    firstsurfedge := fun i => if i = 0 then sample_edge 0 0 0 else sample_edge 4294967296 0 0
    numsurfedges := 2 }

/-- A face without light data and with 4097 loop vertices, one more than the sample
staging array holds. -/
def huge_surf : mface_t :=
  { sample_surf with
    numsurfedges := 4097
    lightmap := 0 }

/-- The sample state for a world with a buffer object, the staging array `tess.vertices`
holding the floats 0, 1, 2, .. left by earlier use. -/
def stale_vbo_load : load_t :=
  { sample_vbo_load with tess_vertices := fun i => (i : vec_t) }

/-! ## The colour adjuster in binary32

`adjust_color_f` computes in `float`. Here every operation is followed by the rounding of
IEEE 754 binary32 (round to nearest, ties to even), as a compiler does that evaluates
`float` expressions in `float` and does not contract them. A finite `float` is the rational
it stands for; a result beyond the finite range is `none`, and what the code computes from
an infinity or a NaN is not modelled. -/

/-- The brightest channel is one of the three. -/
theorem brightest_mem (r g b : vec_t) :
    (if b > (if r > g then r else g) then b else (if r > g then r else g)) = r ∨
    (if b > (if r > g then r else g) then b else (if r > g then r else g)) = g ∨
    (if b > (if r > g then r else g) then b else (if r > g then r else g)) = b := by
  split_ifs <;> simp

/-- The code's clamp of negatives is the maximum with zero. -/
theorem clamp_eq_max (x : vec_t) : (if x < 0 then 0 else x) = max x 0 := by
  split_ifs with h
  · exact (max_eq_right (le_of_lt h)).symm
  · exact (max_eq_left (not_lt.mp h)).symm

/-- The code's brightest channel is the maximum of the three. -/
theorem brightest_eq_max (r g b : vec_t) :
    (if b > (if r > g then r else g) then b else (if r > g then r else g)) =
      max r (max g b) := by
  simp only [max_def]
  split_ifs <;> first | rfl | linarith

/-- C6: with the saturation factor equal to 1, if the brightest clamped channel `m`
exceeds 255 then `adjust_color_f` multiplies all three clamped channels by `255 / m` and
the brightest output channel is exactly 255; otherwise it returns the clamped channels
unchanged. -/
theorem adjust_color_f_rescale (k : glconst_t) (w : world_t) (in0 in1 in2 modulate : vec_t)
    (hs : w.scale = 1) :
    (255 < max (clamped w in0 modulate) (max (clamped w in1 modulate) (clamped w in2 modulate)) →
      adjust_color_f k w in0 in1 in2 modulate =
        (clamped w in0 modulate * (255 / max (clamped w in0 modulate)
            (max (clamped w in1 modulate) (clamped w in2 modulate))),
         clamped w in1 modulate * (255 / max (clamped w in0 modulate)
            (max (clamped w in1 modulate) (clamped w in2 modulate))),
         clamped w in2 modulate * (255 / max (clamped w in0 modulate)
            (max (clamped w in1 modulate) (clamped w in2 modulate)))) ∧
      max (adjust_color_f k w in0 in1 in2 modulate).1
        (max (adjust_color_f k w in0 in1 in2 modulate).2.1
          (adjust_color_f k w in0 in1 in2 modulate).2.2) = 255) ∧
    (max (clamped w in0 modulate) (max (clamped w in1 modulate) (clamped w in2 modulate)) ≤ 255 →
      adjust_color_f k w in0 in1 in2 modulate =
        (clamped w in0 modulate, clamped w in1 modulate, clamped w in2 modulate)) := by
  simp only [adjust_color_f, clamped, hs, ne_eq, not_true_eq_false, if_false]
  simp only [clamp_eq_max, brightest_eq_max]
  generalize max ((in0 + w.add) * modulate) 0 = r
  generalize max ((in1 + w.add) * modulate) 0 = g
  generalize max ((in2 + w.add) * modulate) 0 = b
  constructor
  · intro hm
    have hpos : (0 : ℚ) < max r (max g b) := by linarith
    have hy : (0 : ℚ) ≤ 255 / max r (max g b) := by positivity
    simp only [gt_iff_lt, hm, if_true, true_and]
    rw [← max_mul_of_nonneg _ _ hy, ← max_mul_of_nonneg _ _ hy]
    field_simp
  · intro hm
    simp only [gt_iff_lt, not_lt.mpr hm, if_false]

/-- Witness for C6: the colour (510, 255, 0) is rescaled to (255, 255 / 2, 0). -/
theorem adjust_color_f_rescale_witness :
    adjust_color_f sample_const ⟨0, 1, 1⟩ 510 255 0 1 = (255, 255 / 2, 0) ∧
    adjust_color_f sample_const ⟨0, 1, 1⟩ 100 255 0 1 = (100, 255, 0) := by
  have h1 := (adjust_color_f_rescale sample_const ⟨0, 1, 1⟩ 510 255 0 1 rfl).1
  have h2 := (adjust_color_f_rescale sample_const ⟨0, 1, 1⟩ 100 255 0 1 rfl).2
  norm_num [clamped] at h1 h2
  exact ⟨h1.1, h2⟩

/-- Reading after a write. -/
theorem store_apply {α : Type} (a : Nat → α) (i : Nat) (v : α) (j : Nat) :
    store a i v j = if j = i then v else a j := rfl

/-- Closed form of the copying sample loop of `add_light_styles`. -/
theorem copy_loop_closed (ld : Nat → byte) (a : Nat → vec_t) (p q n : Nat) :
    forLoop n (fun _ s => copy_sample ld s) ⟨a, p, q⟩ =
      ⟨fun idx => if p ≤ idx ∧ idx < p + 3 * n then (ld (q + (idx - p)) : vec_t) else a idx,
        p + 3 * n, q + 3 * n⟩ := by
  induction n with
  | zero =>
    simp only [forLoop, Nat.mul_zero, Nat.add_zero, styles_loop_t.mk.injEq, and_true]
    funext idx
    rw [if_neg (by omega)]
  | succ n ih =>
    rw [forLoop, ih]
    simp only [copy_sample, styles_loop_t.mk.injEq]
    refine ⟨?_, by omega, by omega⟩
    funext idx
    simp only [store_apply]
    split_ifs <;> first | rfl | (exfalso; omega) | (congr 2; omega)

/-- Closed form of the scaling sample loop of `add_light_styles`. -/
theorem scale_loop_closed (ld : Nat → byte) (st : lightstyle_t) (a : Nat → vec_t)
    (p q n : Nat) :
    forLoop n (fun _ s => scale_sample ld st s) ⟨a, p, q⟩ =
      ⟨fun idx => if p ≤ idx ∧ idx < p + 3 * n then
          (ld (q + (idx - p)) : vec_t) * st.rgb ((idx - p) % 3) else a idx,
        p + 3 * n, q + 3 * n⟩ := by
  induction n with
  | zero =>
    simp only [forLoop, Nat.mul_zero, Nat.add_zero, styles_loop_t.mk.injEq, and_true]
    funext idx
    rw [if_neg (by omega)]
  | succ n ih =>
    rw [forLoop, ih]
    simp only [scale_sample, styles_loop_t.mk.injEq]
    refine ⟨?_, by omega, by omega⟩
    funext idx
    simp only [store_apply]
    split_ifs <;>
      first
      | rfl
      | (exfalso; omega)
      | (have e : (idx - p) % 3 = 2 ∧ q + (idx - p) = q + 3 * n + 2 := ?_
         swap
         omega
         subst_vars
         simp only [e.1, e.2])
      | (have e : (idx - p) % 3 = 1 ∧ q + (idx - p) = q + 3 * n + 1 := ?_
         swap
         omega
         subst_vars
         simp only [e.1, e.2])
      | (have e : (idx - p) % 3 = 0 ∧ q + (idx - p) = q + 3 * n := ?_
         swap
         omega
         subst_vars
         simp only [e.1, e.2])

/-- Closed form of the adding sample loop of `add_light_styles`. -/
theorem add_loop_closed (ld : Nat → byte) (st : lightstyle_t) (a : Nat → vec_t)
    (p q n : Nat) :
    forLoop n (fun _ s => add_sample ld st s) ⟨a, p, q⟩ =
      ⟨fun idx => if p ≤ idx ∧ idx < p + 3 * n then
          a idx + (ld (q + (idx - p)) : vec_t) * st.rgb ((idx - p) % 3) else a idx,
        p + 3 * n, q + 3 * n⟩ := by
  induction n with
  | zero =>
    simp only [forLoop, Nat.mul_zero, Nat.add_zero, styles_loop_t.mk.injEq, and_true]
    funext idx
    rw [if_neg (by omega)]
  | succ n ih =>
    rw [forLoop, ih]
    simp only [add_sample, styles_loop_t.mk.injEq]
    refine ⟨?_, by omega, by omega⟩
    funext idx
    simp only [store_apply]
    split_ifs <;>
      first
      | rfl
      | (exfalso; omega)
      | (have e : (idx - p) % 3 = 2 ∧ q + (idx - p) = q + 3 * n + 2 := ?_
         swap
         omega
         subst_vars
         simp only [e.1, e.2])
      | (have e : (idx - p) % 3 = 1 ∧ q + (idx - p) = q + 3 * n + 1 := ?_
         swap
         omega
         subst_vars
         simp only [e.1, e.2])
      | (have e : (idx - p) % 3 = 0 ∧ q + (idx - p) = q + 3 * n := ?_
         swap
         omega
         subst_vars
         simp only [e.1, e.2])

/-- Closed form of the style loop of `add_light_styles` after `m` passes. -/
theorem style_loop_closed (e : env_t) (g : gl_t) (surf : mface_t) (size : ℤ)
    (b : Nat → vec_t) (q : Nat) (cache : Nat → vec_t) (m : Nat) :
    forLoop m (add_style e g surf size) ⟨b, q, cache⟩ =
      ⟨fun idx => if idx < 3 * size.toNat then
          b idx + Finset.sum (Finset.range m) (fun i =>
            (e.lightdata (q + 3 * size.toNat * i + idx) : vec_t) *
              (LIGHT_STYLE g surf (i + 1)).rgb (idx % 3))
          else b idx,
        q + 3 * size.toNat * m,
        fun x => if 1 ≤ x ∧ x ≤ m then (LIGHT_STYLE g surf x).white else cache x⟩ := by
  induction m with
  | zero =>
    simp only [forLoop, Finset.range_zero, Finset.sum_empty, add_zero, ite_self,
      Nat.mul_zero, Nat.add_zero, styles_outer_t.mk.injEq, true_and]
    funext x
    rw [if_neg (by omega)]
  | succ m ih =>
    rw [forLoop, ih]
    simp only [add_style, add_loop_closed, styles_outer_t.mk.injEq]
    refine ⟨?_, by ring, ?_⟩
    · funext idx
      simp only [Nat.zero_le, true_and, Nat.zero_add, Nat.sub_zero]
      split_ifs with h
      · rw [Finset.sum_range_succ, add_assoc]
      · rfl
    · funext x
      simp only [store_apply]
      split_ifs <;> first | rfl | (exfalso; omega) | (subst_vars; rfl)

/-- What `add_light_styles` leaves in `blocklights` for a surface with at least one
recorded style: below `3 * size` the first style's term plus the scaled samples of the
later styles, the old contents elsewhere. The old contents below `3 * size` do not
occur. -/
theorem add_light_styles_blocklights (e : env_t) (g : gl_t) (surf : mface_t) (size : ℤ)
    (hn : surf.numstyles ≠ 0) (idx : Nat) :
    (add_light_styles e g surf size).1 idx =
      if idx < 3 * size.toNat then
        first_style_term e g surf idx +
          Finset.sum (Finset.range (surf.numstyles - 1)) (fun i =>
            (e.lightdata (surf.lightmap + 3 * size.toNat * (i + 1) + idx) : vec_t) *
              (LIGHT_STYLE g surf (i + 1)).rgb (idx % 3))
      else g.blocklights idx := by
  simp only [add_light_styles, if_neg hn, first_style_term]
  by_cases hw : (LIGHT_STYLE g surf 0).white = 1
  · simp only [hw, if_true, copy_loop_closed, style_loop_closed]
    simp only [Nat.zero_le, true_and, Nat.zero_add, Nat.sub_zero]
    split_ifs with h
    · congr 1
      refine Finset.sum_congr rfl (fun i _ => ?_)
      congr 3
      ring
    · rfl
  · simp only [hw, if_false, scale_loop_closed, style_loop_closed]
    simp only [Nat.zero_le, true_and, Nat.zero_add, Nat.sub_zero]
    split_ifs with h
    · congr 1
      refine Finset.sum_congr rfl (fun i _ => ?_)
      congr 3
      ring
    · rfl

/-- The accumulated light equals the intended blend whenever the first recorded style is
not at white level 1, or has all three multipliers equal to 1. -/
theorem add_light_styles_blend (e : env_t) (g : gl_t) (surf : mface_t) (size : ℤ)
    (hn : surf.numstyles ≠ 0)
    (h0 : (LIGHT_STYLE g surf 0).white ≠ 1 ∨ ∀ c < 3, (LIGHT_STYLE g surf 0).rgb c = 1)
    (idx : Nat) (hidx : idx < 3 * size.toNat) :
    (add_light_styles e g surf size).1 idx = style_blend e g surf size.toNat idx := by
  rw [add_light_styles_blocklights e g surf size hn, if_pos hidx, style_blend]
  obtain ⟨m, hm⟩ : ∃ m, surf.numstyles = m + 1 := Nat.exists_eq_succ_of_ne_zero hn
  rw [hm, Nat.add_sub_cancel, Finset.sum_range_succ']
  rw [add_comm]
  congr 1
  simp only [first_style_term, Nat.mul_zero, Nat.add_zero]
  rcases h0 with h0 | h0
  · rw [if_neg h0]
  · rw [h0 _ (Nat.mod_lt _ (by norm_num)), mul_one, ite_self]

/-! ### Lightmap builder: rejected surfaces -/

/-- C10: a surface with an extent that is negative or above `MAX_SURFACE_EXTENTS`, or whose
sample range `lightmap + numstyles * size * 3` ends past the world's lightmap data, makes
`LM_BuildSurface` return failure with the builder `lm` (column heights, dirty flag, page
count, atlas bytes), the scratch array, the surface (placement included) and the vertex
data all unchanged. -/
theorem LM_BuildSurface_rejects (e : env_t) (g : gl_t) (surf : mface_t) (vbo : Nat → vec_t)
    (base : Nat)
    (h : (surf.extents 0 < 0 ∨ surf.extents 0 > 2048 ∨
          surf.extents 1 < 0 ∨ surf.extents 1 > 2048) ∨
        (surf.lightmap : ℤ) + (surf.numstyles : ℤ) * (S_MAX surf * T_MAX surf) * 3 >
          ((e.bsp.lightmap + e.bsp.numlightmapbytes : Nat) : ℤ)) :
    (LM_BuildSurface e g surf vbo base).ok = false ∧
    (LM_BuildSurface e g surf vbo base).g.lm = g.lm ∧
    (LM_BuildSurface e g surf vbo base).g.blocklights = g.blocklights ∧
    (LM_BuildSurface e g surf vbo base).surf = surf ∧
    (LM_BuildSurface e g surf vbo base).vbo = vbo := by
  unfold LM_BuildSurface
  simp only [MAX_SURFACE_EXTENTS]
  split_ifs with h1 h2 h3
  · exact ⟨rfl, rfl, rfl, rfl, rfl⟩
  · exact ⟨rfl, rfl, rfl, rfl, rfl⟩
  · exact ⟨rfl, rfl, rfl, rfl, rfl⟩
  · rcases h with h | h
    · exact absurd h h1
    · exact absurd h h3

/-- Witness for C10: the sample surface with its first extent set to 4096, and the sample
surface with four styles of a 2049 x 1 block declared 10 bytes before the end of the
lump. -/
theorem LM_BuildSurface_rejects_witness :
    ((LM_BuildSurface sample_env sample_gl
        { sample_surf with extents := fun k => if k = 0 then 4096 else 0 }
        (fun _ => 0) 0).ok = false ∧
      (LM_BuildSurface sample_env sample_gl
        { sample_surf with extents := fun k => if k = 0 then 4096 else 0 }
        (fun _ => 0) 0).g.lm = sample_gl.lm) ∧
    ((LM_BuildSurface sample_env sample_gl
        { sample_surf with lightmap := 100990, numstyles := 4 } (fun _ => 0) 0).ok = false ∧
      (LM_BuildSurface sample_env sample_gl
        { sample_surf with lightmap := 100990, numstyles := 4 } (fun _ => 0) 0).g.lm =
        sample_gl.lm) := by
  have h1 := LM_BuildSurface_rejects sample_env sample_gl
    { sample_surf with extents := fun k => if k = 0 then 4096 else 0 } (fun _ => 0) 0
    (Or.inl (Or.inr (Or.inl (by norm_num))))
  have h2 := LM_BuildSurface_rejects sample_env sample_gl
    { sample_surf with lightmap := 100990, numstyles := 4 } (fun _ => 0) 0
    (Or.inr (by norm_num [S_MAX, T_MAX, sample_surf, sample_env]))
  exact ⟨⟨h1.1, h1.2.1⟩, ⟨h2.1, h2.2.1⟩⟩

/-! ### Polygon builder -/

/-- One pass of the edge loop, in closed form. -/
theorem poly_vertex_closed (surf : mface_t) (s : poly_loop_t) :
    poly_vertex surf s =
      ⟨fun idx => if s.ptr ≤ idx ∧ idx < s.ptr + 7 then
          vertex_slot surf s.src_surfedge (idx - s.ptr) else s.vbo idx,
        s.ptr + 7, s.src_surfedge + 1,
        min s.mins0 (raw_tc surf 0 s.src_surfedge), min s.mins1 (raw_tc surf 1 s.src_surfedge),
        max s.maxs0 (raw_tc surf 0 s.src_surfedge),
        max s.maxs1 (raw_tc surf 1 s.src_surfedge)⟩ := by
  have hd : ∀ k, DotProduct
      (fun c => store (store (store s.vbo s.ptr (loop_point surf s.src_surfedge 0)) (s.ptr + 1)
        (loop_point surf s.src_surfedge 1)) (s.ptr + 2) (loop_point surf s.src_surfedge 2)
        (s.ptr + c)) (surf.texinfo.axis k) + surf.texinfo.offset k =
      raw_tc surf k s.src_surfedge := by
    intro k
    simp [DotProduct, raw_tc, store_apply]
  simp only [poly_vertex, poly_loop_t.mk.injEq, VERTEX_SIZE]
  have hd0 := hd 0
  have hd1 := hd 1
  simp only [loop_point] at hd0 hd1
  rw [hd0, hd1]
  refine ⟨?_, trivial, trivial, ?_, ?_, ?_, ?_⟩
  · funext idx
    simp only [store_apply, vertex_slot, loop_point]
    split_ifs <;>
      first
      | rfl
      | (exfalso; omega)
      | (have e : idx - s.ptr = 0 := ?_
         swap
         omega
         rw [e])
      | (have e : idx - s.ptr = 1 := ?_
         swap
         omega
         rw [e])
      | (have e : idx - s.ptr = 2 := ?_
         swap
         omega
         rw [e])
  · rw [min_def]; split_ifs <;> first | rfl | linarith
  · rw [min_def]; split_ifs <;> first | rfl | linarith
  · rw [max_def]; split_ifs <;> first | rfl | linarith
  · rw [max_def]; split_ifs <;> first | rfl | linarith

/-- The edge loop of `build_surface_poly` after `n` passes, in closed form. -/
theorem poly_loop_closed (surf : mface_t) (v : Nat → vec_t) (p j : Nat)
    (a0 a1 b0 b1 : vec_t) (n : Nat) :
    forLoop n (fun _ s => poly_vertex surf s) ⟨v, p, j, a0, a1, b0, b1⟩ =
      ⟨fun idx => if p ≤ idx ∧ idx < p + 7 * n then
          vertex_slot surf (j + (idx - p) / 7) ((idx - p) % 7) else v idx,
        p + 7 * n, j + n,
        run_min a0 (fun i => raw_tc surf 0 (j + i)) n,
        run_min a1 (fun i => raw_tc surf 1 (j + i)) n,
        run_max b0 (fun i => raw_tc surf 0 (j + i)) n,
        run_max b1 (fun i => raw_tc surf 1 (j + i)) n⟩ := by
  induction n with
  | zero =>
    simp only [forLoop, run_min, run_max, Nat.mul_zero, Nat.add_zero, poly_loop_t.mk.injEq,
      and_true, true_and]
    funext idx
    rw [if_neg (by omega)]
  | succ n ih =>
    rw [forLoop, ih, poly_vertex_closed]
    simp only [run_min, run_max, poly_loop_t.mk.injEq, and_true]
    refine ⟨?_, by omega, by omega⟩
    funext idx
    split_ifs <;>
      first
      | rfl
      | (exfalso; omega)
      | (have e : (idx - p) / 7 = n ∧ (idx - p) % 7 = idx - (p + 7 * n) := ?_
         swap
         omega
         rw [e.1, e.2])

/-- The running minimum is below its start value and below every value met. -/
theorem run_min_le (init : vec_t) (f : Nat → vec_t) (n : Nat) :
    run_min init f n ≤ init ∧ ∀ i, i < n → run_min init f n ≤ f i := by
  induction n with
  | zero => exact ⟨le_refl _, fun i hi => absurd hi (Nat.not_lt_zero i)⟩
  | succ n ih =>
    simp only [run_min]
    refine ⟨le_trans (min_le_left _ _) ih.1, fun i hi => ?_⟩
    rcases Nat.lt_succ_iff_lt_or_eq.mp hi with h | h
    · exact le_trans (min_le_left _ _) (ih.2 i h)
    · rw [h]; exact min_le_right _ _

/-- The running maximum is above its start value and above every value met. -/
theorem le_run_max (init : vec_t) (f : Nat → vec_t) (n : Nat) :
    init ≤ run_max init f n ∧ ∀ i, i < n → f i ≤ run_max init f n := by
  induction n with
  | zero => exact ⟨le_refl _, fun i hi => absurd hi (Nat.not_lt_zero i)⟩
  | succ n ih =>
    simp only [run_max]
    refine ⟨le_trans ih.1 (le_max_left _ _), fun i hi => ?_⟩
    rcases Nat.lt_succ_iff_lt_or_eq.mp hi with h | h
    · exact le_trans (ih.2 i h) (le_max_left _ _)
    · rw [h]; exact le_max_right _ _

/-- An `int` result within the range of `int` is held as it is. -/
theorem wrap_int_eq (x : ℤ) (h1 : -2147483648 ≤ x) (h2 : x ≤ 2147483647) : wrap_int x = x := by
  unfold wrap_int
  omega

/-- The values that `build_surface_poly` stores, with the reductions of the 32-bit
arithmetic: the floor of a sixteenth of the running minimum started at 99999 and the
ceiling of a sixteenth of the running maximum started at -99999, shifted left by 4. -/
theorem build_surface_poly_stored (surf : mface_t) (vbo : Nat → vec_t) (base k : Nat)
    (hk : k < 2) :
    (build_surface_poly surf vbo base).1.texturemins k =
      wrap_int (wrap_int
        (Int.floor (run_min 99999 (raw_tc surf k) surf.numsurfedges / 16)) * 16) ∧
    (build_surface_poly surf vbo base).1.extents k =
      wrap_int (wrap_int
        (wrap_int (Int.ceil (run_max (-99999) (raw_tc surf k) surf.numsurfedges / 16)) -
          wrap_int (Int.floor (run_min 99999 (raw_tc surf k) surf.numsurfedges / 16))) *
        16) := by
  simp only [build_surface_poly, poly_loop_closed, Nat.zero_add, store_apply]
  have hk' : k = 0 ∨ k = 1 := by omega
  rcases hk' with h | h <;> subst h <;> simp

/-- The stored bounds are multiples of 16 whatever the coordinates. -/
theorem build_surface_poly_aligned (surf : mface_t) (vbo : Nat → vec_t) (base k : Nat)
    (hk : k < 2) :
    (16 : ℤ) ∣ (build_surface_poly surf vbo base).1.texturemins k ∧
    (16 : ℤ) ∣ (build_surface_poly surf vbo base).1.extents k := by
  obtain ⟨e1, e2⟩ := build_surface_poly_stored surf vbo base k hk
  rw [e1, e2]
  unfold wrap_int
  constructor <;> omega

/-- The floor of a sixteenth of the running minimum is at most 6249, the ceiling of a
sixteenth of the running maximum at least -6249. -/
theorem sentinel_bounds (f : Nat → vec_t) (n : Nat) :
    Int.floor (run_min 99999 f n / 16) ≤ 6249 ∧ -6249 ≤ Int.ceil (run_max (-99999) f n / 16) := by
  have h1 := (run_min_le 99999 f n).1
  have h2 := (le_run_max (-99999) f n).1
  constructor
  · have h3 : Int.floor (run_min 99999 f n / 16) < 6250 := by
      rw [Int.floor_lt]
      push_cast
      linarith
    omega
  · have h3 : -6250 < Int.ceil (run_max (-99999) f n / 16) := by
      rw [Int.lt_ceil]
      push_cast
      linarith
    omega

/-- The bounds that `build_surface_poly` stores when they fit the 32-bit `int`s:
`texturemins[k]` is 16 times the floor of a sixteenth of the running minimum started at
99999, and `texturemins[k] + extents[k]` is 16 times the ceiling of a sixteenth of the
running maximum started at -99999. -/
theorem build_surface_poly_bounds (surf : mface_t) (vbo : Nat → vec_t) (base k : Nat)
    (hk : k < 2) (hf : block_fits_int surf k) :
    (build_surface_poly surf vbo base).1.texturemins k =
      Int.floor (run_min 99999 (raw_tc surf k) surf.numsurfedges / 16) * 16 ∧
    (build_surface_poly surf vbo base).1.extents k =
      (Int.ceil (run_max (-99999) (raw_tc surf k) surf.numsurfedges / 16) -
        Int.floor (run_min 99999 (raw_tc surf k) surf.numsurfedges / 16)) * 16 := by
  obtain ⟨e1, e2⟩ := build_surface_poly_stored surf vbo base k hk
  obtain ⟨s1, s2⟩ := sentinel_bounds (raw_tc surf k) surf.numsurfedges
  obtain ⟨f1, f2⟩ := hf
  rw [e1, e2]
  generalize Int.floor (run_min 99999 (raw_tc surf k) surf.numsurfedges / 16) = fl
    at s1 f1 f2 ⊢
  generalize Int.ceil (run_max (-99999) (raw_tc surf k) surf.numsurfedges / 16) = ce
    at s2 f2 ⊢
  have w1 : wrap_int fl = fl := wrap_int_eq fl (by omega) (by omega)
  have w2 : wrap_int ce = ce := wrap_int_eq ce (by omega) (by omega)
  rw [w1, w2, wrap_int_eq (fl * 16) (by omega) (by omega),
    wrap_int_eq (ce - fl) (by omega) (by omega),
    wrap_int_eq ((ce - fl) * 16) (by omega) (by omega)]
  exact ⟨rfl, rfl⟩

/-- The vertex records that `build_surface_poly` writes. -/
theorem build_surface_poly_vbo (surf : mface_t) (vbo : Nat → vec_t) (base idx : Nat) :
    (build_surface_poly surf vbo base).2 idx =
      if base ≤ idx ∧ idx < base + 7 * surf.numsurfedges then
        vertex_slot surf ((idx - base) / 7) ((idx - base) % 7) else vbo idx := by
  simp only [build_surface_poly, poly_loop_closed, Nat.zero_add]

/-- The fields of the surface that `build_surface_poly` leaves alone. -/
theorem build_surface_poly_frame (surf : mface_t) (vbo : Nat → vec_t) (base : Nat) :
    (build_surface_poly surf vbo base).1.numsurfedges = surf.numsurfedges ∧
    (build_surface_poly surf vbo base).1.lightmap = surf.lightmap ∧
    (build_surface_poly surf vbo base).1.numstyles = surf.numstyles ∧
    (build_surface_poly surf vbo base).1.styles = surf.styles ∧
    (build_surface_poly surf vbo base).1.drawflags = surf.drawflags ∧
    (build_surface_poly surf vbo base).1.firstvert = surf.firstvert ∧
    (build_surface_poly surf vbo base).1.texinfo = surf.texinfo :=
  ⟨rfl, rfl, rfl, rfl, rfl, rfl, rfl⟩

/-- The vertex loop of `LM_BuildSurface` after `n` passes, in closed form. -/
theorem normalize_loop_closed (k : glconst_t) (s t : ℤ) (a : Nat → vec_t) (p n : Nat) :
    forLoop n (fun _ v => normalize_lmtc k s t v) (a, p) =
      (fun idx => if p ≤ idx ∧ idx < p + 7 * n then
          (if (idx - p) % 7 = 5 then
            (a idx + (s : vec_t)) / ((k.LM_BLOCK_WIDTH * 16 : Nat) : vec_t)
          else if (idx - p) % 7 = 6 then
            (a idx + (t : vec_t)) / ((k.LM_BLOCK_HEIGHT * 16 : Nat) : vec_t)
          else a idx)
        else a idx, p + 7 * n) := by
  induction n with
  | zero =>
    simp only [forLoop, Nat.mul_zero, Nat.add_zero, Prod.mk.injEq, and_true]
    funext idx
    rw [if_neg (by omega)]
  | succ n ih =>
    rw [forLoop, ih]
    simp only [normalize_lmtc, VERTEX_SIZE, Prod.mk.injEq]
    refine ⟨?_, by omega⟩
    funext idx
    simp only [store_apply]
    split_ifs <;>
      first
      | rfl
      | (exfalso; omega)
      | (subst_vars; rfl)

/-- What `add_light_styles` does to the surface: only the style cache changes. -/
theorem add_light_styles_surf (e : env_t) (g : gl_t) (surf : mface_t) (size : ℤ) :
    (add_light_styles e g surf size).2 =
      { surf with stylecache := (add_light_styles e g surf size).2.stylecache } := by
  unfold add_light_styles
  split_ifs <;> rfl

/-- What `build_primary_lightmap` does to the surface: only the style cache and the
dynamic-light frame change. -/
theorem build_primary_lightmap_surf (e : env_t) (g : gl_t) (surf : mface_t) :
    (build_primary_lightmap e g surf).2 =
      { surf with
        stylecache := (build_primary_lightmap e g surf).2.stylecache
        dlightframe := 0 } := by
  simp only [build_primary_lightmap]
  rw [add_light_styles_surf]

/-- What `build_primary_lightmap` does to the globals: only the scratch array and the
atlas bytes change. -/
theorem build_primary_lightmap_globals (e : env_t) (g : gl_t) (surf : mface_t) :
    (build_primary_lightmap e g surf).1 =
      { g with
        blocklights := (build_primary_lightmap e g surf).1.blocklights
        lm := { g.lm with buffer := (build_primary_lightmap e g surf).1.lm.buffer } } := by
  simp only [build_primary_lightmap]

/-- The surface and the vertex data that `LM_PlaceSurface` leaves. -/
theorem LM_PlaceSurface_result (e : env_t) (g : gl_t) (surf : mface_t) (vbo : Nat → vec_t)
    (base : Nat) (inuse : Nat → Nat) (s t : Nat) :
    (LM_PlaceSurface e g surf vbo base inuse s t).ok = true ∧
    (LM_PlaceSurface e g surf vbo base inuse s t).surf.light_s = s ∧
    (LM_PlaceSurface e g surf vbo base inuse s t).surf.light_t = t ∧
    (LM_PlaceSurface e g surf vbo base inuse s t).surf.texnum 1 =
      e.k.TEXNUM_LIGHTMAP + g.lm.nummaps ∧
    (LM_PlaceSurface e g surf vbo base inuse s t).surf.extents = surf.extents ∧
    (LM_PlaceSurface e g surf vbo base inuse s t).surf.texturemins = surf.texturemins ∧
    (LM_PlaceSurface e g surf vbo base inuse s t).surf.numsurfedges = surf.numsurfedges ∧
    (LM_PlaceSurface e g surf vbo base inuse s t).vbo =
      (fun idx => if base ≤ idx ∧ idx < base + 7 * surf.numsurfedges then
          (if (idx - base) % 7 = 5 then
            (vbo idx +
                ((wrap_int (wrap_int ((s : ℤ) * 16 + 8) - surf.texturemins 0) : ℤ) : vec_t)) /
              ((e.k.LM_BLOCK_WIDTH * 16 : Nat) : vec_t)
          else if (idx - base) % 7 = 6 then
            (vbo idx +
                ((wrap_int (wrap_int ((t : ℤ) * 16 + 8) - surf.texturemins 1) : ℤ) : vec_t)) /
              ((e.k.LM_BLOCK_HEIGHT * 16 : Nat) : vec_t)
          else vbo idx)
        else vbo idx) := by
  simp only [LM_PlaceSurface, normalize_loop_closed]
  rw [build_primary_lightmap_surf]
  simp only [store_apply, if_true, and_self]

/-- The globals that `LM_PlaceSurface` leaves, apart from the scratch array and the atlas
bytes. -/
theorem LM_PlaceSurface_globals (e : env_t) (g : gl_t) (surf : mface_t) (vbo : Nat → vec_t)
    (base : Nat) (inuse : Nat → Nat) (s t : Nat) :
    (LM_PlaceSurface e g surf vbo base inuse s t).g.lm.nummaps = g.lm.nummaps ∧
    (LM_PlaceSurface e g surf vbo base inuse s t).g.lm.dirty = true ∧
    (LM_PlaceSurface e g surf vbo base inuse s t).g.lm.inuse = inuse ∧
    (LM_PlaceSurface e g surf vbo base inuse s t).g.lm.highwater = g.lm.highwater ∧
    (LM_PlaceSurface e g surf vbo base inuse s t).g.textures = g.textures ∧
    (LM_PlaceSurface e g surf vbo base inuse s t).g.eprintf = g.eprintf ∧
    (LM_PlaceSurface e g surf vbo base inuse s t).g.lightstyles = g.lightstyles ∧
    (LM_PlaceSurface e g surf vbo base inuse s t).g.lightstylemap = g.lightstylemap := by
  simp only [LM_PlaceSurface]
  rw [build_primary_lightmap_globals]
  exact ⟨rfl, rfl, rfl, rfl, rfl, rfl, rfl, rfl⟩

/-- A successful `LM_BuildSurface` has validated the extents and ended in
`LM_PlaceSurface`. -/
theorem LM_BuildSurface_ok (e : env_t) (g : gl_t) (surf : mface_t) (vbo : Nat → vec_t)
    (base : Nat) (hok : (LM_BuildSurface e g surf vbo base).ok = true) :
    (0 ≤ surf.extents 0 ∧ surf.extents 0 ≤ 2048 ∧ 0 ≤ surf.extents 1 ∧ surf.extents 1 ≤ 2048) ∧
    ∃ g' inuse s t,
      LM_BuildSurface e g surf vbo base = LM_PlaceSurface e g' surf vbo base inuse s t := by
  unfold LM_BuildSurface at hok ⊢
  simp only [MAX_SURFACE_EXTENTS] at hok ⊢
  by_cases h1 : surf.extents 0 < 0 ∨ surf.extents 0 > 2048 ∨
      surf.extents 1 < 0 ∨ surf.extents 1 > 2048
  · rw [if_pos h1] at hok
    exact absurd hok (by simp)
  rw [if_neg h1] at hok ⊢
  by_cases h2 : S_MAX surf * T_MAX surf > MAX_BLOCKLIGHTS
  · rw [if_pos h2] at hok
    exact absurd hok (by simp)
  rw [if_neg h2] at hok ⊢
  by_cases h3 : (surf.lightmap : ℤ) + (surf.numstyles : ℤ) * (S_MAX surf * T_MAX surf) * 3 >
      ((e.bsp.lightmap + e.bsp.numlightmapbytes : Nat) : ℤ)
  · rw [if_pos h3] at hok
    exact absurd hok (by simp)
  rw [if_neg h3] at hok ⊢
  refine ⟨by omega, ?_⟩
  unfold LM_BuildSurface_alloc at hok ⊢
  cases ha : LM_AllocBlock e g.lm (S_MAX surf).toNat (T_MAX surf).toNat with
  | some r =>
    obtain ⟨inuse, s, t⟩ := r
    exact ⟨g, inuse, s, t, rfl⟩
  | none =>
    rw [ha] at hok
    simp only at hok ⊢
    by_cases h4 : (LM_UploadBlock e.k g).lm.nummaps = e.k.LM_MAX_LIGHTMAPS
    · rw [if_pos h4] at hok
      exact absurd hok (by simp)
    rw [if_neg h4] at hok ⊢
    cases hb : LM_AllocBlock e (LM_InitBlock e.k (LM_UploadBlock e.k g).lm)
        (S_MAX surf).toNat (T_MAX surf).toNat with
    | none =>
      rw [hb] at hok
      exact absurd hok (by simp)
    | some r =>
      obtain ⟨inuse, s, t⟩ := r
      exact ⟨_, inuse, s, t, rfl⟩

/-- The arithmetic behind the lightmap coordinates: a raw coordinate between the 16-aligned
bounds `fl * 16` and `ce * 16`, shifted to the block origin `s` and normalised by the page
size `W`, lies between `s / W` and `(s + smax) / W` with `smax = ce - fl + 1`. -/
theorem lmtc_arith (tc : vec_t) (s W : Nat) (fl ce : ℤ) (hW : 0 < W)
    (h1 : ((fl * 16 : ℤ) : vec_t) ≤ tc) (h2 : tc ≤ ((ce * 16 : ℤ) : vec_t)) :
    (s : vec_t) / (W : vec_t) ≤
      (tc + (((s : ℤ) * 16 + 8 - fl * 16 : ℤ) : vec_t)) / ((W * 16 : Nat) : vec_t) ∧
    (tc + (((s : ℤ) * 16 + 8 - fl * 16 : ℤ) : vec_t)) / ((W * 16 : Nat) : vec_t) ≤
      ((s : vec_t) + ((ce - fl + 1 : ℤ) : vec_t)) / (W : vec_t) := by
  have hWq : (0 : vec_t) < (W : vec_t) := by exact_mod_cast hW
  have hW16 : (0 : vec_t) < ((W * 16 : Nat) : vec_t) := by
    push_cast
    linarith
  push_cast at h1 h2 ⊢
  constructor
  · rw [div_le_div_iff₀ hWq (by linarith)]
    nlinarith
  · rw [div_le_div_iff₀ (by linarith) hWq]
    nlinarith

/-- When the bounds fit the 32-bit `int`s, every raw coordinate of a loop vertex lies
between the stored bounds: `texturemins[k] <= tc <= texturemins[k] + extents[k]`, with both
bounds multiples of 16. -/
theorem raw_tc_between (surf : mface_t) (vbo : Nat → vec_t) (base k i : Nat) (hk : k < 2)
    (hi : i < surf.numsurfedges) (hf : block_fits_int surf k) :
    ∃ fl ce : ℤ,
      (build_surface_poly surf vbo base).1.texturemins k = fl * 16 ∧
      (build_surface_poly surf vbo base).1.extents k = (ce - fl) * 16 ∧
      ((fl * 16 : ℤ) : vec_t) ≤ raw_tc surf k i ∧ raw_tc surf k i ≤ ((ce * 16 : ℤ) : vec_t) := by
  obtain ⟨e1, e2⟩ := build_surface_poly_bounds surf vbo base k hk hf
  refine ⟨_, _, e1, e2, ?_, ?_⟩
  · have h1 := (run_min_le 99999 (raw_tc surf k) surf.numsurfedges).2 i hi
    have h2 := Int.floor_le (run_min 99999 (raw_tc surf k) surf.numsurfedges / 16)
    push_cast
    linarith
  · have h1 := (le_run_max (-99999) (raw_tc surf k) surf.numsurfedges).2 i hi
    have h2 := Int.le_ceil (run_max (-99999) (raw_tc surf k) surf.numsurfedges / 16)
    push_cast
    linarith

/-- A shift that fits the 32-bit `int` is held as it is. -/
theorem origin_shift_eq (s : Nat) (tmin : ℤ) (h : origin_fits_int s tmin) :
    wrap_int (wrap_int ((s : ℤ) * 16 + 8) - tmin) = (s : ℤ) * 16 + 8 - tmin := by
  obtain ⟨h1, h2, h3⟩ := h
  rw [wrap_int_eq _ (by omega) h1, wrap_int_eq _ h2 h3]

/-- Lightmap coordinates of a surface whose block bounds and coordinate shifts fit the
32-bit `int`s of `build_surface_poly` and `LM_BuildSurface`: when `build_surface_poly` and then `LM_BuildSurface` have processed
the surface successfully and the block origin `(s, t)` satisfies
`s + smax <= LM_BLOCK_WIDTH` and `t + tmax <= LM_BLOCK_HEIGHT`, every vertex's final
lightmap coordinate `(vbo[5], vbo[6])` lies in the page rectangle of the surface:
`s / LM_BLOCK_WIDTH <= vbo[5] <= (s + smax) / LM_BLOCK_WIDTH` and
`t / LM_BLOCK_HEIGHT <= vbo[6] <= (t + tmax) / LM_BLOCK_HEIGHT`. -/
theorem lmtc_inside_page_rect (e : env_t) (g : gl_t) (surf : mface_t) (vbo : Nat → vec_t)
    (base i : Nat)
    (hf0 : block_fits_int surf 0) (hf1 : block_fits_int surf 1)
    (ho0 : origin_fits_int (build_and_light e g surf vbo base).surf.light_s
      ((build_surface_poly surf vbo base).1.texturemins 0))
    (ho1 : origin_fits_int (build_and_light e g surf vbo base).surf.light_t
      ((build_surface_poly surf vbo base).1.texturemins 1))
    (hok : (build_and_light e g surf vbo base).ok = true)
    (hs : ((build_and_light e g surf vbo base).surf.light_s : ℤ) +
      S_MAX (build_and_light e g surf vbo base).surf ≤ (e.k.LM_BLOCK_WIDTH : ℤ))
    (ht : ((build_and_light e g surf vbo base).surf.light_t : ℤ) +
      T_MAX (build_and_light e g surf vbo base).surf ≤ (e.k.LM_BLOCK_HEIGHT : ℤ))
    (hi : i < surf.numsurfedges) :
    (((build_and_light e g surf vbo base).surf.light_s : vec_t) / (e.k.LM_BLOCK_WIDTH : vec_t) ≤
        (build_and_light e g surf vbo base).vbo (base + VERTEX_SIZE * i + 5) ∧
      (build_and_light e g surf vbo base).vbo (base + VERTEX_SIZE * i + 5) ≤
        (((build_and_light e g surf vbo base).surf.light_s : vec_t) +
          (S_MAX (build_and_light e g surf vbo base).surf : vec_t)) /
          (e.k.LM_BLOCK_WIDTH : vec_t)) ∧
    (((build_and_light e g surf vbo base).surf.light_t : vec_t) / (e.k.LM_BLOCK_HEIGHT : vec_t) ≤
        (build_and_light e g surf vbo base).vbo (base + VERTEX_SIZE * i + 6) ∧
      (build_and_light e g surf vbo base).vbo (base + VERTEX_SIZE * i + 6) ≤
        (((build_and_light e g surf vbo base).surf.light_t : vec_t) +
          (T_MAX (build_and_light e g surf vbo base).surf : vec_t)) /
          (e.k.LM_BLOCK_HEIGHT : vec_t)) := by
  unfold build_and_light at hok hs ht ho0 ho1 ⊢
  obtain ⟨hext, g', inuse, s, t, hr⟩ := LM_BuildSurface_ok e g _ _ base hok
  rw [hr] at hs ht ho0 ho1 ⊢
  obtain ⟨-, hls, hlt, -, hex, htm, hn, hv⟩ :=
    LM_PlaceSurface_result e g' (build_surface_poly surf vbo base).1
      (build_surface_poly surf vbo base).2 base inuse s t
  have hn' : (build_surface_poly surf vbo base).1.numsurfedges = surf.numsurfedges := rfl
  obtain ⟨fl0, ce0, a1, a2, a3, a4⟩ := raw_tc_between surf vbo base 0 i (by norm_num) hi hf0
  obtain ⟨fl1, ce1, b1, b2, b3, b4⟩ := raw_tc_between surf vbo base 1 i (by norm_num) hi hf1
  have hS : S_MAX (LM_PlaceSurface e g' (build_surface_poly surf vbo base).1
      (build_surface_poly surf vbo base).2 base inuse s t).surf = ce0 - fl0 + 1 := by
    simp only [S_MAX, hex, a2]
    rw [Int.mul_ediv_cancel _ (by norm_num)]
  have hT : T_MAX (LM_PlaceSurface e g' (build_surface_poly surf vbo base).1
      (build_surface_poly surf vbo base).2 base inuse s t).surf = ce1 - fl1 + 1 := by
    simp only [T_MAX, hex, b2]
    rw [Int.mul_ediv_cancel _ (by norm_num)]
  have hce0 : 0 ≤ ce0 - fl0 := by
    have := hext.1
    rw [a2] at this
    omega
  have hce1 : 0 ≤ ce1 - fl1 := by
    have := hext.2.2.1
    rw [b2] at this
    omega
  rw [hS, hls] at hs
  rw [hT, hlt] at ht
  have hW : 0 < e.k.LM_BLOCK_WIDTH := by omega
  have hH : 0 < e.k.LM_BLOCK_HEIGHT := by omega
  rw [hls] at ho0
  rw [hlt] at ho1
  rw [hS, hT, hls, hlt, hv]
  simp only [origin_shift_eq s _ ho0, origin_shift_eq t _ ho1]
  have i5 : base ≤ base + VERTEX_SIZE * i + 5 ∧
      base + VERTEX_SIZE * i + 5 < base + 7 * (build_surface_poly surf vbo base).1.numsurfedges := by
    rw [hn']
    simp only [VERTEX_SIZE]
    omega
  have i6 : base ≤ base + VERTEX_SIZE * i + 6 ∧
      base + VERTEX_SIZE * i + 6 < base + 7 * (build_surface_poly surf vbo base).1.numsurfedges := by
    rw [hn']
    simp only [VERTEX_SIZE]
    omega
  have m5 : (base + VERTEX_SIZE * i + 5 - base) % 7 = 5 := by
    simp only [VERTEX_SIZE]
    omega
  have m6 : (base + VERTEX_SIZE * i + 6 - base) % 7 = 6 := by
    simp only [VERTEX_SIZE]
    omega
  have d5 : (base + VERTEX_SIZE * i + 5 - base) / 7 = i := by
    simp only [VERTEX_SIZE]
    omega
  have d6 : (base + VERTEX_SIZE * i + 6 - base) / 7 = i := by
    simp only [VERTEX_SIZE]
    omega
  have v5 : (build_surface_poly surf vbo base).2 (base + VERTEX_SIZE * i + 5) = raw_tc surf 0 i := by
    rw [build_surface_poly_vbo, if_pos (by rw [← hn']; exact i5), m5, d5]
    simp [vertex_slot]
  have v6 : (build_surface_poly surf vbo base).2 (base + VERTEX_SIZE * i + 6) = raw_tc surf 1 i := by
    rw [build_surface_poly_vbo, if_pos (by rw [← hn']; exact i6), m6, d6]
    simp [vertex_slot]
  simp only [if_pos i5, if_pos i6, m5, m6, if_true, v5, v6, a1, b1]
  exact ⟨lmtc_arith _ s _ fl0 ce0 hW a3 a4, lmtc_arith _ t _ fl1 ce1 hH b3 b4⟩

/-! ### Primary lightmap -/

/-- One texel pass, with the written bytes named. -/
theorem put_texel_eq (e : env_t) (bl : Nat → vec_t) (s : texel_loop_t) :
    put_texel e bl s =
      ⟨store (store (store (store s.buffer s.ptr (texel_byte e bl s.bl 0)) (s.ptr + 1)
          (texel_byte e bl s.bl 1)) (s.ptr + 2) (texel_byte e bl s.bl 2)) (s.ptr + 3)
          (texel_byte e bl s.bl 3),
        s.bl + 3, s.ptr + 4⟩ := rfl

/-- The row loop of `build_primary_lightmap` after `n` texels, in closed form. -/
theorem texel_loop_closed (e : env_t) (bl : Nat → vec_t) (buf : Nat → byte) (b p n : Nat) :
    forLoop n (fun _ s => put_texel e bl s) ⟨buf, b, p⟩ =
      ⟨fun idx => if p ≤ idx ∧ idx < p + 4 * n then
          texel_byte e bl (b + 3 * ((idx - p) / 4)) ((idx - p) % 4) else buf idx,
        b + 3 * n, p + 4 * n⟩ := by
  induction n with
  | zero =>
    simp only [forLoop, Nat.mul_zero, Nat.add_zero, texel_loop_t.mk.injEq, and_true]
    funext idx
    rw [if_neg (by omega)]
  | succ n ih =>
    rw [forLoop, ih, put_texel_eq]
    simp only [texel_loop_t.mk.injEq]
    refine ⟨?_, by omega, by omega⟩
    funext idx
    simp only [store_apply]
    split_ifs <;>
      first
      | with_reducible rfl
      | (exfalso; omega)
      | (have e1 : (idx - p) / 4 = n ∧ (idx - p) % 4 = 0 := ?_
         swap
         omega
         rw [e1.1, e1.2])
      | (have e1 : (idx - p) / 4 = n ∧ (idx - p) % 4 = 1 := ?_
         swap
         omega
         rw [e1.1, e1.2])
      | (have e1 : (idx - p) / 4 = n ∧ (idx - p) % 4 = 2 := ?_
         swap
         omega
         rw [e1.1, e1.2])
      | (have e1 : (idx - p) / 4 = n ∧ (idx - p) % 4 = 3 := ?_
         swap
         omega
         rw [e1.1, e1.2])

/-- One row of `build_primary_lightmap`, in closed form. -/
theorem put_row_closed (e : env_t) (bl : Nat → vec_t) (smax : ℤ) (buf : Nat → byte)
    (b q d : Nat) :
    put_row e bl smax (⟨buf, b, q⟩, d) =
      (⟨fun idx => if d ≤ idx ∧ idx < d + 4 * smax.toNat then
          texel_byte e bl (b + 3 * ((idx - d) / 4)) ((idx - d) % 4) else buf idx,
        b + 3 * smax.toNat, d + 4 * smax.toNat⟩, d + e.k.LM_BLOCK_WIDTH * 4) := by
  simp only [put_row, texel_loop_closed]

/-- The rows of `build_primary_lightmap` after `m` rows of `n` texels, started at the byte
index `dst` of texel `(ls, lt)`: the running indices, the texels written so far whose
column lies in the page, and the bytes outside every written row. -/
theorem row_loop_inv (e : env_t) (bl : Nat → vec_t) (smax : ℤ) (buf : Nat → byte)
    (ls dst m : Nat) :
    (forLoop m (fun _ s => put_row e bl smax s) (⟨buf, 0, dst⟩, dst)).1.bl =
      3 * (smax.toNat * m) ∧
    (forLoop m (fun _ s => put_row e bl smax s) (⟨buf, 0, dst⟩, dst)).2 =
      dst + 4 * (e.k.LM_BLOCK_WIDTH * m) ∧
    (∀ i j c, i < m → j < smax.toNat → ls + j < e.k.LM_BLOCK_WIDTH → c < 4 →
      (forLoop m (fun _ s => put_row e bl smax s) (⟨buf, 0, dst⟩, dst)).1.buffer
          (dst + 4 * (e.k.LM_BLOCK_WIDTH * i) + 4 * j + c) =
        texel_byte e bl (3 * (smax.toNat * i + j)) c) ∧
    (∀ idx, (∀ i, i < m → ¬ (dst + 4 * (e.k.LM_BLOCK_WIDTH * i) ≤ idx ∧
        idx < dst + 4 * (e.k.LM_BLOCK_WIDTH * i) + 4 * smax.toNat)) →
      (forLoop m (fun _ s => put_row e bl smax s) (⟨buf, 0, dst⟩, dst)).1.buffer idx =
        buf idx) := by
  induction m with
  | zero =>
    exact ⟨rfl, rfl, fun i j c hi => absurd hi (Nat.not_lt_zero i), fun idx _ => rfl⟩
  | succ m ih =>
    obtain ⟨h1, h2, h3, h4⟩ := ih
    have hm1 : smax.toNat * (m + 1) = smax.toNat * m + smax.toNat := Nat.mul_succ _ _
    have hm2 : e.k.LM_BLOCK_WIDTH * (m + 1) = e.k.LM_BLOCK_WIDTH * m + e.k.LM_BLOCK_WIDTH :=
      Nat.mul_succ _ _
    rw [forLoop]
    generalize forLoop m (fun _ s => put_row e bl smax s) (⟨buf, 0, dst⟩, dst) = st
      at h1 h2 h3 h4
    obtain ⟨⟨B, b, q⟩, d⟩ := st
    simp only at h1 h2 h3 h4
    subst h1 h2
    rw [put_row_closed]
    simp only
    refine ⟨by omega, by omega, ?_, ?_⟩
    · intro i j c hi hj hx hc
      rcases Nat.lt_succ_iff_lt_or_eq.mp hi with hlt | heq
      · have hW : e.k.LM_BLOCK_WIDTH * (i + 1) ≤ e.k.LM_BLOCK_WIDTH * m :=
          Nat.mul_le_mul_left _ hlt
        rw [Nat.mul_succ] at hW
        rw [if_neg (by omega)]
        exact h3 i j c hlt hj hx hc
      · subst heq
        rw [if_pos (by omega)]
        have e1 : (dst + 4 * (e.k.LM_BLOCK_WIDTH * i) + 4 * j + c -
            (dst + 4 * (e.k.LM_BLOCK_WIDTH * i))) / 4 = j := by omega
        have e2 : (dst + 4 * (e.k.LM_BLOCK_WIDTH * i) + 4 * j + c -
            (dst + 4 * (e.k.LM_BLOCK_WIDTH * i))) % 4 = c := by omega
        rw [e1, e2]
        congr 1
        ring
    · intro idx hidx
      rw [if_neg (hidx m (Nat.lt_succ_self m))]
      exact h4 idx (fun i hi => hidx i (Nat.lt_succ_of_lt hi))

/-- The size of a block with positive sides, as a natural number. -/
theorem toNat_mul_toNat (a b : ℤ) (ha : 0 ≤ a) (hb : 0 ≤ b) :
    (a * b).toNat = a.toNat * b.toNat := by
  obtain ⟨n, rfl⟩ := Int.eq_ofNat_of_zero_le ha
  obtain ⟨m, rfl⟩ := Int.eq_ofNat_of_zero_le hb
  rw [← Int.ofNat_mul]
  rfl

/-- C2: for a surface with exactly one light style, at nominal intensity (white = 1),
`build_primary_lightmap` leaves in the atlas, at every texel `(light_s + j, light_t + i)`
of the page with `i < tmax` and `j < smax`, the four bytes that `adjust_color_ub` makes of
the surface's raw RGB sample number `i * smax + j`. -/
theorem build_primary_lightmap_bytes (e : env_t) (g : gl_t) (surf : mface_t) (i j c : Nat)
    (hn : surf.numstyles = 1) (hw : (LIGHT_STYLE g surf 0).white = 1)
    (hi : i < (T_MAX surf).toNat) (hj : j < (S_MAX surf).toNat)
    (hx : surf.light_s + j < e.k.LM_BLOCK_WIDTH) (hc : c < 4) :
    (build_primary_lightmap e g surf).1.lm.buffer
        (((surf.light_t + i) * e.k.LM_BLOCK_WIDTH + (surf.light_s + j)) * 4 + c) =
      rgba_get (adjust_color_ub e.k e.world
        (e.lightdata (surf.lightmap + 3 * (i * (S_MAX surf).toNat + j)) : vec_t)
        (e.lightdata (surf.lightmap + 3 * (i * (S_MAX surf).toNat + j) + 1) : vec_t)
        (e.lightdata (surf.lightmap + 3 * (i * (S_MAX surf).toNat + j) + 2) : vec_t)) c := by
  have hS : 0 ≤ S_MAX surf := by
    by_contra h
    rw [Int.toNat_of_nonpos (by omega)] at hj
    exact Nat.not_lt_zero _ hj
  have hT : 0 ≤ T_MAX surf := by
    by_contra h
    rw [Int.toNat_of_nonpos (by omega)] at hi
    exact Nat.not_lt_zero _ hi
  have hsize : (S_MAX surf * T_MAX surf).toNat = (S_MAX surf).toNat * (T_MAX surf).toNat :=
    toNat_mul_toNat _ _ hS hT
  have hlt : (S_MAX surf).toNat * i + j < (S_MAX surf).toNat * (T_MAX surf).toNat := by
    have h1 : (S_MAX surf).toNat * (i + 1) ≤ (S_MAX surf).toNat * (T_MAX surf).toNat :=
      Nat.mul_le_mul_left _ hi
    rw [Nat.mul_succ] at h1
    omega
  have hbl : ∀ d, d < 3 →
      (add_light_styles e g surf (S_MAX surf * T_MAX surf)).1
          (3 * ((S_MAX surf).toNat * i + j) + d) =
        (e.lightdata (surf.lightmap + 3 * (i * (S_MAX surf).toNat + j) + d) : vec_t) := by
    intro d hd
    rw [add_light_styles_blocklights e g surf _ (by rw [hn]; exact Nat.one_ne_zero),
      if_pos (by rw [hsize]; omega)]
    simp only [hn, Nat.sub_self, Finset.range_zero, Finset.sum_empty, add_zero,
      first_style_term, hw, if_true]
    congr 2
    ring
  have hidx : ((surf.light_t + i) * e.k.LM_BLOCK_WIDTH + (surf.light_s + j)) * 4 + c =
      (surf.light_t * e.k.LM_BLOCK_WIDTH + surf.light_s) * 4 +
        4 * (e.k.LM_BLOCK_WIDTH * i) + 4 * j + c := by ring
  simp only [build_primary_lightmap]
  rw [hidx]
  have hsurf := add_light_styles_surf e g surf (S_MAX surf * T_MAX surf)
  have hls : (add_light_styles e g surf (S_MAX surf * T_MAX surf)).2.light_s = surf.light_s := by
    rw [hsurf]
  have hlt' : (add_light_styles e g surf (S_MAX surf * T_MAX surf)).2.light_t = surf.light_t := by
    rw [hsurf]
  rw [hls, hlt']
  rw [(row_loop_inv e _ (S_MAX surf) g.lm.buffer surf.light_s _ _).2.2.1 i j c hi hj hx hc]
  simp only [texel_byte]
  have h0 := hbl 0 (by norm_num)
  rw [Nat.add_zero, Nat.add_zero] at h0
  rw [h0, hbl 1 (by norm_num), hbl 2 (by norm_num)]

/-! ### Block allocator -/

/-- The loop of `LM_InitBlock` zeroes the first `n` column heights. -/
theorem zero_loop_closed (a : Nat → Nat) (n : Nat) :
    forLoop n (fun i a => store a i 0) a = fun i => if i < n then 0 else a i := by
  induction n with
  | zero =>
    funext i
    simp [forLoop]
  | succ n ih =>
    rw [forLoop, ih]
    funext i
    simp only [store_apply]
    split_ifs <;> first | rfl | (exfalso; omega)

/-- Over empty columns the highest filled column is 0. -/
theorem column_top_zero (inuse : Nat → Nat) (x w : Nat) (h : ∀ j, j < w → inuse (x + j) = 0) :
    column_top inuse x w = 0 := by
  unfold column_top
  induction w with
  | zero => rfl
  | succ w ih =>
    rw [forLoop, ih (fun j hj => h j (Nat.lt_succ_of_lt hj)), h w (Nat.lt_succ_self w)]
    rfl

/-- The highest filled column is at least every column of the run. -/
theorem le_column_top (inuse : Nat → Nat) (x w j : Nat) (hj : j < w) :
    inuse (x + j) ≤ column_top inuse x w := by
  unfold column_top
  induction w with
  | zero => exact absurd hj (Nat.not_lt_zero j)
  | succ w ih =>
    rw [forLoop]
    rcases Nat.lt_succ_iff_lt_or_eq.mp hj with h | h
    · have := ih h
      split_ifs <;> omega
    · subst h
      split_ifs <;> omega

/-- On an empty page the modelled allocator places a block that fits at the origin. -/
theorem GL_AllocBlock_empty (width height : Nat) (inuse : Nat → Nat) (w h : Nat)
    (hz : ∀ i, i < width → inuse i = 0) (hw : w ≤ width) (hh : h ≤ height) :
    GL_AllocBlock width height inuse w h =
      some (fun i => if 0 ≤ i ∧ i < 0 + w then 0 + h else inuse i, 0, 0) := by
  have hscan : ∀ n, n + w ≤ width →
      forLoop (n + 1)
        (fun x (best : Option (Nat × Nat)) =>
          if column_top inuse x w + h ≤ height then
            match best with
            | none => some (x, column_top inuse x w)
            | some (bx, bt) =>
              if column_top inuse x w < bt then some (x, column_top inuse x w) else some (bx, bt)
          else best) none = some (0, 0) := by
    intro n
    induction n with
    | zero =>
      intro _
      have h0 : column_top inuse 0 w = 0 :=
        column_top_zero inuse 0 w (fun j hj => hz _ (by omega))
      simp only [forLoop, h0, Nat.zero_add, if_pos hh]
    | succ n ih =>
      intro hn
      have h0 : column_top inuse (n + 1) w = 0 :=
        column_top_zero inuse (n + 1) w (fun j hj => hz _ (by omega))
      rw [forLoop, ih (by omega), h0]
      simp only [Nat.zero_add, if_pos hh, Nat.lt_irrefl, if_false]
  have hn : width + 1 - w = (width - w) + 1 := by omega
  simp only [GL_AllocBlock]
  rw [hn, hscan (width - w) (by omega)]

/-- The modelled allocator fails when every run of `w` columns inside the page holds a
column too high for the block. -/
theorem GL_AllocBlock_full (width height : Nat) (inuse : Nat → Nat) (w h : Nat)
    (hf : ∀ x, x < width + 1 - w → ∃ j, j < w ∧ height < inuse (x + j) + h) :
    GL_AllocBlock width height inuse w h = none := by
  have hscan : ∀ n, n ≤ width + 1 - w →
      forLoop n
        (fun x (best : Option (Nat × Nat)) =>
          if column_top inuse x w + h ≤ height then
            match best with
            | none => some (x, column_top inuse x w)
            | some (bx, bt) =>
              if column_top inuse x w < bt then some (x, column_top inuse x w) else some (bx, bt)
          else best) none = none := by
    intro n
    induction n with
    | zero => intro _; rfl
    | succ n ih =>
      intro hn
      obtain ⟨j, hj, hjh⟩ := hf n (by omega)
      have := le_column_top inuse n w j hj
      rw [forLoop, ih (by omega), if_neg (by omega)]
  simp only [GL_AllocBlock]
  rw [hscan _ (le_refl _)]

/-! ### Lightmap builder: validation and placement -/

/-- Validated extents give block sides between 1 and 129. -/
theorem block_side_bounds (x : ℤ) (h0 : 0 ≤ x) (h1 : x ≤ 2048) :
    1 ≤ x / 16 + 1 ∧ x / 16 + 1 ≤ 129 := by
  omega

/-- A surface that passes the validations reaches the allocation part. -/
theorem LM_BuildSurface_valid (e : env_t) (g : gl_t) (surf : mface_t) (vbo : Nat → vec_t)
    (base : Nat) (hv : passes_validation e surf) :
    LM_BuildSurface e g surf vbo base =
      LM_BuildSurface_alloc e g surf vbo base (S_MAX surf) (T_MAX surf) := by
  obtain ⟨⟨a0, a1, b0, b1⟩, hl⟩ := hv
  unfold LM_BuildSurface
  simp only [MAX_SURFACE_EXTENTS]
  rw [if_neg (by omega)]
  have hS := block_side_bounds _ a0 a1
  have hT := block_side_bounds _ b0 b1
  have hsz : ¬ S_MAX surf * T_MAX surf > MAX_BLOCKLIGHTS := by
    have hm : MAX_BLOCKLIGHTS = 129 * 129 := by decide
    rw [hm]
    simp only [S_MAX, T_MAX]
    nlinarith
  rw [if_neg hsz, if_neg (not_lt.mpr hl)]

/-- A validated surface whose block the allocator places on the current page. -/
theorem LM_BuildSurface_placed (e : env_t) (g : gl_t) (surf : mface_t) (vbo : Nat → vec_t)
    (base : Nat) (u : Nat → Nat) (s t : Nat) (hv : passes_validation e surf)
    (ha : LM_AllocBlock e g.lm (S_MAX surf).toNat (T_MAX surf).toNat = some (u, s, t)) :
    LM_BuildSurface e g surf vbo base = LM_PlaceSurface e g surf vbo base u s t := by
  rw [LM_BuildSurface_valid e g surf vbo base hv]
  unfold LM_BuildSurface_alloc
  rw [ha]

/-- The raw texel coordinates of the sample surface. -/
theorem sample_surf_tc :
    raw_tc sample_surf 0 0 = 16 / 5 ∧ raw_tc sample_surf 0 1 = 1307 / 10 ∧
    raw_tc sample_surf 0 2 = 1307 / 10 ∧ raw_tc sample_surf 1 0 = 16 / 5 ∧
    raw_tc sample_surf 1 1 = 16 / 5 ∧ raw_tc sample_surf 1 2 = 1307 / 10 := by
  refine ⟨?_, ?_, ?_, ?_, ?_, ?_⟩ <;>
    simp [raw_tc, loop_point, DotProduct, sample_surf, sample_edge, sample_texinfo, vec3]

/-- The running bounds of the sample surface, in sixteenths: floor 0 and ceiling 9. -/
theorem sample_surf_run (k : Nat) (hk : k < 2) :
    Int.floor (run_min 99999 (raw_tc sample_surf k) sample_surf.numsurfedges / 16) = 0 ∧
    Int.ceil (run_max (-99999) (raw_tc sample_surf k) sample_surf.numsurfedges / 16) = 9 := by
  obtain ⟨t00, t01, t02, t10, t11, t12⟩ := sample_surf_tc
  have hn : sample_surf.numsurfedges = 3 := rfl
  have f1 : Int.floor ((16 / 5 : vec_t) / 16) = 0 := by
    rw [Int.floor_eq_iff]
    norm_num
  have f2 : Int.ceil ((1307 / 10 : vec_t) / 16) = 9 := by
    rw [Int.ceil_eq_iff]
    norm_num
  have m1 : min (min (min (99999 : vec_t) (16 / 5)) (1307 / 10)) (1307 / 10) = 16 / 5 := by
    norm_num
  have m2 : min (min (min (99999 : vec_t) (16 / 5)) (16 / 5)) (1307 / 10) = 16 / 5 := by
    norm_num
  have m3 : max (max (max (-99999 : vec_t) (16 / 5)) (1307 / 10)) (1307 / 10) = 1307 / 10 := by
    norm_num
  have m4 : max (max (max (-99999 : vec_t) (16 / 5)) (16 / 5)) (1307 / 10) = 1307 / 10 := by
    norm_num
  rw [hn]
  have hk' : k = 0 ∨ k = 1 := by omega
  rcases hk' with h | h <;> subst h
  · simp only [run_min, run_max, t00, t01, t02, m1, m3, f1, f2, and_self]
  · simp only [run_min, run_max, t10, t11, t12, m2, m4, f1, f2, and_self]

/-- The block bounds of the sample surface fit the 32-bit `int`s. -/
theorem sample_surf_fits (k : Nat) (hk : k < 2) : block_fits_int sample_surf k := by
  obtain ⟨r1, r2⟩ := sample_surf_run k hk
  unfold block_fits_int
  rw [r1, r2]
  norm_num

/-- The bounds `build_surface_poly` stores for the sample surface. -/
theorem sample_surf_bounds (vbo : Nat → vec_t) (base k : Nat) (hk : k < 2) :
    (build_surface_poly sample_surf vbo base).1.texturemins k = 0 ∧
    (build_surface_poly sample_surf vbo base).1.extents k = 144 := by
  obtain ⟨t00, t01, t02, t10, t11, t12⟩ := sample_surf_tc
  have hn : sample_surf.numsurfedges = 3 := rfl
  have f1 : Int.floor ((16 / 5 : vec_t) / 16) = 0 := by
    rw [Int.floor_eq_iff]
    norm_num
  have f2 : Int.ceil ((1307 / 10 : vec_t) / 16) = 9 := by
    rw [Int.ceil_eq_iff]
    norm_num
  have m1 : min (min (min (99999 : vec_t) (16 / 5)) (1307 / 10)) (1307 / 10) = 16 / 5 := by
    norm_num
  have m2 : min (min (min (99999 : vec_t) (16 / 5)) (16 / 5)) (1307 / 10) = 16 / 5 := by
    norm_num
  have m3 : max (max (max (-99999 : vec_t) (16 / 5)) (1307 / 10)) (1307 / 10) = 1307 / 10 := by
    norm_num
  have m4 : max (max (max (-99999 : vec_t) (16 / 5)) (16 / 5)) (1307 / 10) = 1307 / 10 := by
    norm_num
  obtain ⟨e1, e2⟩ := build_surface_poly_bounds sample_surf vbo base k hk
    (sample_surf_fits k hk)
  rw [e1, e2, hn]
  have hk' : k = 0 ∨ k = 1 := by omega
  rcases hk' with h | h <;> subst h
  · simp only [run_min, run_max, t00, t01, t02, m1, m3, f1, f2]
    norm_num
  · simp only [run_min, run_max, t10, t11, t12, m2, m4, f1, f2]
    norm_num

/-- The sample surface, compiled and lit from the start-up globals, is placed at the
origin of page 0. -/
theorem sample_build :
    build_and_light sample_env sample_gl sample_surf (fun _ => 0) 0 =
      LM_PlaceSurface sample_env sample_gl (build_surface_poly sample_surf (fun _ => 0) 0).1
        (build_surface_poly sample_surf (fun _ => 0) 0).2 0
        (fun i => if 0 ≤ i ∧ i < 0 + 10 then 0 + 10 else 0) 0 0 := by
  obtain ⟨-, x0⟩ := sample_surf_bounds (fun _ => 0) 0 0 (by norm_num)
  obtain ⟨-, x1⟩ := sample_surf_bounds (fun _ => 0) 0 1 (by norm_num)
  have hS : S_MAX (build_surface_poly sample_surf (fun _ => 0) 0).1 = 10 := by
    simp only [S_MAX, x0]
    norm_num
  have hT : T_MAX (build_surface_poly sample_surf (fun _ => 0) 0).1 = 10 := by
    simp only [T_MAX, x1]
    norm_num
  unfold build_and_light
  apply LM_BuildSurface_placed
  · refine ⟨⟨by rw [x0]; norm_num, by rw [x0]; norm_num, by rw [x1]; norm_num,
      by rw [x1]; norm_num⟩, ?_⟩
    rw [hS, hT]
    have h1 : (build_surface_poly sample_surf (fun _ => 0) 0).1.lightmap = 1000 := rfl
    have h2 : (build_surface_poly sample_surf (fun _ => 0) 0).1.numstyles = 1 := rfl
    rw [h1, h2]
    norm_num [sample_env]
  · rw [hS, hT]
    have h10 : (10 : ℤ).toNat = 10 := rfl
    simp only [LM_AllocBlock, sample_env, sample_gl, sample_const, h10]
    exact GL_AllocBlock_empty 256 256 (fun _ => 0) 10 10 (fun _ _ => rfl) (by norm_num)
      (by norm_num)

/-- The sample surface, compiled and lit from the start-up globals, gets the block at the
origin of page 0, and its second vertex gets lightmap coordinates inside that block. -/
theorem lmtc_inside_page_rect_witness :
    (build_and_light sample_env sample_gl sample_surf (fun _ => 0) 0).ok = true ∧
    (build_and_light sample_env sample_gl sample_surf (fun _ => 0) 0).surf.light_s = 0 ∧
    S_MAX (build_and_light sample_env sample_gl sample_surf (fun _ => 0) 0).surf = 10 ∧
    ((((build_and_light sample_env sample_gl sample_surf (fun _ => 0) 0).surf.light_s : vec_t) /
          (sample_env.k.LM_BLOCK_WIDTH : vec_t) ≤
        (build_and_light sample_env sample_gl sample_surf (fun _ => 0) 0).vbo
          (0 + VERTEX_SIZE * 1 + 5) ∧
      (build_and_light sample_env sample_gl sample_surf (fun _ => 0) 0).vbo
          (0 + VERTEX_SIZE * 1 + 5) ≤
        (((build_and_light sample_env sample_gl sample_surf (fun _ => 0) 0).surf.light_s : vec_t) +
          (S_MAX (build_and_light sample_env sample_gl sample_surf (fun _ => 0) 0).surf : vec_t)) /
          (sample_env.k.LM_BLOCK_WIDTH : vec_t)) ∧
    (((build_and_light sample_env sample_gl sample_surf (fun _ => 0) 0).surf.light_t : vec_t) /
          (sample_env.k.LM_BLOCK_HEIGHT : vec_t) ≤
        (build_and_light sample_env sample_gl sample_surf (fun _ => 0) 0).vbo
          (0 + VERTEX_SIZE * 1 + 6) ∧
      (build_and_light sample_env sample_gl sample_surf (fun _ => 0) 0).vbo
          (0 + VERTEX_SIZE * 1 + 6) ≤
        (((build_and_light sample_env sample_gl sample_surf (fun _ => 0) 0).surf.light_t : vec_t) +
          (T_MAX (build_and_light sample_env sample_gl sample_surf (fun _ => 0) 0).surf : vec_t)) /
          (sample_env.k.LM_BLOCK_HEIGHT : vec_t))) := by
  obtain ⟨y0, x0⟩ := sample_surf_bounds (fun _ => 0) 0 0 (by norm_num)
  obtain ⟨y1, x1⟩ := sample_surf_bounds (fun _ => 0) 0 1 (by norm_num)
  obtain ⟨r1, r2, r3, -, r5, -, -, -⟩ :=
    LM_PlaceSurface_result sample_env sample_gl (build_surface_poly sample_surf (fun _ => 0) 0).1
      (build_surface_poly sample_surf (fun _ => 0) 0).2 0
      (fun i => if 0 ≤ i ∧ i < 0 + 10 then 0 + 10 else 0) 0 0
  rw [← sample_build] at r1 r2 r3 r5
  have hS : S_MAX (build_and_light sample_env sample_gl sample_surf (fun _ => 0) 0).surf = 10 := by
    simp only [S_MAX, r5, x0]
    norm_num
  have hT : T_MAX (build_and_light sample_env sample_gl sample_surf (fun _ => 0) 0).surf = 10 := by
    simp only [T_MAX, r5, x1]
    norm_num
  refine ⟨r1, r2, hS, ?_⟩
  exact lmtc_inside_page_rect sample_env sample_gl sample_surf (fun _ => 0) 0 1
    (sample_surf_fits 0 (by norm_num)) (sample_surf_fits 1 (by norm_num))
    (by rw [r2, y0]; norm_num [origin_fits_int])
    (by rw [r3, y1]; norm_num [origin_fits_int]) r1
    (by rw [r2, hS]; norm_num [sample_env, sample_const])
    (by rw [r3, hT]; norm_num [sample_env, sample_const])
    (by norm_num [sample_surf])

/-- Witness for C2: the 10 x 10 block of the sample surface at the origin of the page; the
first byte of texel (2, 1) is made of the sample number 12. -/
theorem build_primary_lightmap_bytes_witness :
    (build_primary_lightmap sample_env sample_gl lit_surf).1.lm.buffer
        (((lit_surf.light_t + 1) * sample_env.k.LM_BLOCK_WIDTH + (lit_surf.light_s + 2)) * 4 + 0) =
      rgba_get (adjust_color_ub sample_env.k sample_env.world
        (sample_env.lightdata (lit_surf.lightmap + 3 * (1 * (S_MAX lit_surf).toNat + 2)) : vec_t)
        (sample_env.lightdata (lit_surf.lightmap + 3 * (1 * (S_MAX lit_surf).toNat + 2) + 1) :
          vec_t)
        (sample_env.lightdata (lit_surf.lightmap + 3 * (1 * (S_MAX lit_surf).toNat + 2) + 2) :
          vec_t)) 0 :=
  build_primary_lightmap_bytes sample_env sample_gl lit_surf 1 2 0 rfl rfl
    (by norm_num [T_MAX, lit_surf]) (by norm_num [S_MAX, lit_surf])
    (by norm_num [lit_surf, sample_surf, sample_env, sample_const]) (by norm_num)

/-- C3 (the code at the failing input): with a first style at white level 1 and
multipliers (1, 1/2, 1/2), `add_light_styles` leaves the bare green sample 233 in
`blocklights[1]`, where the sum of samples scaled by the style's multipliers is 233/2. -/
theorem add_light_styles_tinted :
    (LIGHT_STYLE tinted_gl lit_surf 0).white = 1 ∧
    (LIGHT_STYLE tinted_gl lit_surf 0).rgb 1 = 1 / 2 ∧
    (add_light_styles sample_env tinted_gl lit_surf 100).1 1 = 233 ∧
    style_blend sample_env tinted_gl lit_surf 100 1 = 233 / 2 := by
  refine ⟨rfl, by simp [LIGHT_STYLE, tinted_gl, vec3], ?_, ?_⟩
  · have h100 : (100 : ℤ).toNat = 100 := rfl
    rw [add_light_styles_blocklights sample_env tinted_gl lit_surf 100 (by decide), h100]
    norm_num [first_style_term, LIGHT_STYLE, tinted_gl, vec3, lit_surf, sample_surf, sample_env]
  · norm_num [style_blend, LIGHT_STYLE, tinted_gl, vec3, lit_surf, sample_surf, sample_env,
      Finset.sum_range_one]

/-! ### Lightmap builder: page turns -/

/-- A validated surface on a full dirty page, with the page count not one short of
`LM_MAX_LIGHTMAPS`: the page is uploaded, the count goes up by one, and the surface is
placed on the reset page with the new page number, leaving that page full. -/
theorem LM_BuildSurface_turn (e : env_t) (g : gl_t) (surf : mface_t) (vbo : Nat → vec_t)
    (base m : Nat) (hv : passes_validation e surf)
    (hfill : fills_page e (S_MAX surf).toNat (T_MAX surf).toNat)
    (hg : full_page_state e (S_MAX surf).toNat (T_MAX surf).toNat m g)
    (hm : m + 1 ≠ e.k.LM_MAX_LIGHTMAPS) :
    (LM_BuildSurface e g surf vbo base).ok = true ∧
    (LM_BuildSurface e g surf vbo base).surf.texnum 1 = e.k.TEXNUM_LIGHTMAP + (m + 1) ∧
    (LM_BuildSurface e g surf vbo base).surf.lightmap = surf.lightmap ∧
    (LM_BuildSurface e g surf vbo base).surf.numsurfedges = surf.numsurfedges ∧
    full_page_state e (S_MAX surf).toNat (T_MAX surf).toNat (m + 1)
      (LM_BuildSurface e g surf vbo base).g ∧
    (LM_BuildSurface e g surf vbo base).g.eprintf = g.eprintf := by
  obtain ⟨hn, hd, hp⟩ := hg
  have hup : LM_UploadBlock e.k g =
      { g with
        textures := store g.textures (e.k.TEXNUM_LIGHTMAP + g.lm.nummaps)
          (fun i => if i < e.k.LM_BLOCK_WIDTH * e.k.LM_BLOCK_HEIGHT * 4 then g.lm.buffer i
            else 0)
        lm := { g.lm with
          nummaps := g.lm.nummaps + 1
          highwater := if g.lm.highwater < g.lm.nummaps + 1 then g.lm.nummaps + 1
            else g.lm.highwater } } := by
    unfold LM_UploadBlock
    rw [if_neg (by rw [hd]; simp)]
  obtain ⟨u, s, t, hu, hfull⟩ := hfill g.lm.inuse
  rw [LM_BuildSurface_valid e g surf vbo base hv]
  unfold LM_BuildSurface_alloc
  have h1 : LM_AllocBlock e g.lm (S_MAX surf).toNat (T_MAX surf).toNat = none := hp
  rw [h1]
  simp only
  rw [hup]
  simp only
  rw [if_neg (by rw [hn]; exact hm)]
  have h2 : LM_AllocBlock e (LM_InitBlock e.k
      { g.lm with
        nummaps := g.lm.nummaps + 1
        highwater := if g.lm.highwater < g.lm.nummaps + 1 then g.lm.nummaps + 1
          else g.lm.highwater }) (S_MAX surf).toNat (T_MAX surf).toNat = some (u, s, t) := hu
  rw [h2]
  simp only
  obtain ⟨r1, -, -, r4, -, -, r7, -⟩ := LM_PlaceSurface_result e
    { g with
      textures := store g.textures (e.k.TEXNUM_LIGHTMAP + g.lm.nummaps)
        (fun i => if i < e.k.LM_BLOCK_WIDTH * e.k.LM_BLOCK_HEIGHT * 4 then g.lm.buffer i
          else 0)
      lm := LM_InitBlock e.k { g.lm with
        nummaps := g.lm.nummaps + 1
        highwater := if g.lm.highwater < g.lm.nummaps + 1 then g.lm.nummaps + 1
          else g.lm.highwater } } surf vbo base u s t
  obtain ⟨q1, q2, q3, -, -, q6, -, -⟩ := LM_PlaceSurface_globals e
    { g with
      textures := store g.textures (e.k.TEXNUM_LIGHTMAP + g.lm.nummaps)
        (fun i => if i < e.k.LM_BLOCK_WIDTH * e.k.LM_BLOCK_HEIGHT * 4 then g.lm.buffer i
          else 0)
      lm := LM_InitBlock e.k { g.lm with
        nummaps := g.lm.nummaps + 1
        highwater := if g.lm.highwater < g.lm.nummaps + 1 then g.lm.nummaps + 1
          else g.lm.highwater } } surf vbo base u s t
  refine ⟨r1, ?_, ?_, r7, ⟨?_, q2, ?_⟩, q6⟩
  · rw [r4]
    simp only [LM_InitBlock, hn]
  · simp only [LM_PlaceSurface]
    rw [build_primary_lightmap_surf]
  · rw [q1]
    simp only [LM_InitBlock, hn]
  · unfold page_full
    rw [q3]
    exact hfull

/-- A validated surface on a full dirty page, with the page count one short of
`LM_MAX_LIGHTMAPS`: the page is uploaded, the count reaches `LM_MAX_LIGHTMAPS`, the call
reports the exhaustion and fails, and the page is left dirty and full. -/
theorem LM_BuildSurface_exhausted (e : env_t) (g : gl_t) (surf : mface_t) (vbo : Nat → vec_t)
    (base m : Nat) (hv : passes_validation e surf)
    (hg : full_page_state e (S_MAX surf).toNat (T_MAX surf).toNat m g)
    (hm : m + 1 = e.k.LM_MAX_LIGHTMAPS) :
    (LM_BuildSurface e g surf vbo base).ok = false ∧
    (LM_BuildSurface e g surf vbo base).surf = surf ∧
    full_page_state e (S_MAX surf).toNat (T_MAX surf).toNat (m + 1)
      (LM_BuildSurface e g surf vbo base).g ∧
    (LM_BuildSurface e g surf vbo base).g.eprintf =
      emsg_t.LM_MAX_LIGHTMAPS_exceeded :: g.eprintf := by
  obtain ⟨hn, hd, hp⟩ := hg
  have hup : LM_UploadBlock e.k g =
      { g with
        textures := store g.textures (e.k.TEXNUM_LIGHTMAP + g.lm.nummaps)
          (fun i => if i < e.k.LM_BLOCK_WIDTH * e.k.LM_BLOCK_HEIGHT * 4 then g.lm.buffer i
            else 0)
        lm := { g.lm with
          nummaps := g.lm.nummaps + 1
          highwater := if g.lm.highwater < g.lm.nummaps + 1 then g.lm.nummaps + 1
            else g.lm.highwater } } := by
    unfold LM_UploadBlock
    rw [if_neg (by rw [hd]; simp)]
  rw [LM_BuildSurface_valid e g surf vbo base hv]
  unfold LM_BuildSurface_alloc
  have h1 : LM_AllocBlock e g.lm (S_MAX surf).toNat (T_MAX surf).toNat = none := hp
  rw [h1]
  simp only
  rw [hup]
  simp only
  rw [if_pos (by rw [hn]; exact hm)]
  exact ⟨rfl, rfl, ⟨by simp only [hn], hd, hp⟩, rfl⟩

/-- A validated surface on a page just reset by `LM_InitBlock`: it is placed on the current
page, which it leaves dirty and full. -/
theorem LM_BuildSurface_fresh (e : env_t) (g : gl_t) (surf : mface_t) (vbo : Nat → vec_t)
    (base : Nat) (a : Nat → Nat) (hv : passes_validation e surf)
    (hfill : fills_page e (S_MAX surf).toNat (T_MAX surf).toNat)
    (hg : g.lm.inuse = forLoop e.k.LM_BLOCK_WIDTH (fun i a => store a i 0) a) :
    (LM_BuildSurface e g surf vbo base).ok = true ∧
    (LM_BuildSurface e g surf vbo base).surf.texnum 1 = e.k.TEXNUM_LIGHTMAP + g.lm.nummaps ∧
    (LM_BuildSurface e g surf vbo base).surf.lightmap = surf.lightmap ∧
    (LM_BuildSurface e g surf vbo base).surf.numsurfedges = surf.numsurfedges ∧
    full_page_state e (S_MAX surf).toNat (T_MAX surf).toNat g.lm.nummaps
      (LM_BuildSurface e g surf vbo base).g ∧
    (LM_BuildSurface e g surf vbo base).g.eprintf = g.eprintf := by
  obtain ⟨u, s, t, hu, hfull⟩ := hfill a
  have h1 : LM_AllocBlock e g.lm (S_MAX surf).toNat (T_MAX surf).toNat = some (u, s, t) := by
    unfold LM_AllocBlock
    rw [hg]
    exact hu
  rw [LM_BuildSurface_placed e g surf vbo base u s t hv h1]
  obtain ⟨r1, -, -, r4, -, -, r7, -⟩ := LM_PlaceSurface_result e g surf vbo base u s t
  obtain ⟨q1, q2, q3, -, -, q6, -, -⟩ := LM_PlaceSurface_globals e g surf vbo base u s t
  refine ⟨r1, r4, ?_, r7, ⟨q1, q2, ?_⟩, q6⟩
  · simp only [LM_PlaceSurface]
    rw [build_primary_lightmap_surf]
  · unfold page_full
    rw [q3]
    exact hfull

/-! ### World loading -/

/-- A failed `LM_BuildSurface` leaves the surface and the vertex data as they were. -/
theorem LM_BuildSurface_failed (e : env_t) (g : gl_t) (surf : mface_t) (vbo : Nat → vec_t)
    (base : Nat) (hok : (LM_BuildSurface e g surf vbo base).ok = false) :
    (LM_BuildSurface e g surf vbo base).surf = surf ∧
    (LM_BuildSurface e g surf vbo base).vbo = vbo := by
  unfold LM_BuildSurface at hok ⊢
  simp only [MAX_SURFACE_EXTENTS] at hok ⊢
  by_cases h1 : surf.extents 0 < 0 ∨ surf.extents 0 > 2048 ∨
      surf.extents 1 < 0 ∨ surf.extents 1 > 2048
  · rw [if_pos h1]
    exact ⟨rfl, rfl⟩
  rw [if_neg h1] at hok ⊢
  by_cases h2 : S_MAX surf * T_MAX surf > MAX_BLOCKLIGHTS
  · rw [if_pos h2]
    exact ⟨rfl, rfl⟩
  rw [if_neg h2] at hok ⊢
  by_cases h3 : (surf.lightmap : ℤ) + (surf.numstyles : ℤ) * (S_MAX surf * T_MAX surf) * 3 >
      ((e.bsp.lightmap + e.bsp.numlightmapbytes : Nat) : ℤ)
  · rw [if_pos h3]
    exact ⟨rfl, rfl⟩
  rw [if_neg h3] at hok ⊢
  unfold LM_BuildSurface_alloc at hok ⊢
  cases ha : LM_AllocBlock e g.lm (S_MAX surf).toNat (T_MAX surf).toNat with
  | some r =>
    obtain ⟨inuse, s, t⟩ := r
    rw [ha] at hok
    simp only at hok
    rw [(LM_PlaceSurface_result e g surf vbo base inuse s t).1] at hok
    exact absurd hok (by simp)
  | none =>
    rw [ha] at hok
    simp only at hok ⊢
    by_cases h4 : (LM_UploadBlock e.k g).lm.nummaps = e.k.LM_MAX_LIGHTMAPS
    · rw [if_pos h4]
      exact ⟨rfl, rfl⟩
    rw [if_neg h4] at hok ⊢
    cases hb : LM_AllocBlock e (LM_InitBlock e.k (LM_UploadBlock e.k g).lm)
        (S_MAX surf).toNat (T_MAX surf).toNat with
    | none => exact ⟨rfl, rfl⟩
    | some r =>
      obtain ⟨inuse, s, t⟩ := r
      rw [hb] at hok
      simp only at hok
      rw [(LM_PlaceSurface_result e _ surf vbo base inuse s t).1] at hok
      exact absurd hok (by simp)

/-- `LM_BuildSurface` never changes the number of edges of the surface. -/
theorem LM_BuildSurface_numsurfedges (e : env_t) (g : gl_t) (surf : mface_t)
    (vbo : Nat → vec_t) (base : Nat) :
    (LM_BuildSurface e g surf vbo base).surf.numsurfedges = surf.numsurfedges := by
  cases hok : (LM_BuildSurface e g surf vbo base).ok with
  | false => rw [(LM_BuildSurface_failed e g surf vbo base hok).1]
  | true =>
    obtain ⟨-, g', inuse, s, t, hr⟩ := LM_BuildSurface_ok e g surf vbo base hok
    rw [hr]
    exact (LM_PlaceSurface_result e g' surf vbo base inuse s t).2.2.2.2.2.2.1

/-- The surface with light data for which `LM_BuildSurface` fails: it loses its lightmap,
its lightmap coordinates are duplicated from its texture coordinates, and the globals are
those the failed call left. -/
theorem post_process_failed (e : env_t) (g : gl_t) (surf : mface_t) (vbo : Nat → vec_t)
    (base count : Nat) (hfb : e.gl_fullbright = 0)
    (hnolm : surf.drawflags &&& e.k.SURF_NOLM_MASK = 0) (hlm : surf.lightmap ≠ 0)
    (hok : (LM_BuildSurface e g (build_surface_poly { surf with firstvert := count } vbo base).1
      (build_surface_poly { surf with firstvert := count } vbo base).2 base).ok = false) :
    post_process_surface e g surf vbo base count =
      ((LM_BuildSurface e g (build_surface_poly { surf with firstvert := count } vbo base).1
          (build_surface_poly { surf with firstvert := count } vbo base).2 base).g,
        { (build_surface_poly { surf with firstvert := count } vbo base).1 with lightmap := 0 },
        duplicate_surface_lmtc
          { (build_surface_poly { surf with firstvert := count } vbo base).1 with lightmap := 0 }
          (build_surface_poly { surf with firstvert := count } vbo base).2 base) := by
  obtain ⟨hs, hv⟩ := LM_BuildSurface_failed e g _ _ base hok
  have h1 : ¬ (e.gl_fullbright ≠ 0 ∨
      (build_surface_poly { surf with firstvert := count } vbo base).1.drawflags &&&
        e.k.SURF_NOLM_MASK ≠ 0) := by
    rintro (h | h)
    · exact h hfb
    · exact h hnolm
  have h2 : (build_surface_poly { surf with firstvert := count } vbo base).1.lightmap ≠ 0 := hlm
  unfold post_process_surface
  simp only [if_neg h1, if_pos h2, hok, if_true, hs, hv]

/-- The surface with light data for which `LM_BuildSurface` succeeds keeps what the call
made of it. -/
theorem post_process_lit (e : env_t) (g : gl_t) (surf : mface_t) (vbo : Nat → vec_t)
    (base count : Nat) (hfb : e.gl_fullbright = 0)
    (hnolm : surf.drawflags &&& e.k.SURF_NOLM_MASK = 0) (hlm : surf.lightmap ≠ 0)
    (hok : (LM_BuildSurface e g (build_surface_poly { surf with firstvert := count } vbo base).1
      (build_surface_poly { surf with firstvert := count } vbo base).2 base).ok = true)
    (hkeep : (LM_BuildSurface e g
      (build_surface_poly { surf with firstvert := count } vbo base).1
      (build_surface_poly { surf with firstvert := count } vbo base).2 base).surf.lightmap ≠ 0) :
    post_process_surface e g surf vbo base count =
      ((LM_BuildSurface e g (build_surface_poly { surf with firstvert := count } vbo base).1
          (build_surface_poly { surf with firstvert := count } vbo base).2 base).g,
        (LM_BuildSurface e g (build_surface_poly { surf with firstvert := count } vbo base).1
          (build_surface_poly { surf with firstvert := count } vbo base).2 base).surf,
        (LM_BuildSurface e g (build_surface_poly { surf with firstvert := count } vbo base).1
          (build_surface_poly { surf with firstvert := count } vbo base).2 base).vbo) := by
  have h1 : ¬ (e.gl_fullbright ≠ 0 ∨
      (build_surface_poly { surf with firstvert := count } vbo base).1.drawflags &&&
        e.k.SURF_NOLM_MASK ≠ 0) := by
    rintro (h | h)
    · exact h hfb
    · exact h hnolm
  have h2 : (build_surface_poly { surf with firstvert := count } vbo base).1.lightmap ≠ 0 := hlm
  have h3 : ¬ ((LM_BuildSurface e g
      (build_surface_poly { surf with firstvert := count } vbo base).1
      (build_surface_poly { surf with firstvert := count } vbo base).2 base).ok = false) := by
    rw [hok]
    simp
  unfold post_process_surface
  simp only [if_neg h1, if_pos h2, if_neg h3, if_neg hkeep]

/-- The post-processing of a surface never changes its number of edges. -/
theorem post_process_numsurfedges (e : env_t) (g : gl_t) (surf : mface_t) (vbo : Nat → vec_t)
    (base count : Nat) :
    (post_process_surface e g surf vbo base count).2.1.numsurfedges = surf.numsurfedges := by
  unfold post_process_surface
  simp only
  split_ifs <;>
    first
    | rfl
    | exact LM_BuildSurface_numsurfedges e g _ _ base

/-- The loop body for a surface that is not sky, with the hunk arena in use. -/
theorem GL_LoadWorld_surface_hunk (e : env_t) (st : load_t) (surf : mface_t)
    (hh : st.has_vertices = true)
    (hsky : (hack_flags e surf).drawflags &&& e.k.SURF_SKY = 0) :
    GL_LoadWorld_surface e st surf =
      ({ st with
          g := (post_process_surface e st.g (hack_flags e surf) st.vertices
            (st.count * VERTEX_SIZE) st.count).1
          vertices := (post_process_surface e st.g (hack_flags e surf) st.vertices
            (st.count * VERTEX_SIZE) st.count).2.2
          count := st.count + surf.numsurfedges },
        (post_process_surface e st.g (hack_flags e surf) st.vertices
          (st.count * VERTEX_SIZE) st.count).2.1) := by
  unfold GL_LoadWorld_surface
  simp only [hsky, ne_eq, not_true_eq_false, if_false, hh, if_true]
  rw [post_process_numsurfedges]
  rfl

/-- The loop over a concatenation of face lists. -/
theorem GL_LoadWorld_surfaces_append (e : env_t) (st : load_t) (l1 l2 : List mface_t) :
    GL_LoadWorld_surfaces e st (l1 ++ l2) =
      ((GL_LoadWorld_surfaces e (GL_LoadWorld_surfaces e st l1).1 l2).1,
        (GL_LoadWorld_surfaces e st l1).2 ++
          (GL_LoadWorld_surfaces e (GL_LoadWorld_surfaces e st l1).1 l2).2) := by
  induction l1 generalizing st with
  | nil => rfl
  | cons surf rest ih =>
    have h := ih (GL_LoadWorld_surface e st surf).1
    simp only [List.cons_append, GL_LoadWorld_surfaces, List.append_eq, h]

/-- The loop body keeps the choice between hunk arena and buffer object. -/
theorem GL_LoadWorld_surface_has_vertices (e : env_t) (st : load_t) (surf : mface_t) :
    (GL_LoadWorld_surface e st surf).1.has_vertices = st.has_vertices := by
  unfold GL_LoadWorld_surface
  simp only
  split_ifs <;> rfl

/-- With the hunk arena in use, the loop body advances `count` by the surface's vertices
unless the surface is sky. -/
theorem GL_LoadWorld_surface_count (e : env_t) (st : load_t) (surf : mface_t)
    (hh : st.has_vertices = true) :
    (GL_LoadWorld_surface e st surf).1.count = st.count + count_verts e [surf] := by
  by_cases hsky : (hack_flags e surf).drawflags &&& e.k.SURF_SKY = 0
  · rw [GL_LoadWorld_surface_hunk e st surf hh hsky]
    have h' : (surf.drawflags ||| and_not surf.texinfo.flags e.k.DSURF_PLANEBACK) &&&
        e.k.SURF_SKY = 0 := hsky
    simp only [count_verts, h', ne_eq, not_true_eq_false, if_false, Nat.add_zero]
  · have h' : ¬ (surf.drawflags ||| and_not surf.texinfo.flags e.k.DSURF_PLANEBACK) &&&
        e.k.SURF_SKY = 0 := hsky
    unfold GL_LoadWorld_surface
    simp only [count_verts, ne_eq, hsky, h', not_false_eq_true, if_true, Nat.add_zero]

/-- The loop returns as many faces as it was given. -/
theorem GL_LoadWorld_surfaces_length (e : env_t) (st : load_t) (faces : List mface_t) :
    (GL_LoadWorld_surfaces e st faces).2.length = faces.length := by
  induction faces generalizing st with
  | nil => rfl
  | cons surf rest ih =>
    simp only [GL_LoadWorld_surfaces, List.length_cons, ih]

/-- The loop keeps the choice between hunk arena and buffer object. -/
theorem GL_LoadWorld_surfaces_has_vertices (e : env_t) (st : load_t) (faces : List mface_t) :
    (GL_LoadWorld_surfaces e st faces).1.has_vertices = st.has_vertices := by
  induction faces generalizing st with
  | nil => rfl
  | cons surf rest ih =>
    simp only [GL_LoadWorld_surfaces, ih, GL_LoadWorld_surface_has_vertices]

/-- With the hunk arena in use, the loop advances `count` by the vertices of all faces that
are not sky. -/
theorem GL_LoadWorld_surfaces_count (e : env_t) (st : load_t) (faces : List mface_t)
    (hh : st.has_vertices = true) :
    (GL_LoadWorld_surfaces e st faces).1.count = st.count + count_verts e faces := by
  induction faces generalizing st with
  | nil => rfl
  | cons surf rest ih =>
    have h1 := GL_LoadWorld_surface_count e st surf hh
    have h2 := ih (GL_LoadWorld_surface e st surf).1
      (by rw [GL_LoadWorld_surface_has_vertices]; exact hh)
    simp only [GL_LoadWorld_surfaces, h2, h1, count_verts, Nat.add_zero]
    omega

/-- C9 (amended): the surface loop of `GL_LoadWorld` never aborts. It returns every face of
the world; with the hunk arena in use its vertex count ends at the total over all faces
that are not sky, whatever `LM_BuildSurface` returned; and a surface with light data for
which `LM_BuildSurface` fails (atlas exhaustion included) only loses its lightmap: its
`lightmap` becomes `NULL`, its lightmap coordinates are duplicated from its texture
coordinates, and the loop goes on from the globals the failed call left. -/
theorem GL_LoadWorld_never_aborts (e : env_t) (st : load_t) (faces : List mface_t) :
    (GL_LoadWorld_surfaces e st faces).2.length = faces.length ∧
    (st.has_vertices = true →
      (GL_LoadWorld_surfaces e st faces).1.count = st.count + count_verts e faces) ∧
    (∀ (g : gl_t) (surf : mface_t) (vbo : Nat → vec_t) (base count : Nat),
      e.gl_fullbright = 0 → surf.drawflags &&& e.k.SURF_NOLM_MASK = 0 → surf.lightmap ≠ 0 →
      (LM_BuildSurface e g (build_surface_poly { surf with firstvert := count } vbo base).1
        (build_surface_poly { surf with firstvert := count } vbo base).2 base).ok = false →
      (post_process_surface e g surf vbo base count).1 =
        (LM_BuildSurface e g (build_surface_poly { surf with firstvert := count } vbo base).1
          (build_surface_poly { surf with firstvert := count } vbo base).2 base).g ∧
      (post_process_surface e g surf vbo base count).2.1 =
        { (build_surface_poly { surf with firstvert := count } vbo base).1 with lightmap := 0 } ∧
      (post_process_surface e g surf vbo base count).2.2 =
        duplicate_surface_lmtc
          { (build_surface_poly { surf with firstvert := count } vbo base).1 with lightmap := 0 }
          (build_surface_poly { surf with firstvert := count } vbo base).2 base) := by
  refine ⟨GL_LoadWorld_surfaces_length e st faces, GL_LoadWorld_surfaces_count e st faces, ?_⟩
  intro g surf vbo base count hfb hnolm hlm hok
  rw [post_process_failed e g surf vbo base count hfb hnolm hlm hok]
  exact ⟨rfl, rfl, rfl⟩

/-- The loop body on a page-filling face when the current page is full and the page count
is not one short of the maximum: a new page is opened for the face. -/
theorem loop_step_turn (e : env_t) (st : load_t) (surf : mface_t) (w h m : Nat)
    (hfb : e.gl_fullbright = 0) (hh : st.has_vertices = true)
    (hF : lit_page_filler e surf w h) (hfill : fills_page e w h)
    (hg : full_page_state e w h m st.g) (hm : m + 1 ≠ e.k.LM_MAX_LIGHTMAPS) :
    (GL_LoadWorld_surface e st surf).1.has_vertices = true ∧
    full_page_state e w h (m + 1) (GL_LoadWorld_surface e st surf).1.g ∧
    (GL_LoadWorld_surface e st surf).1.g.eprintf = st.g.eprintf ∧
    (GL_LoadWorld_surface e st surf).2.texnum 1 = e.k.TEXNUM_LIGHTMAP + (m + 1) ∧
    (GL_LoadWorld_surface e st surf).2.lightmap = surf.lightmap := by
  obtain ⟨hsky, hnolm, hlm, hP⟩ := hF
  obtain ⟨hv, hS, hT⟩ := hP st.count st.vertices (st.count * VERTEX_SIZE)
  rw [← hS, ← hT] at hfill hg
  obtain ⟨t1, t2, t3, -, t5, t6⟩ := LM_BuildSurface_turn e st.g _
    (build_surface_poly { hack_flags e surf with firstvert := st.count } st.vertices
      (st.count * VERTEX_SIZE)).2 (st.count * VERTEX_SIZE) m hv hfill hg hm
  rw [hS, hT] at t5
  have hl : (build_surface_poly { hack_flags e surf with firstvert := st.count } st.vertices
      (st.count * VERTEX_SIZE)).1.lightmap = surf.lightmap := rfl
  rw [hl] at t3
  rw [GL_LoadWorld_surface_hunk e st surf hh hsky,
    post_process_lit e st.g (hack_flags e surf) st.vertices (st.count * VERTEX_SIZE) st.count
      hfb hnolm hlm t1 (by rw [t3]; exact hlm)]
  exact ⟨hh, t5, t6, t2, t3⟩

/-- The loop body on a page-filling face when the current page is full and the page count
is one short of the maximum: `LM_BuildSurface` reports the exhaustion, the face loses its
lightmap, and the page stays dirty and full. -/
theorem loop_step_exhausted (e : env_t) (st : load_t) (surf : mface_t) (w h m : Nat)
    (hfb : e.gl_fullbright = 0) (hh : st.has_vertices = true)
    (hF : lit_page_filler e surf w h)
    (hg : full_page_state e w h m st.g) (hm : m + 1 = e.k.LM_MAX_LIGHTMAPS) :
    (GL_LoadWorld_surface e st surf).1.has_vertices = true ∧
    full_page_state e w h (m + 1) (GL_LoadWorld_surface e st surf).1.g ∧
    (GL_LoadWorld_surface e st surf).1.g.eprintf =
      emsg_t.LM_MAX_LIGHTMAPS_exceeded :: st.g.eprintf ∧
    (GL_LoadWorld_surface e st surf).2.lightmap = 0 := by
  obtain ⟨hsky, hnolm, hlm, hP⟩ := hF
  obtain ⟨hv, hS, hT⟩ := hP st.count st.vertices (st.count * VERTEX_SIZE)
  rw [← hS, ← hT] at hg
  obtain ⟨t1, -, t3, t4⟩ := LM_BuildSurface_exhausted e st.g _
    (build_surface_poly { hack_flags e surf with firstvert := st.count } st.vertices
      (st.count * VERTEX_SIZE)).2 (st.count * VERTEX_SIZE) m hv hg hm
  rw [hS, hT] at t3
  rw [GL_LoadWorld_surface_hunk e st surf hh hsky,
    post_process_failed e st.g (hack_flags e surf) st.vertices (st.count * VERTEX_SIZE) st.count
      hfb hnolm hlm t1]
  exact ⟨hh, t3, t4, rfl⟩

/-- The loop body on a page-filling face when the current page has just been reset: the
face is placed on the current page. -/
theorem loop_step_fresh (e : env_t) (st : load_t) (surf : mface_t) (w h : Nat)
    (a : Nat → Nat) (hfb : e.gl_fullbright = 0) (hh : st.has_vertices = true)
    (hF : lit_page_filler e surf w h) (hfill : fills_page e w h)
    (hg : st.g.lm.inuse = forLoop e.k.LM_BLOCK_WIDTH (fun i a => store a i 0) a) :
    (GL_LoadWorld_surface e st surf).1.has_vertices = true ∧
    full_page_state e w h st.g.lm.nummaps (GL_LoadWorld_surface e st surf).1.g ∧
    (GL_LoadWorld_surface e st surf).1.g.eprintf = st.g.eprintf ∧
    (GL_LoadWorld_surface e st surf).2.texnum 1 = e.k.TEXNUM_LIGHTMAP + st.g.lm.nummaps ∧
    (GL_LoadWorld_surface e st surf).2.lightmap = surf.lightmap := by
  obtain ⟨hsky, hnolm, hlm, hP⟩ := hF
  obtain ⟨hv, hS, hT⟩ := hP st.count st.vertices (st.count * VERTEX_SIZE)
  rw [← hS, ← hT] at hfill
  obtain ⟨t1, t2, t3, -, t5, t6⟩ := LM_BuildSurface_fresh e st.g _
    (build_surface_poly { hack_flags e surf with firstvert := st.count } st.vertices
      (st.count * VERTEX_SIZE)).2 (st.count * VERTEX_SIZE) a hv hfill hg
  rw [hS, hT] at t5
  have hl : (build_surface_poly { hack_flags e surf with firstvert := st.count } st.vertices
      (st.count * VERTEX_SIZE)).1.lightmap = surf.lightmap := rfl
  rw [hl] at t3
  rw [GL_LoadWorld_surface_hunk e st surf hh hsky,
    post_process_lit e st.g (hack_flags e surf) st.vertices (st.count * VERTEX_SIZE) st.count
      hfb hnolm hlm t1 (by rw [t3]; exact hlm)]
  exact ⟨hh, t5, t6, t2, t3⟩

/-- A run of page-filling faces below the page limit: each face opens a new page. -/
theorem loop_turns (e : env_t) (surf : mface_t) (w h : Nat)
    (hfb : e.gl_fullbright = 0) (hF : lit_page_filler e surf w h) (hfill : fills_page e w h)
    (n : Nat) :
    ∀ (st : load_t) (m : Nat), st.has_vertices = true → full_page_state e w h m st.g →
      m + n < e.k.LM_MAX_LIGHTMAPS →
      (GL_LoadWorld_surfaces e st (List.replicate n surf)).1.has_vertices = true ∧
      full_page_state e w h (m + n) (GL_LoadWorld_surfaces e st (List.replicate n surf)).1.g ∧
      (GL_LoadWorld_surfaces e st (List.replicate n surf)).1.g.eprintf = st.g.eprintf := by
  induction n with
  | zero =>
    intro st m hh hg _
    exact ⟨hh, hg, rfl⟩
  | succ n ih =>
    intro st m hh hg hm
    obtain ⟨s1, s2, s3, -, -⟩ := loop_step_turn e st surf w h m hfb hh hF hfill hg (by omega)
    obtain ⟨r1, r2, r3⟩ := ih (GL_LoadWorld_surface e st surf).1 (m + 1) s1 s2 (by omega)
    simp only [List.replicate_succ, GL_LoadWorld_surfaces]
    refine ⟨r1, ?_, by rw [r3, s3]⟩
    have : m + (n + 1) = m + 1 + n := by omega
    rw [this]
    exact r2

/-- A world of `LM_MAX_LIGHTMAPS + 2` page-filling faces, loaded from a reset page with no
page built: the first `LM_MAX_LIGHTMAPS` faces take one page each, the next one is refused
with the exhaustion message and loses its lightmap, and the last one is lit again, on page
number `LM_MAX_LIGHTMAPS + 1`, with the page count at `LM_MAX_LIGHTMAPS + 1`. -/
theorem exhaustion_run (e : env_t) (surf : mface_t) (w h : Nat) (st : load_t) (a : Nat → Nat)
    (hfb : e.gl_fullbright = 0) (hF : lit_page_filler e surf w h) (hfill : fills_page e w h)
    (hmax : 1 ≤ e.k.LM_MAX_LIGHTMAPS) (hh : st.has_vertices = true)
    (hz : st.g.lm.inuse = forLoop e.k.LM_BLOCK_WIDTH (fun i a => store a i 0) a)
    (h0 : st.g.lm.nummaps = 0) :
    ∃ pre f1 f2,
      (GL_LoadWorld_surfaces e st
        (surf :: (List.replicate (e.k.LM_MAX_LIGHTMAPS - 1) surf ++ [surf, surf]))).2 =
        pre ++ [f1, f2] ∧
      pre.length = e.k.LM_MAX_LIGHTMAPS ∧
      f1.lightmap = 0 ∧ f2.lightmap = surf.lightmap ∧
      f2.texnum 1 = e.k.TEXNUM_LIGHTMAP + (e.k.LM_MAX_LIGHTMAPS + 1) ∧
      full_page_state e w h (e.k.LM_MAX_LIGHTMAPS + 1)
        (GL_LoadWorld_surfaces e st
          (surf :: (List.replicate (e.k.LM_MAX_LIGHTMAPS - 1) surf ++ [surf, surf]))).1.g ∧
      (GL_LoadWorld_surfaces e st
        (surf :: (List.replicate (e.k.LM_MAX_LIGHTMAPS - 1) surf ++ [surf, surf]))).1.g.eprintf =
        emsg_t.LM_MAX_LIGHTMAPS_exceeded :: st.g.eprintf := by
  obtain ⟨a1, a2, a3, -, -⟩ := loop_step_fresh e st surf w h a hfb hh hF hfill hz
  rw [h0] at a2
  obtain ⟨b1, b2, b3⟩ := loop_turns e surf w h hfb hF hfill (e.k.LM_MAX_LIGHTMAPS - 1)
    (GL_LoadWorld_surface e st surf).1 0 a1 a2 (by omega)
  rw [Nat.zero_add] at b2
  obtain ⟨c1, c2, c3, c4⟩ := loop_step_exhausted e _ surf w h (e.k.LM_MAX_LIGHTMAPS - 1)
    hfb b1 hF b2 (by omega)
  have hc : e.k.LM_MAX_LIGHTMAPS - 1 + 1 = e.k.LM_MAX_LIGHTMAPS := by omega
  rw [hc] at c2
  obtain ⟨d1, d2, d3, d4, d5⟩ := loop_step_turn e _ surf w h e.k.LM_MAX_LIGHTMAPS
    hfb c1 hF hfill c2 (by omega)
  refine ⟨(GL_LoadWorld_surface e st surf).2 ::
      (GL_LoadWorld_surfaces e (GL_LoadWorld_surface e st surf).1
        (List.replicate (e.k.LM_MAX_LIGHTMAPS - 1) surf)).2, _, _, ?_, ?_, c4, d5, d4, ?_, ?_⟩
  · simp only [GL_LoadWorld_surfaces, GL_LoadWorld_surfaces_append, List.cons_append,
      List.append_nil]
  · simp only [List.length_cons, GL_LoadWorld_surfaces_length, List.length_replicate]
    omega
  · simp only [GL_LoadWorld_surfaces, GL_LoadWorld_surfaces_append]
    exact d2
  · simp only [GL_LoadWorld_surfaces, GL_LoadWorld_surfaces_append]
    rw [d3, c3, b3, a3]

/-- A block of 129 x 129 texels fills a page of 256 x 256 texels for the modelled
allocator. -/
theorem sample_fills : fills_page sample_env 129 129 := by
  unfold fills_page
  intro a
  have hk1 : sample_env.k.LM_BLOCK_WIDTH = 256 := rfl
  have hk2 : sample_env.k.LM_BLOCK_HEIGHT = 256 := rfl
  have ha : sample_env.alloc = GL_AllocBlock := rfl
  rw [hk1, hk2, ha]
  have hz : ∀ i, i < 256 → forLoop 256 (fun i a => store a i 0) a i = 0 := by
    intro i hi
    simp only [zero_loop_closed, if_pos hi]
  refine ⟨_, 0, 0, GL_AllocBlock_empty 256 256 _ 129 129 hz (by norm_num) (by norm_num), ?_⟩
  apply GL_AllocBlock_full
  intro x hx
  refine ⟨128 - x, by omega, ?_⟩
  have hx' : x + (128 - x) = 128 := by
    have : x < 128 := hx
    omega
  rw [hx']
  simp

/-- The bounds `build_surface_poly` stores for a surface with the geometry of the wide
face. -/
theorem wide_bounds (surf : mface_t) (vbo : Nat → vec_t) (base k : Nat)
    (h1 : surf.firstsurfedge = wide_face.firstsurfedge) (h2 : surf.texinfo = wide_face.texinfo)
    (h3 : surf.numsurfedges = 3) (hk : k < 2) :
    (build_surface_poly surf vbo base).1.texturemins k = 0 ∧
    (build_surface_poly surf vbo base).1.extents k = 2048 := by
  have htc : raw_tc surf 0 0 = 0 ∧ raw_tc surf 0 1 = 2048 ∧ raw_tc surf 0 2 = 2048 ∧
      raw_tc surf 1 0 = 0 ∧ raw_tc surf 1 1 = 0 ∧ raw_tc surf 1 2 = 2048 := by
    refine ⟨?_, ?_, ?_, ?_, ?_, ?_⟩ <;>
      simp [raw_tc, loop_point, h1, h2, DotProduct, wide_face, sample_surf, sample_edge,
        sample_texinfo, vec3]
  obtain ⟨t00, t01, t02, t10, t11, t12⟩ := htc
  have f1 : Int.floor ((0 : vec_t) / 16) = 0 := by
    rw [Int.floor_eq_iff]
    norm_num
  have f2 : Int.ceil ((2048 : vec_t) / 16) = 128 := by
    rw [Int.ceil_eq_iff]
    norm_num
  have m1 : min (min (min (99999 : vec_t) 0) 2048) 2048 = 0 := by norm_num
  have m2 : min (min (min (99999 : vec_t) 0) 0) 2048 = 0 := by norm_num
  have m3 : max (max (max (-99999 : vec_t) 0) 2048) 2048 = 2048 := by norm_num
  have m4 : max (max (max (-99999 : vec_t) 0) 0) 2048 = 2048 := by norm_num
  obtain ⟨e1, e2⟩ := build_surface_poly_stored surf vbo base k hk
  rw [e1, e2, h3]
  have hk' : k = 0 ∨ k = 1 := by omega
  rcases hk' with h | h <;> subst h
  · simp only [run_min, run_max, t00, t01, t02, m1, m3, f1, f2]
    norm_num [wrap_int]
  · simp only [run_min, run_max, t10, t11, t12, m2, m4, f1, f2]
    norm_num [wrap_int]

/-- The wide face is a lit face whose block of 129 x 129 texels passes the validations. -/
theorem wide_face_filler : lit_page_filler sample_env wide_face 129 129 := by
  refine ⟨by decide, by decide, by decide, ?_⟩
  intro count vbo base
  obtain ⟨-, x0⟩ := wide_bounds { hack_flags sample_env wide_face with firstvert := count }
    vbo base 0 rfl rfl rfl (by norm_num)
  obtain ⟨-, x1⟩ := wide_bounds { hack_flags sample_env wide_face with firstvert := count }
    vbo base 1 rfl rfl rfl (by norm_num)
  have hS : S_MAX (build_surface_poly
      { hack_flags sample_env wide_face with firstvert := count } vbo base).1 = 129 := by
    simp only [S_MAX, x0]
    norm_num
  have hT : T_MAX (build_surface_poly
      { hack_flags sample_env wide_face with firstvert := count } vbo base).1 = 129 := by
    simp only [T_MAX, x1]
    norm_num
  refine ⟨⟨⟨by omega, by omega, by omega, by omega⟩, ?_⟩, by rw [hS]; rfl, by rw [hT]; rfl⟩
  rw [hS, hT]
  have h1 : (build_surface_poly { hack_flags sample_env wide_face with firstvert := count }
      vbo base).1.lightmap = 1000 := rfl
  have h2 : (build_surface_poly { hack_flags sample_env wide_face with firstvert := count }
      vbo base).1.numstyles = 1 := rfl
  rw [h1, h2]
  norm_num [sample_env]

/-- `LM_EndBuilding` uploads a dirty last page: the page count goes up by one, and nothing
is printed. -/
theorem LM_EndBuilding_dirty (e : env_t) (g : gl_t) (hd : g.lm.dirty = true) :
    (LM_EndBuilding e g).lm.nummaps = g.lm.nummaps + 1 ∧
    (LM_EndBuilding e g).eprintf = g.eprintf := by
  have hup : LM_UploadBlock e.k g =
      { g with
        textures := store g.textures (e.k.TEXNUM_LIGHTMAP + g.lm.nummaps)
          (fun i => if i < e.k.LM_BLOCK_WIDTH * e.k.LM_BLOCK_HEIGHT * 4 then g.lm.buffer i
            else 0)
        lm := { g.lm with
          nummaps := g.lm.nummaps + 1
          highwater := if g.lm.highwater < g.lm.nummaps + 1 then g.lm.nummaps + 1
            else g.lm.highwater } } := by
    unfold LM_UploadBlock
    rw [if_neg (by rw [hd]; simp)]
  unfold LM_EndBuilding
  simp only [hup, build_style_map, LM_InitBlock]
  split_ifs <;> exact ⟨rfl, rfl⟩

/-- With the hunk arena in use, the build is the surface loop followed by
`LM_EndBuilding`. -/
theorem GL_LoadWorld_build_hunk (e : env_t) (st : load_t) (faces : List mface_t)
    (hh : st.has_vertices = true) :
    (GL_LoadWorld_build e st faces).1.g =
      LM_EndBuilding e (GL_LoadWorld_surfaces e (begin_load e st) faces).1.g ∧
    (GL_LoadWorld_build e st faces).1.count =
      (GL_LoadWorld_surfaces e (begin_load e st) faces).1.count ∧
    (GL_LoadWorld_build e st faces).2 =
      (GL_LoadWorld_surfaces e (begin_load e st) faces).2 := by
  have h : ¬ (GL_LoadWorld_surfaces e (begin_load e st) faces).1.has_vertices = false := by
    rw [GL_LoadWorld_surfaces_has_vertices]
    have : (begin_load e st).has_vertices = st.has_vertices := rfl
    rw [this, hh]
    simp
  unfold GL_LoadWorld_build
  simp only [if_neg h]
  exact ⟨trivial, trivial, trivial⟩

/-- The crowded world, loaded from the start-up state: what the surface loop leaves. -/
theorem crowded_run :
    ∃ pre f1 f2,
      (GL_LoadWorld_surfaces sample_env (begin_load sample_env sample_load) crowded_world).2 =
        pre ++ [f1, f2] ∧
      pre.length = 32 ∧ f1.lightmap = 0 ∧ f2.lightmap = 1000 ∧ f2.texnum 1 = 1024 + 33 ∧
      full_page_state sample_env 129 129 33
        (GL_LoadWorld_surfaces sample_env (begin_load sample_env sample_load)
          crowded_world).1.g ∧
      (GL_LoadWorld_surfaces sample_env (begin_load sample_env sample_load)
        crowded_world).1.g.eprintf = [emsg_t.LM_MAX_LIGHTMAPS_exceeded] := by
  have hw : crowded_world =
      wide_face :: (List.replicate (sample_env.k.LM_MAX_LIGHTMAPS - 1) wide_face ++
        [wide_face, wide_face]) := rfl
  rw [hw]
  exact exhaustion_run sample_env wide_face 129 129 (begin_load sample_env sample_load)
    sample_gl.lm.inuse rfl wide_face_filler sample_fills (by decide) rfl rfl rfl

/-- The vertices of the crowded world. -/
theorem crowded_count : count_verts sample_env crowded_world = 102 := by
  decide

/-- C8 (the code at the failing input): loading the crowded world of 34 faces of
129 x 129 texels from `lm.nummaps = 0`, with pages of 256 x 256 texels and
`LM_MAX_LIGHTMAPS = 32`, leaves `lm.nummaps = 33` after the surface loop and 34 after
`LM_EndBuilding`, and `LM_BuildSurface` has succeeded for the last face with page index
`texnum[1] - TEXNUM_LIGHTMAP = 33`. -/
theorem page_capacity_exceeded :
    sample_load.g.lm.nummaps = 0 ∧ sample_env.k.LM_MAX_LIGHTMAPS = 32 ∧
    (GL_LoadWorld_surfaces sample_env (begin_load sample_env sample_load)
      crowded_world).1.g.lm.nummaps = 33 ∧
    (GL_LoadWorld_build sample_env sample_load crowded_world).1.g.lm.nummaps = 34 ∧
    ∃ pre f, (GL_LoadWorld_build sample_env sample_load crowded_world).2 = pre ++ [f] ∧
      f.lightmap ≠ 0 ∧ f.texnum 1 = sample_env.k.TEXNUM_LIGHTMAP + 33 := by
  obtain ⟨pre, f1, f2, h1, -, -, h4, h5, ⟨h6, h7, -⟩, -⟩ := crowded_run
  obtain ⟨b1, -, b3⟩ := GL_LoadWorld_build_hunk sample_env sample_load crowded_world rfl
  refine ⟨rfl, rfl, h6, ?_, pre ++ [f1], f2, ?_, ?_, h5⟩
  · rw [b1, (LM_EndBuilding_dirty sample_env _ h7).1, h6]
  · rw [b3, h1, List.append_assoc]
    rfl
  · rw [h4]
    decide

/-- C9 (as stated) fails: in the crowded world `LM_BuildSurface` reports for the 33rd face
that no further pages are available (the message is printed, the face loses its
lightmap), yet the build is not aborted: the loop goes on to the 34th face, which is
built and lit, all 102 vertices of the world are compiled, and the build returns all 34
faces with nothing else printed. -/
theorem atlas_exhaustion_not_fatal :
    (GL_LoadWorld_build sample_env sample_load crowded_world).1.g.eprintf =
      [emsg_t.LM_MAX_LIGHTMAPS_exceeded] ∧
    (GL_LoadWorld_build sample_env sample_load crowded_world).1.count = 102 ∧
    ∃ pre f1 f2,
      (GL_LoadWorld_build sample_env sample_load crowded_world).2 = pre ++ [f1, f2] ∧
      pre.length = 32 ∧ f1.lightmap = 0 ∧ f2.lightmap = 1000 ∧ f2.texnum 1 = 1024 + 33 := by
  obtain ⟨pre, f1, f2, h1, h2, h3, h4, h5, ⟨-, h7, -⟩, h8⟩ := crowded_run
  obtain ⟨b1, b2, b3⟩ := GL_LoadWorld_build_hunk sample_env sample_load crowded_world rfl
  refine ⟨?_, ?_, pre, f1, f2, ?_, h2, h3, h4, h5⟩
  · rw [b1, (LM_EndBuilding_dirty sample_env _ h7).2, h8]
  · rw [b2, GL_LoadWorld_surfaces_count sample_env (begin_load sample_env sample_load)
      crowded_world rfl, crowded_count]
    rfl
  · rw [b3, h1]

/-- Witness for C9 (amended): the surface loop over the crowded world returns its 34 faces
and compiles its 102 vertices. -/
theorem GL_LoadWorld_never_aborts_witness :
    (GL_LoadWorld_surfaces sample_env sample_load crowded_world).2.length = 34 ∧
    (GL_LoadWorld_surfaces sample_env sample_load crowded_world).1.count = 102 := by
  have h := GL_LoadWorld_never_aborts sample_env sample_load crowded_world
  refine ⟨h.1, ?_⟩
  rw [h.2.1 rfl, crowded_count]
  rfl

/-! ### Saturation step -/

/-- C15: for a surface with no recorded style and every `size`, `add_light_styles` leaves
the first `3 * size` entries of `blocklights` equal to 0 whatever they held, and returns
the surface (its style cache included) unchanged. -/
theorem add_light_styles_no_styles (e : env_t) (g : gl_t) (surf : mface_t) (size : ℤ)
    (h : surf.numstyles = 0) :
    (∀ idx : Nat, (idx : ℤ) < 3 * size → (add_light_styles e g surf size).1 idx = 0) ∧
    (add_light_styles e g surf size).2 = surf ∧
    (add_light_styles e g surf size).2.stylecache = surf.stylecache := by
  unfold add_light_styles
  rw [if_pos h]
  refine ⟨?_, rfl, rfl⟩
  intro idx hidx
  simp only
  rw [if_pos (by omega)]

/-- Witness for C15: the sample surface with no style, a block of 100 texels, and a scratch
array that held 7 everywhere. -/
theorem add_light_styles_no_styles_witness :
    (∀ idx : Nat, (idx : ℤ) < 3 * 100 →
      (add_light_styles sample_env { sample_gl with blocklights := fun _ => 7 }
        unstyled_surf 100).1 idx = 0) ∧
    (add_light_styles sample_env { sample_gl with blocklights := fun _ => 7 }
      unstyled_surf 100).2 = unstyled_surf ∧
    (add_light_styles sample_env { sample_gl with blocklights := fun _ => 7 }
      unstyled_surf 100).2.stylecache = unstyled_surf.stylecache :=
  add_light_styles_no_styles sample_env { sample_gl with blocklights := fun _ => 7 }
    unstyled_surf 100 rfl

/-! ### Surfaces without a lightmap -/

/-- The loop of `duplicate_surface_lmtc`, in closed form: in each vertex record the slots 5
and 6 receive the slots 3 and 4. -/
theorem duplicate_surface_lmtc_closed (surf : mface_t) (vbo : Nat → vec_t) (base idx : Nat) :
    duplicate_surface_lmtc surf vbo base idx =
      if base ≤ idx ∧ idx < base + 7 * surf.numsurfedges ∧
          ((idx - base) % 7 = 5 ∨ (idx - base) % 7 = 6) then vbo (idx - 2)
      else vbo idx := by
  have h : ∀ n, forLoop n
      (fun _ (v : (Nat → vec_t) × Nat) =>
        let a := store v.1 (v.2 + 5) (v.1 (v.2 + 3))
        let a := store a (v.2 + 6) (a (v.2 + 4))
        (a, v.2 + VERTEX_SIZE))
      (vbo, base) =
      (fun idx => if base ≤ idx ∧ idx < base + 7 * n ∧
          ((idx - base) % 7 = 5 ∨ (idx - base) % 7 = 6) then vbo (idx - 2)
        else vbo idx, base + 7 * n) := by
    intro n
    induction n with
    | zero =>
      simp only [forLoop, Nat.mul_zero, Nat.add_zero, Prod.mk.injEq, and_true]
      funext i
      rw [if_neg (by omega)]
    | succ n ih =>
      rw [forLoop, ih]
      simp only [VERTEX_SIZE, Prod.mk.injEq]
      refine ⟨?_, by omega⟩
      funext i
      simp only [store_apply]
      split_ifs <;>
        first
        | rfl
        | (exfalso; omega)
        | (have e1 : base + 7 * n + 3 = i - 2 := ?_
           swap
           omega
           rw [e1])
        | (have e1 : base + 7 * n + 4 = i - 2 := ?_
           swap
           omega
           rw [e1])
  unfold duplicate_surface_lmtc
  rw [h]

/-- After `duplicate_surface_lmtc` every vertex record has its slots 5 and 6 equal to its
slots 3 and 4. -/
theorem duplicate_surface_lmtc_slots (surf : mface_t) (vbo : Nat → vec_t) (base k : Nat)
    (hk : k < surf.numsurfedges) :
    duplicate_surface_lmtc surf vbo base (base + VERTEX_SIZE * k + 5) =
      duplicate_surface_lmtc surf vbo base (base + VERTEX_SIZE * k + 3) ∧
    duplicate_surface_lmtc surf vbo base (base + VERTEX_SIZE * k + 6) =
      duplicate_surface_lmtc surf vbo base (base + VERTEX_SIZE * k + 4) := by
  simp only [duplicate_surface_lmtc_closed, VERTEX_SIZE]
  have h5 : base ≤ base + 7 * k + 5 ∧ base + 7 * k + 5 < base + 7 * surf.numsurfedges ∧
      ((base + 7 * k + 5 - base) % 7 = 5 ∨ (base + 7 * k + 5 - base) % 7 = 6) := by omega
  have h6 : base ≤ base + 7 * k + 6 ∧ base + 7 * k + 6 < base + 7 * surf.numsurfedges ∧
      ((base + 7 * k + 6 - base) % 7 = 5 ∨ (base + 7 * k + 6 - base) % 7 = 6) := by omega
  have h3 : ¬ (base ≤ base + 7 * k + 3 ∧ base + 7 * k + 3 < base + 7 * surf.numsurfedges ∧
      ((base + 7 * k + 3 - base) % 7 = 5 ∨ (base + 7 * k + 3 - base) % 7 = 6)) := by omega
  have h4 : ¬ (base ≤ base + 7 * k + 4 ∧ base + 7 * k + 4 < base + 7 * surf.numsurfedges ∧
      ((base + 7 * k + 4 - base) % 7 = 5 ∨ (base + 7 * k + 4 - base) % 7 = 6)) := by omega
  rw [if_pos h5, if_pos h6, if_neg h3, if_neg h4]
  exact ⟨rfl, rfl⟩

/-- The post-processing of a surface ends with the test `if (!surf->lightmap)`. -/
theorem post_process_eq (e : env_t) (g : gl_t) (surf : mface_t) (vbo : Nat → vec_t)
    (base count : Nat) :
    post_process_surface e g surf vbo base count =
      if (lightmap_decision e g surf vbo base count).surf.lightmap = 0 then
        ((lightmap_decision e g surf vbo base count).g,
          (lightmap_decision e g surf vbo base count).surf,
          duplicate_surface_lmtc (lightmap_decision e g surf vbo base count).surf
            (lightmap_decision e g surf vbo base count).vbo base)
      else
        ((lightmap_decision e g surf vbo base count).g,
          (lightmap_decision e g surf vbo base count).surf,
          (lightmap_decision e g surf vbo base count).vbo) := rfl

/-- The post-processing of a surface that ends without a lightmap: its lightmap
coordinates are duplicated. -/
theorem post_process_unlit (e : env_t) (g : gl_t) (surf : mface_t) (vbo : Nat → vec_t)
    (base count k : Nat)
    (hun : (post_process_surface e g surf vbo base count).2.1.lightmap = 0)
    (hk : k < surf.numsurfedges) :
    (post_process_surface e g surf vbo base count).2.2 (base + VERTEX_SIZE * k + 5) =
      (post_process_surface e g surf vbo base count).2.2 (base + VERTEX_SIZE * k + 3) ∧
    (post_process_surface e g surf vbo base count).2.2 (base + VERTEX_SIZE * k + 6) =
      (post_process_surface e g surf vbo base count).2.2 (base + VERTEX_SIZE * k + 4) := by
  have hn := post_process_numsurfedges e g surf vbo base count
  rw [post_process_eq] at hun hn ⊢
  by_cases h : (lightmap_decision e g surf vbo base count).surf.lightmap = 0
  · rw [if_pos h] at hn ⊢
    exact duplicate_surface_lmtc_slots _ _ base k (by rw [hn]; exact hk)
  · rw [if_neg h] at hun
    exact absurd hun h

/-- Each of the four reasons leaves the surface without a lightmap. -/
theorem post_process_reasons (e : env_t) (g : gl_t) (surf : mface_t) (vbo : Nat → vec_t)
    (base count : Nat)
    (hr : e.gl_fullbright ≠ 0 ∨ surf.drawflags &&& e.k.SURF_NOLM_MASK ≠ 0 ∨
      surf.lightmap = 0 ∨
      (LM_BuildSurface e g (build_surface_poly { surf with firstvert := count } vbo base).1
        (build_surface_poly { surf with firstvert := count } vbo base).2 base).ok = false) :
    (post_process_surface e g surf vbo base count).2.1.lightmap = 0 := by
  have hd : (lightmap_decision e g surf vbo base count).surf.lightmap = 0 := by
    unfold lightmap_decision
    by_cases h1 : e.gl_fullbright ≠ 0 ∨
        (build_surface_poly { surf with firstvert := count } vbo base).1.drawflags &&&
          e.k.SURF_NOLM_MASK ≠ 0
    · rw [if_pos h1]
    · rw [if_neg h1]
      by_cases h2 : (build_surface_poly { surf with firstvert := count } vbo base).1.lightmap ≠ 0
      · rw [if_pos h2]
        by_cases h3 : (LM_BuildSurface e g
            (build_surface_poly { surf with firstvert := count } vbo base).1
            (build_surface_poly { surf with firstvert := count } vbo base).2 base).ok = false
        · rw [if_pos h3]
        · rw [if_neg h3]
          rcases hr with h | h | h | h
          · exact absurd (Or.inl h) h1
          · exact absurd (Or.inr h) h1
          · exact absurd h h2
          · exact absurd h h3
      · rw [if_neg h2]
        exact not_not.mp h2
  rw [post_process_eq, if_pos hd]
  exact hd

/-- The loop body for a surface that is not sky and fits the staging array, with the buffer
object in use. -/
theorem GL_LoadWorld_surface_vbo (e : env_t) (st : load_t) (surf : mface_t)
    (hh : st.has_vertices = false)
    (hsky : (hack_flags e surf).drawflags &&& e.k.SURF_SKY = 0)
    (hn : surf.numsurfedges ≤ e.k.TESS_MAX_VERTICES) :
    GL_LoadWorld_surface e st surf =
      ({ flush_if_needed e st surf with
          tess_numverts := (flush_if_needed e st surf).tess_numverts + surf.numsurfedges
          g := (post_process_surface e st.g (hack_flags e surf) st.tess_vertices
            ((flush_if_needed e st surf).tess_numverts * VERTEX_SIZE) st.count).1
          tess_vertices := (post_process_surface e st.g (hack_flags e surf) st.tess_vertices
            ((flush_if_needed e st surf).tess_numverts * VERTEX_SIZE) st.count).2.2
          count := st.count + surf.numsurfedges },
        (post_process_surface e st.g (hack_flags e surf) st.tess_vertices
          ((flush_if_needed e st surf).tess_numverts * VERTEX_SIZE) st.count).2.1) := by
  have hn2 : ¬ (hack_flags e surf).numsurfedges > e.k.TESS_MAX_VERTICES :=
    Nat.not_lt.mpr hn
  unfold GL_LoadWorld_surface
  simp only [hsky, ne_eq, not_true_eq_false, if_false, hh, Bool.false_eq_true, hn2]
  by_cases ho : st.tess_numverts + surf.numsurfedges > e.k.TESS_MAX_VERTICES
  · have ho2 : st.tess_numverts + (hack_flags e surf).numsurfedges > e.k.TESS_MAX_VERTICES := ho
    simp only [flush_if_needed, if_pos ho, if_pos ho2]
    rw [post_process_numsurfedges]
    rfl
  · have ho2 : ¬ st.tess_numverts + (hack_flags e surf).numsurfedges >
        e.k.TESS_MAX_VERTICES := ho
    simp only [flush_if_needed, if_neg ho, if_neg ho2]
    rw [post_process_numsurfedges]
    rfl

/-- The loop body for a surface that is not sky and is not skipped for its size: the
surface and the vertex array are those of the post-processing at the compiled base. -/
theorem GL_LoadWorld_surface_compiled (e : env_t) (st : load_t) (surf : mface_t)
    (hsky : (hack_flags e surf).drawflags &&& e.k.SURF_SKY = 0)
    (hproc : st.has_vertices = true ∨ surf.numsurfedges ≤ e.k.TESS_MAX_VERTICES) :
    (GL_LoadWorld_surface e st surf).2 =
      (post_process_surface e st.g (hack_flags e surf) (compiled_array st)
        (compiled_base e st surf) st.count).2.1 ∧
    compiled_array (GL_LoadWorld_surface e st surf).1 =
      (post_process_surface e st.g (hack_flags e surf) (compiled_array st)
        (compiled_base e st surf) st.count).2.2 ∧
    (GL_LoadWorld_surface e st surf).1.g =
      (post_process_surface e st.g (hack_flags e surf) (compiled_array st)
        (compiled_base e st surf) st.count).1 := by
  by_cases hh : st.has_vertices = true
  · rw [GL_LoadWorld_surface_hunk e st surf hh hsky]
    simp only [compiled_array, compiled_base, hh, if_true, and_self]
  · have hf : st.has_vertices = false := by
      cases h : st.has_vertices
      · rfl
      · exact absurd h hh
    have hn : surf.numsurfedges ≤ e.k.TESS_MAX_VERTICES := by
      rcases hproc with h | h
      · exact absurd h hh
      · exact h
    have hfl : (flush_if_needed e st surf).has_vertices = false := by
      unfold flush_if_needed
      split_ifs
      · exact hf
      · exact hf
    rw [GL_LoadWorld_surface_vbo e st surf hf hsky hn]
    simp only [compiled_array, compiled_base, hf, hfl, Bool.false_eq_true, if_false, and_self]

/-- C11 (amended): a surface of the world-load loop that is not sky, that the loop compiles
(with the hunk arena every surface, with the buffer object a surface of at most
`TESS_MAX_VERTICES` loop vertices), and that is fullbright, flagged no-lightmap, without
light data, or failed by `LM_BuildSurface`, ends with a null lightmap and with the lightmap
coordinates (slots 5 and 6) of each of its vertices equal to the texture coordinates (slots
3 and 4); the loop goes on with the remaining faces. -/
theorem unlit_surface_lmtc (e : env_t) (st : load_t) (surf : mface_t)
    (hsky : (hack_flags e surf).drawflags &&& e.k.SURF_SKY = 0)
    (hproc : st.has_vertices = true ∨ surf.numsurfedges ≤ e.k.TESS_MAX_VERTICES)
    (hr : e.gl_fullbright ≠ 0 ∨ (hack_flags e surf).drawflags &&& e.k.SURF_NOLM_MASK ≠ 0 ∨
      surf.lightmap = 0 ∨ (load_lit e st surf).ok = false) :
    (GL_LoadWorld_surface e st surf).2.lightmap = 0 ∧
    (∀ k : Nat, k < surf.numsurfedges →
      compiled_array (GL_LoadWorld_surface e st surf).1
          (compiled_base e st surf + VERTEX_SIZE * k + 5) =
        compiled_array (GL_LoadWorld_surface e st surf).1
          (compiled_base e st surf + VERTEX_SIZE * k + 3) ∧
      compiled_array (GL_LoadWorld_surface e st surf).1
          (compiled_base e st surf + VERTEX_SIZE * k + 6) =
        compiled_array (GL_LoadWorld_surface e st surf).1
          (compiled_base e st surf + VERTEX_SIZE * k + 4)) ∧
    ∀ rest : List mface_t,
      GL_LoadWorld_surfaces e st (surf :: rest) =
        ((GL_LoadWorld_surfaces e (GL_LoadWorld_surface e st surf).1 rest).1,
          (GL_LoadWorld_surface e st surf).2 ::
            (GL_LoadWorld_surfaces e (GL_LoadWorld_surface e st surf).1 rest).2) := by
  obtain ⟨h1, h2, -⟩ := GL_LoadWorld_surface_compiled e st surf hsky hproc
  have hr2 : e.gl_fullbright ≠ 0 ∨ (hack_flags e surf).drawflags &&& e.k.SURF_NOLM_MASK ≠ 0 ∨
      (hack_flags e surf).lightmap = 0 ∨
      (LM_BuildSurface e st.g
        (build_surface_poly { hack_flags e surf with firstvert := st.count } (compiled_array st)
          (compiled_base e st surf)).1
        (build_surface_poly { hack_flags e surf with firstvert := st.count } (compiled_array st)
          (compiled_base e st surf)).2 (compiled_base e st surf)).ok = false := hr
  have hun := post_process_reasons e st.g (hack_flags e surf) (compiled_array st)
    (compiled_base e st surf) st.count hr2
  refine ⟨?_, ?_, fun rest => rfl⟩
  · rw [h1]
    exact hun
  · intro k hk
    rw [h2]
    exact post_process_unlit e st.g (hack_flags e surf) (compiled_array st)
      (compiled_base e st surf) st.count k hun hk

/-- Witness for C11 (amended): the sample triangle without light data, compiled into the
hunk arena of the sample world. -/
theorem unlit_surface_lmtc_witness :
    (GL_LoadWorld_surface sample_env sample_load dark_surf).2.lightmap = 0 ∧
    compiled_array (GL_LoadWorld_surface sample_env sample_load dark_surf).1
        (compiled_base sample_env sample_load dark_surf + VERTEX_SIZE * 1 + 5) =
      compiled_array (GL_LoadWorld_surface sample_env sample_load dark_surf).1
        (compiled_base sample_env sample_load dark_surf + VERTEX_SIZE * 1 + 3) :=
  ⟨(unlit_surface_lmtc sample_env sample_load dark_surf rfl (Or.inl rfl)
      (Or.inr (Or.inr (Or.inl rfl)))).1,
    ((unlit_surface_lmtc sample_env sample_load dark_surf rfl (Or.inl rfl)
      (Or.inr (Or.inr (Or.inl rfl)))).2.1 1 (by decide)).1⟩

/-! ### Per-frame refresh -/

/-- The style cache that `add_light_styles` leaves: the white level of every recorded
style. -/
theorem add_light_styles_cache (e : env_t) (g : gl_t) (surf : mface_t) (size : ℤ) (i : Nat)
    (hi : i < surf.numstyles) :
    (add_light_styles e g surf size).2.stylecache i = (LIGHT_STYLE g surf i).white := by
  have hn : surf.numstyles ≠ 0 := by omega
  simp only [add_light_styles, if_neg hn, style_loop_closed]
  by_cases h0 : i = 0
  · subst h0
    rw [if_neg (by omega), store_apply, if_pos rfl]
  · rw [if_pos (by omega)]

/-- The upload counter after `update_dynamic_lightmap`. -/
theorem update_dynamic_lightmap_uploads (e : env_t) (fd : glr_t) (r : refresh_t)
    (surf : mface_t) :
    (update_dynamic_lightmap e fd r surf).1.texUploads = r.texUploads + 1 := rfl

/-- The style table and the style map after `update_dynamic_lightmap`. -/
theorem update_dynamic_lightmap_styles (e : env_t) (fd : glr_t) (r : refresh_t)
    (surf : mface_t) :
    (update_dynamic_lightmap e fd r surf).1.g.lightstyles = r.g.lightstyles ∧
    (update_dynamic_lightmap e fd r surf).1.g.lightstylemap = r.g.lightstylemap :=
  ⟨rfl, rfl⟩

/-- What `update_dynamic_lightmap` does to the surface: the style cache is refreshed, and
the frame token is reset unless it is the current one. -/
theorem update_dynamic_lightmap_surf (e : env_t) (fd : glr_t) (r : refresh_t)
    (surf : mface_t) :
    (update_dynamic_lightmap e fd r surf).2 =
      { surf with
        stylecache :=
          (add_light_styles e r.g surf (S_MAX surf * T_MAX surf)).2.stylecache
        dlightframe := if surf.dlightframe = fd.dlightframe then surf.dlightframe else 0 } := by
  have hs := add_light_styles_surf e r.g surf (S_MAX surf * T_MAX surf)
  have hd : (add_light_styles e r.g surf (S_MAX surf * T_MAX surf)).2.dlightframe =
      surf.dlightframe := by
    rw [hs]
  simp only [update_dynamic_lightmap, hd]
  by_cases h : surf.dlightframe = fd.dlightframe
  · rw [if_pos h, if_pos h]
    simp only
    rw [hs]
  · rw [if_neg h, if_neg h]
    simp only
    rw [hs]

/-- The style loop of `GL_PushLights` over styles whose cache entries are up to date. -/
theorem check_styles_same (e : env_t) (fd : glr_t) (r : refresh_t) (surf : mface_t)
    (n i : Nat)
    (h : ∀ j, j < n → (LIGHT_STYLE r.g surf (i + j)).white = surf.stylecache (i + j)) :
    check_styles e fd r surf i n = (r, surf) := by
  induction n generalizing i with
  | zero => rfl
  | succ n ih =>
    have h0 := h 0 (Nat.succ_pos n)
    rw [Nat.add_zero] at h0
    rw [check_styles, if_neg (not_not.mpr h0)]
    refine ih (i + 1) (fun j hj => ?_)
    have hj1 := h (j + 1) (Nat.succ_lt_succ hj)
    have e1 : i + (j + 1) = i + 1 + j := by omega
    rw [e1] at hj1
    exact hj1

/-- The style loop of `GL_PushLights` over styles one of which has changed. -/
theorem check_styles_changed (e : env_t) (fd : glr_t) (r : refresh_t) (surf : mface_t)
    (n i : Nat)
    (h : ∃ j, j < n ∧ (LIGHT_STYLE r.g surf (i + j)).white ≠ surf.stylecache (i + j)) :
    check_styles e fd r surf i n = update_dynamic_lightmap e fd r surf := by
  induction n generalizing i with
  | zero =>
    obtain ⟨j, hj, -⟩ := h
    exact absurd hj (Nat.not_lt_zero j)
  | succ n ih =>
    rw [check_styles]
    by_cases h0 : (LIGHT_STYLE r.g surf i).white ≠ surf.stylecache i
    · rw [if_pos h0]
    · rw [if_neg h0]
      obtain ⟨j, hj, hne⟩ := h
      cases j with
      | zero => exact absurd hne h0
      | succ j =>
        refine ih (i + 1) ⟨j, Nat.lt_of_succ_lt_succ hj, ?_⟩
        have e1 : i + (j + 1) = i + 1 + j := by omega
        rw [e1] at hne
        exact hne

/-- The call of `GL_PushLights` for a surface with a zero frame token and an up-to-date
style cache does nothing. -/
theorem GL_PushLights_idle (e : env_t) (fd : glr_t) (r : refresh_t) (surf : mface_t)
    (hd : surf.dlightframe = 0)
    (hc : ∀ i, i < surf.numstyles → (LIGHT_STYLE r.g surf i).white = surf.stylecache i) :
    GL_PushLights e fd r surf = (r, surf) := by
  rw [GL_PushLights, if_neg (not_not.mpr hd)]
  refine check_styles_same e fd r surf _ 0 (fun j hj => ?_)
  rw [Nat.zero_add]
  exact hc j hj

/-- The call of `GL_PushLights` for a surface with a non-zero frame token or a changed
style is one call of `update_dynamic_lightmap`. -/
theorem GL_PushLights_update (e : env_t) (fd : glr_t) (r : refresh_t) (surf : mface_t)
    (h : surf.dlightframe ≠ 0 ∨
      ∃ i, i < surf.numstyles ∧ (LIGHT_STYLE r.g surf i).white ≠ surf.stylecache i) :
    GL_PushLights e fd r surf = update_dynamic_lightmap e fd r surf := by
  rw [GL_PushLights]
  by_cases hd : surf.dlightframe ≠ 0
  · rw [if_pos hd]
  · rw [if_neg hd]
    rcases h with h | ⟨i, hi, hne⟩
    · exact absurd h hd
    · refine check_styles_changed e fd r surf _ 0 ⟨i, hi, ?_⟩
      rw [Nat.zero_add]
      exact hne

/-- C14: `GL_PushLights` does nothing (same globals, same scratch array, same upload
counter, same surface) for a surface whose frame token is 0 and whose cached intensities
equal the white levels of its recorded styles; it is exactly one call of
`update_dynamic_lightmap`, with one upload counted, when the token is non-zero or some
recorded style's white level differs from its cache entry. -/
theorem GL_PushLights_only_when_needed (e : env_t) (fd : glr_t) (r : refresh_t)
    (surf : mface_t) :
    (surf.dlightframe = 0 →
      (∀ i, i < surf.numstyles → (LIGHT_STYLE r.g surf i).white = surf.stylecache i) →
      GL_PushLights e fd r surf = (r, surf)) ∧
    ((surf.dlightframe ≠ 0 ∨
        ∃ i, i < surf.numstyles ∧ (LIGHT_STYLE r.g surf i).white ≠ surf.stylecache i) →
      GL_PushLights e fd r surf = update_dynamic_lightmap e fd r surf ∧
      (GL_PushLights e fd r surf).1.texUploads = r.texUploads + 1) := by
  refine ⟨GL_PushLights_idle e fd r surf, fun h => ?_⟩
  rw [GL_PushLights_update e fd r surf h]
  exact ⟨rfl, rfl⟩

/-- Witness for C14: the sample surface with an up-to-date cache is left alone, and the
sample surface with a stale cache gets one upload. -/
theorem GL_PushLights_only_when_needed_witness :
    GL_PushLights sample_env sample_frame sample_refresh quiet_surf =
      (sample_refresh, quiet_surf) ∧
    (GL_PushLights sample_env sample_frame sample_refresh lit_surf).1.texUploads = 1 :=
  ⟨(GL_PushLights_only_when_needed sample_env sample_frame sample_refresh quiet_surf).1 rfl
      (fun _ _ => rfl),
    ((GL_PushLights_only_when_needed sample_env sample_frame sample_refresh lit_surf).2
      (Or.inr ⟨0, by decide, by
        show (1 : vec_t) ≠ 0
        exact one_ne_zero⟩)).2⟩

/-- The bytes of `temp` after the loop "put into texture format": texel `i` holds the four
bytes that `adjust_color_ub` makes of the scratch entries `3 * i .. 3 * i + 2`. -/
theorem texture_format_bytes (e : env_t) (bl : Nat → vec_t) (size : ℤ) (i c : Nat)
    (hi : i < size.toNat) (hc : c < 4) :
    texture_format e bl size (4 * i + c) = texel_byte e bl (3 * i) c := by
  simp only [texture_format, texel_loop_closed]
  rw [if_pos (by omega)]
  have e1 : (4 * i + c - 0) / 4 = i := by omega
  have e2 : (4 * i + c - 0) % 4 = c := by omega
  rw [e1, e2, Nat.zero_add]

/-- The globals after `update_dynamic_lightmap` for a surface whose frame token is not the
current one. -/
theorem update_dynamic_lightmap_static (e : env_t) (fd : glr_t) (r : refresh_t)
    (surf : mface_t) (h : surf.dlightframe ≠ fd.dlightframe) :
    (update_dynamic_lightmap e fd r surf).1 =
      { g := { r.g with
          blocklights := (add_light_styles e r.g surf (S_MAX surf * T_MAX surf)).1
          textures := store r.g.textures (surf.texnum 1)
            (TexSubImage2D e.k.LM_BLOCK_WIDTH (r.g.textures (surf.texnum 1))
              surf.light_s surf.light_t (S_MAX surf) (T_MAX surf)
              (texture_format e (add_light_styles e r.g surf (S_MAX surf * T_MAX surf)).1
                (S_MAX surf * T_MAX surf))) }
        texUploads := r.texUploads + 1 } := by
  have hs := add_light_styles_surf e r.g surf (S_MAX surf * T_MAX surf)
  have hd : (add_light_styles e r.g surf (S_MAX surf * T_MAX surf)).2.dlightframe =
      surf.dlightframe := by
    rw [hs]
  have h1 : (add_light_styles e r.g surf (S_MAX surf * T_MAX surf)).2.texnum = surf.texnum := by
    rw [hs]
  have h2 : (add_light_styles e r.g surf (S_MAX surf * T_MAX surf)).2.light_s = surf.light_s := by
    rw [hs]
  have h3 : (add_light_styles e r.g surf (S_MAX surf * T_MAX surf)).2.light_t = surf.light_t := by
    rw [hs]
  simp only [update_dynamic_lightmap, hd, if_neg h, h1, h2, h3]

/-- The globals after `update_dynamic_lightmap` for a surface whose frame token is the
current one. -/
theorem update_dynamic_lightmap_dynamic (e : env_t) (fd : glr_t) (r : refresh_t)
    (surf : mface_t) (h : surf.dlightframe = fd.dlightframe) :
    (update_dynamic_lightmap e fd r surf).1 =
      { g := { r.g with
          blocklights := add_dynamic_lights fd
            (add_light_styles e r.g surf (S_MAX surf * T_MAX surf)).2
            (add_light_styles e r.g surf (S_MAX surf * T_MAX surf)).1
          textures := store r.g.textures (surf.texnum 1)
            (TexSubImage2D e.k.LM_BLOCK_WIDTH (r.g.textures (surf.texnum 1))
              surf.light_s surf.light_t (S_MAX surf) (T_MAX surf)
              (texture_format e
                (add_dynamic_lights fd
                  (add_light_styles e r.g surf (S_MAX surf * T_MAX surf)).2
                  (add_light_styles e r.g surf (S_MAX surf * T_MAX surf)).1)
                (S_MAX surf * T_MAX surf))) }
        texUploads := r.texUploads + 1 } := by
  have hs := add_light_styles_surf e r.g surf (S_MAX surf * T_MAX surf)
  have hd : (add_light_styles e r.g surf (S_MAX surf * T_MAX surf)).2.dlightframe =
      surf.dlightframe := by
    rw [hs]
  have h1 : (add_light_styles e r.g surf (S_MAX surf * T_MAX surf)).2.texnum = surf.texnum := by
    rw [hs]
  have h2 : (add_light_styles e r.g surf (S_MAX surf * T_MAX surf)).2.light_s = surf.light_s := by
    rw [hs]
  have h3 : (add_light_styles e r.g surf (S_MAX surf * T_MAX surf)).2.light_t = surf.light_t := by
    rw [hs]
  simp only [update_dynamic_lightmap, hd, if_pos h, h1, h2, h3]

/-- C13: in `update_dynamic_lightmap`, `add_dynamic_lights` runs only for a surface whose
frame token equals the current one. For a surface whose token differs the scratch array is
the one `add_light_styles` alone leaves, the uploaded texels are the `adjust_color_ub`
bytes of that static blend, nothing depends on the frame's lights, and the surface's token
is reset to 0. -/
theorem update_dynamic_lightmap_token (e : env_t) (fd : glr_t) (r : refresh_t)
    (surf : mface_t) :
    (surf.dlightframe ≠ fd.dlightframe →
      (update_dynamic_lightmap e fd r surf).1.g.blocklights =
        (add_light_styles e r.g surf (S_MAX surf * T_MAX surf)).1 ∧
      (update_dynamic_lightmap e fd r surf).1.g.textures (surf.texnum 1) =
        TexSubImage2D e.k.LM_BLOCK_WIDTH (r.g.textures (surf.texnum 1))
          surf.light_s surf.light_t (S_MAX surf) (T_MAX surf)
          (texture_format e (add_light_styles e r.g surf (S_MAX surf * T_MAX surf)).1
            (S_MAX surf * T_MAX surf)) ∧
      (∀ i c, i < (S_MAX surf * T_MAX surf).toNat → c < 4 →
        texture_format e (add_light_styles e r.g surf (S_MAX surf * T_MAX surf)).1
            (S_MAX surf * T_MAX surf) (4 * i + c) =
          rgba_get (adjust_color_ub e.k e.world
            ((add_light_styles e r.g surf (S_MAX surf * T_MAX surf)).1 (3 * i))
            ((add_light_styles e r.g surf (S_MAX surf * T_MAX surf)).1 (3 * i + 1))
            ((add_light_styles e r.g surf (S_MAX surf * T_MAX surf)).1 (3 * i + 2))) c) ∧
      (update_dynamic_lightmap e fd r surf).2.dlightframe = 0 ∧
      ∀ fd2 : glr_t, surf.dlightframe ≠ fd2.dlightframe →
        update_dynamic_lightmap e fd2 r surf = update_dynamic_lightmap e fd r surf) ∧
    (surf.dlightframe = fd.dlightframe →
      (update_dynamic_lightmap e fd r surf).1.g.blocklights =
        add_dynamic_lights fd (add_light_styles e r.g surf (S_MAX surf * T_MAX surf)).2
          (add_light_styles e r.g surf (S_MAX surf * T_MAX surf)).1 ∧
      (update_dynamic_lightmap e fd r surf).2.dlightframe = surf.dlightframe) := by
  refine ⟨fun h => ⟨?_, ?_, ?_, ?_, ?_⟩, fun h => ⟨?_, ?_⟩⟩
  · rw [update_dynamic_lightmap_static e fd r surf h]
  · rw [update_dynamic_lightmap_static e fd r surf h]
    simp only [store_apply, if_true]
  · intro i c hi hc
    exact texture_format_bytes e _ _ i c hi hc
  · rw [update_dynamic_lightmap_surf, if_neg h]
  · intro fd2 h2
    refine Prod.ext ?_ ?_
    · rw [update_dynamic_lightmap_static e fd r surf h,
        update_dynamic_lightmap_static e fd2 r surf h2]
    · rw [update_dynamic_lightmap_surf, update_dynamic_lightmap_surf, if_neg h, if_neg h2]
  · rw [update_dynamic_lightmap_dynamic e fd r surf h]
  · rw [update_dynamic_lightmap_surf, if_pos h]

/-- Witness for C13: the sample surface, whose token 0 is not the token 5 of the sample
frame, and the marked surface, whose token is. -/
theorem update_dynamic_lightmap_token_witness :
    (update_dynamic_lightmap sample_env sample_frame sample_refresh lit_surf).2.dlightframe =
      0 ∧
    (update_dynamic_lightmap sample_env sample_frame sample_refresh marked_surf).2.dlightframe =
      5 :=
  ⟨((update_dynamic_lightmap_token sample_env sample_frame sample_refresh lit_surf).1
      (by decide)).2.2.2.1,
    ((update_dynamic_lightmap_token sample_env sample_frame sample_refresh marked_surf).2
      rfl).2⟩

/-- The three frames of a dynamic light that marks the surface on the first frame only: one
upload on the first frame, one more on the second, which leaves the surface with a zero
token and an up-to-date style cache, and nothing on the third. -/
theorem GL_PushLights_frames (e : env_t) (fd fd1 fd2 : glr_t) (r : refresh_t)
    (surf : mface_t) (hN : fd.dlightframe ≠ 0) (hmark : surf.dlightframe = fd.dlightframe)
    (hnext : fd1.dlightframe ≠ fd.dlightframe) :
    (GL_PushLights e fd r surf).1.texUploads = r.texUploads + 1 ∧
    (GL_PushLights e fd r surf).2.dlightframe = fd.dlightframe ∧
    GL_PushLights e fd1 (GL_PushLights e fd r surf).1 (GL_PushLights e fd r surf).2 =
      update_dynamic_lightmap e fd1 (GL_PushLights e fd r surf).1
        (GL_PushLights e fd r surf).2 ∧
    (GL_PushLights e fd1 (GL_PushLights e fd r surf).1
      (GL_PushLights e fd r surf).2).1.texUploads = r.texUploads + 2 ∧
    (GL_PushLights e fd1 (GL_PushLights e fd r surf).1
      (GL_PushLights e fd r surf).2).2.dlightframe = 0 ∧
    GL_PushLights e fd2
        (GL_PushLights e fd1 (GL_PushLights e fd r surf).1 (GL_PushLights e fd r surf).2).1
        (GL_PushLights e fd1 (GL_PushLights e fd r surf).1 (GL_PushLights e fd r surf).2).2 =
      GL_PushLights e fd1 (GL_PushLights e fd r surf).1 (GL_PushLights e fd r surf).2 := by
  have hd0 : surf.dlightframe ≠ 0 := by
    rw [hmark]
    exact hN
  have h0 := GL_PushLights_update e fd r surf (Or.inl hd0)
  have hs0 := update_dynamic_lightmap_surf e fd r surf
  rw [if_pos hmark] at hs0
  have hf0 : (GL_PushLights e fd r surf).2.dlightframe = fd.dlightframe := by
    rw [h0, hs0]
    exact hmark
  have hd1 : (GL_PushLights e fd r surf).2.dlightframe ≠ 0 := by
    rw [hf0]
    exact hN
  have h1 := GL_PushLights_update e fd1 (GL_PushLights e fd r surf).1
    (GL_PushLights e fd r surf).2 (Or.inl hd1)
  have hs1 := update_dynamic_lightmap_surf e fd1 (GL_PushLights e fd r surf).1
    (GL_PushLights e fd r surf).2
  rw [if_neg (by rw [hf0]; exact fun h => hnext h.symm)] at hs1
  have hu0 : (GL_PushLights e fd r surf).1.texUploads = r.texUploads + 1 := by
    rw [h0]
    rfl
  refine ⟨hu0, hf0, h1, ?_, ?_, ?_⟩
  · rw [h1, update_dynamic_lightmap_uploads, hu0]
  · rw [h1, hs1]
  · rw [h1]
    refine Prod.ext ?_ ?_
    · refine congrArg Prod.fst (GL_PushLights_idle e fd2 _ _ ?_ ?_)
      · rw [hs1]
      · intro i hi
        rw [hs1] at hi ⊢
        simp only at hi ⊢
        rw [add_light_styles_cache _ _ _ _ i hi]
        rfl
    · refine congrArg Prod.snd (GL_PushLights_idle e fd2 _ _ ?_ ?_)
      · rw [hs1]
      · intro i hi
        rw [hs1] at hi ⊢
        simp only at hi ⊢
        rw [add_light_styles_cache _ _ _ _ i hi]
        rfl

/-- Counterexample for C12: on frame 6, with the light of frame 5 removed and no style
changed, `GL_PushLights` uploads the marked sample surface once more. -/
theorem removed_light_uploads_again :
    (GL_PushLights sample_env sample_frame sample_refresh marked_surf).1.texUploads = 1 ∧
    (GL_PushLights sample_env next_frame
      (GL_PushLights sample_env sample_frame sample_refresh marked_surf).1
      (GL_PushLights sample_env sample_frame sample_refresh marked_surf).2).1.texUploads = 2 :=
  ⟨(GL_PushLights_frames sample_env sample_frame next_frame next_frame sample_refresh
      marked_surf (by decide) rfl (by decide)).1,
    (GL_PushLights_frames sample_env sample_frame next_frame next_frame sample_refresh
      marked_surf (by decide) rfl (by decide)).2.2.2.1⟩

/-- C12 (amended): a surface marked on frame N (a non-zero token) is uploaded by
`GL_PushLights` on frame N; on frame N+1, not marked again, it is uploaded once more by
`update_dynamic_lightmap`, which resets its token to 0; on the frame after that, with no
light-style intensity changed, `GL_PushLights` uploads nothing and leaves everything as it
was. -/
theorem GL_PushLights_light_removed (e : env_t) (fd fd1 fd2 : glr_t) (r : refresh_t)
    (surf : mface_t) (hN : fd.dlightframe ≠ 0) (hmark : surf.dlightframe = fd.dlightframe)
    (hnext : fd1.dlightframe = fd.dlightframe + 1) :
    (GL_PushLights e fd r surf).1.texUploads = r.texUploads + 1 ∧
    GL_PushLights e fd1 (GL_PushLights e fd r surf).1 (GL_PushLights e fd r surf).2 =
      update_dynamic_lightmap e fd1 (GL_PushLights e fd r surf).1
        (GL_PushLights e fd r surf).2 ∧
    (GL_PushLights e fd1 (GL_PushLights e fd r surf).1
      (GL_PushLights e fd r surf).2).1.texUploads = r.texUploads + 2 ∧
    (GL_PushLights e fd1 (GL_PushLights e fd r surf).1
      (GL_PushLights e fd r surf).2).2.dlightframe = 0 ∧
    GL_PushLights e fd2
        (GL_PushLights e fd1 (GL_PushLights e fd r surf).1 (GL_PushLights e fd r surf).2).1
        (GL_PushLights e fd1 (GL_PushLights e fd r surf).1 (GL_PushLights e fd r surf).2).2 =
      GL_PushLights e fd1 (GL_PushLights e fd r surf).1 (GL_PushLights e fd r surf).2 := by
  have h := GL_PushLights_frames e fd fd1 fd2 r surf hN hmark (by omega)
  exact ⟨h.1, h.2.2.1, h.2.2.2.1, h.2.2.2.2.1, h.2.2.2.2.2⟩

/-- Witness for C12 (amended): the marked sample surface over the frames 5, 6 and 6 again. -/
theorem GL_PushLights_light_removed_witness :
    GL_PushLights sample_env next_frame
        (GL_PushLights sample_env next_frame
          (GL_PushLights sample_env sample_frame sample_refresh marked_surf).1
          (GL_PushLights sample_env sample_frame sample_refresh marked_surf).2).1
        (GL_PushLights sample_env next_frame
          (GL_PushLights sample_env sample_frame sample_refresh marked_surf).1
          (GL_PushLights sample_env sample_frame sample_refresh marked_surf).2).2 =
      GL_PushLights sample_env next_frame
        (GL_PushLights sample_env sample_frame sample_refresh marked_surf).1
        (GL_PushLights sample_env sample_frame sample_refresh marked_surf).2 :=
  (GL_PushLights_light_removed sample_env sample_frame next_frame next_frame sample_refresh
    marked_surf (by decide) rfl rfl).2.2.2.2

/-! ### The texel rectangle -/

/-- The rectangle is untouched by `add_light_styles`. -/
theorem add_light_styles_rect (e : env_t) (g : gl_t) (surf : mface_t) (size : ℤ) :
    texel_rect (add_light_styles e g surf size).2 = texel_rect surf := by
  rw [add_light_styles_surf]
  rfl

/-- The rectangle is untouched by `build_primary_lightmap`. -/
theorem build_primary_lightmap_rect (e : env_t) (g : gl_t) (surf : mface_t) :
    texel_rect (build_primary_lightmap e g surf).2 = texel_rect surf := by
  rw [build_primary_lightmap_surf]
  rfl

/-- The rectangle is untouched by `update_dynamic_lightmap`. -/
theorem update_dynamic_lightmap_rect (e : env_t) (fd : glr_t) (r : refresh_t)
    (surf : mface_t) :
    texel_rect (update_dynamic_lightmap e fd r surf).2 = texel_rect surf := by
  rw [update_dynamic_lightmap_surf]
  rfl

/-- The rectangle is untouched by the style loop of `GL_PushLights`. -/
theorem check_styles_rect (e : env_t) (fd : glr_t) (r : refresh_t) (surf : mface_t)
    (n i : Nat) :
    texel_rect (check_styles e fd r surf i n).2 = texel_rect surf := by
  induction n generalizing i with
  | zero => rfl
  | succ n ih =>
    rw [check_styles]
    split_ifs
    · exact update_dynamic_lightmap_rect e fd r surf
    · exact ih (i + 1)

/-- The rectangle is untouched by `GL_PushLights`. -/
theorem GL_PushLights_rect (e : env_t) (fd : glr_t) (r : refresh_t) (surf : mface_t) :
    texel_rect (GL_PushLights e fd r surf).2 = texel_rect surf := by
  rw [GL_PushLights]
  split_ifs
  · exact update_dynamic_lightmap_rect e fd r surf
  · exact check_styles_rect e fd r surf _ 0

/-- The rectangle is untouched by the loop body of `LM_RebuildSurfaces`. -/
theorem LM_RebuildSurfaces_surface_rect (e : env_t) (st : rebuild_t) (surf : mface_t) :
    texel_rect (LM_RebuildSurfaces_surface e st surf).2 = texel_rect surf := by
  unfold LM_RebuildSurfaces_surface
  simp only
  split_ifs <;>
    first
    | rfl
    | exact build_primary_lightmap_rect e _ surf

/-- The rectangles are untouched by the loop of `LM_RebuildSurfaces`. -/
theorem LM_RebuildSurfaces_loop_rect (e : env_t) (st : rebuild_t) (faces : List mface_t) :
    (LM_RebuildSurfaces_loop e st faces).2.map texel_rect = faces.map texel_rect := by
  induction faces generalizing st with
  | nil => rfl
  | cons surf rest ih =>
    simp only [LM_RebuildSurfaces_loop, List.map_cons, ih, LM_RebuildSurfaces_surface_rect]

/-- C17: the texel rectangle of a surface (`light_s`, `light_t`, `texnum[1]`,
`texturemins`, `extents`) is left unchanged by `build_primary_lightmap`, by
`update_dynamic_lightmap`, by `GL_PushLights`, and, for every face of the world, by
`LM_RebuildSurfaces`, which also keeps the number and the order of the faces. -/
theorem texel_rect_fixed (e : env_t) (fd : glr_t) (g : gl_t) (r : refresh_t)
    (surf : mface_t) (cache : Option (List mface_t)) :
    texel_rect (build_primary_lightmap e g surf).2 = texel_rect surf ∧
    texel_rect (update_dynamic_lightmap e fd r surf).2 = texel_rect surf ∧
    texel_rect (GL_PushLights e fd r surf).2 = texel_rect surf ∧
    (LM_RebuildSurfaces e r cache).2.map (List.map texel_rect) =
      cache.map (List.map texel_rect) := by
  refine ⟨build_primary_lightmap_rect e g surf, update_dynamic_lightmap_rect e fd r surf,
    GL_PushLights_rect e fd r surf, ?_⟩
  cases cache with
  | none => rfl
  | some faces =>
    simp only [LM_RebuildSurfaces]
    split_ifs
    · rfl
    · simp only [Option.map_some', LM_RebuildSurfaces_loop_rect]

/-! ### Dynamic lights -/

/-- Running `add_light_styles` on the scratch array that an earlier run left, for a surface
with the same styles and samples and the same style table, gives that array again. -/
theorem add_light_styles_rerun (e : env_t) (g g1 : gl_t) (surf s1 : mface_t) (size : ℤ)
    (hl : g1.lightstyles = g.lightstyles) (hm : g1.lightstylemap = g.lightstylemap)
    (hb : g1.blocklights = (add_light_styles e g surf size).1)
    (hn : s1.numstyles = surf.numstyles) (hs : s1.styles = surf.styles)
    (hlm : s1.lightmap = surf.lightmap) :
    (add_light_styles e g1 s1 size).1 = (add_light_styles e g surf size).1 := by
  funext idx
  by_cases h0 : surf.numstyles = 0
  · have h1 : (add_light_styles e g surf size).1 =
        fun i => if i < (size * 3).toNat then 0 else g.blocklights i := by
      simp only [add_light_styles, if_pos h0]
    have h2 : (add_light_styles e g1 s1 size).1 =
        fun i => if i < (size * 3).toNat then 0 else g1.blocklights i := by
      simp only [add_light_styles, if_pos (hn.trans h0)]
    rw [h2, hb, h1]
    simp only
    split_ifs <;> rfl
  · have h0' : s1.numstyles ≠ 0 := by
      rw [hn]
      exact h0
    rw [add_light_styles_blocklights e g1 s1 size h0' idx,
      add_light_styles_blocklights e g surf size h0 idx]
    by_cases hi : idx < 3 * size.toNat
    · rw [if_pos hi, if_pos hi]
      simp only [first_style_term, LIGHT_STYLE, hl, hm, hn, hs, hlm]
    · rw [if_neg hi, if_neg hi, hb, add_light_styles_blocklights e g surf size h0 idx,
        if_neg hi]

/-- The rows of `build_primary_lightmap` overwrite a set of bytes with values that do not
depend on the buffer they are written to. -/
theorem row_loop_overwrite (e : env_t) (bl : Nat → vec_t) (smax : ℤ) (dst m : Nat) :
    ∃ w : Nat → Option byte, ∀ buf : Nat → byte,
      (forLoop m (fun _ s => put_row e bl smax s) (⟨buf, 0, dst⟩, dst)).1.buffer =
        fun idx => (w idx).getD (buf idx) := by
  induction m with
  | zero => exact ⟨fun _ => none, fun buf => rfl⟩
  | succ m ih =>
    obtain ⟨w, hw⟩ := ih
    refine ⟨fun idx =>
      if dst + 4 * (e.k.LM_BLOCK_WIDTH * m) ≤ idx ∧
          idx < dst + 4 * (e.k.LM_BLOCK_WIDTH * m) + 4 * smax.toNat then
        some (texel_byte e bl
          (3 * (smax.toNat * m) + 3 * ((idx - (dst + 4 * (e.k.LM_BLOCK_WIDTH * m))) / 4))
          ((idx - (dst + 4 * (e.k.LM_BLOCK_WIDTH * m))) % 4))
      else w idx, fun buf => ?_⟩
    obtain ⟨h1, h2, -, -⟩ := row_loop_inv e bl smax buf 0 dst m
    have h3 := hw buf
    rw [forLoop]
    generalize forLoop m (fun _ s => put_row e bl smax s) (⟨buf, 0, dst⟩, dst) = st
      at h1 h2 h3
    obtain ⟨⟨B, b, q⟩, d⟩ := st
    simp only at h1 h2 h3
    subst h1 h2 h3
    rw [put_row_closed]
    funext idx
    simp only
    split_ifs <;> rfl

/-- A second run of `build_primary_lightmap`, on the globals and the surface that a first
run left, writes the same bytes again. -/
theorem build_primary_lightmap_rerun (e : env_t) (g : gl_t) (surf : mface_t) :
    (build_primary_lightmap e (build_primary_lightmap e g surf).1
      (build_primary_lightmap e g surf).2).1.blocklights =
        (build_primary_lightmap e g surf).1.blocklights ∧
    (build_primary_lightmap e (build_primary_lightmap e g surf).1
      (build_primary_lightmap e g surf).2).1.lm.buffer =
        (build_primary_lightmap e g surf).1.lm.buffer := by
  have hs1 := build_primary_lightmap_surf e g surf
  have hS : S_MAX (build_primary_lightmap e g surf).2 = S_MAX surf := by
    rw [hs1]
    rfl
  have hT : T_MAX (build_primary_lightmap e g surf).2 = T_MAX surf := by
    rw [hs1]
    rfl
  have hbl : (add_light_styles e (build_primary_lightmap e g surf).1
      (build_primary_lightmap e g surf).2 (S_MAX surf * T_MAX surf)).1 =
        (add_light_styles e g surf (S_MAX surf * T_MAX surf)).1 := by
    refine add_light_styles_rerun e g _ surf _ _ rfl rfl rfl ?_ ?_ ?_
    · rw [hs1]
    · rw [hs1]
    · rw [hs1]
  have hsurf2 := add_light_styles_surf e (build_primary_lightmap e g surf).1
    (build_primary_lightmap e g surf).2 (S_MAX surf * T_MAX surf)
  have hls : (add_light_styles e (build_primary_lightmap e g surf).1
      (build_primary_lightmap e g surf).2 (S_MAX surf * T_MAX surf)).2.light_s =
        surf.light_s := by
    rw [hsurf2, hs1]
  have hlt : (add_light_styles e (build_primary_lightmap e g surf).1
      (build_primary_lightmap e g surf).2 (S_MAX surf * T_MAX surf)).2.light_t =
        surf.light_t := by
    rw [hsurf2, hs1]
  have hsurf := add_light_styles_surf e g surf (S_MAX surf * T_MAX surf)
  have hls0 : (add_light_styles e g surf (S_MAX surf * T_MAX surf)).2.light_s =
      surf.light_s := by
    rw [hsurf]
  have hlt0 : (add_light_styles e g surf (S_MAX surf * T_MAX surf)).2.light_t =
      surf.light_t := by
    rw [hsurf]
  have hb1 : (build_primary_lightmap e g surf).1.lm.buffer =
      (forLoop (T_MAX surf).toNat
        (fun _ s => put_row e (add_light_styles e g surf (S_MAX surf * T_MAX surf)).1
          (S_MAX surf) s)
        (⟨g.lm.buffer, 0, (surf.light_t * e.k.LM_BLOCK_WIDTH + surf.light_s) * 4⟩,
          (surf.light_t * e.k.LM_BLOCK_WIDTH + surf.light_s) * 4)).1.buffer := by
    simp only [build_primary_lightmap, hls0, hlt0]
  have hb2 : (build_primary_lightmap e (build_primary_lightmap e g surf).1
      (build_primary_lightmap e g surf).2).1.lm.buffer =
      (forLoop (T_MAX surf).toNat
        (fun _ s => put_row e (add_light_styles e g surf (S_MAX surf * T_MAX surf)).1
          (S_MAX surf) s)
        (⟨(build_primary_lightmap e g surf).1.lm.buffer, 0,
            (surf.light_t * e.k.LM_BLOCK_WIDTH + surf.light_s) * 4⟩,
          (surf.light_t * e.k.LM_BLOCK_WIDTH + surf.light_s) * 4)).1.buffer := by
    generalize hg1 : (build_primary_lightmap e g surf).1 = g1 at hbl hls hlt ⊢
    generalize hq1 : (build_primary_lightmap e g surf).2 = q1 at hbl hls hlt hS hT ⊢
    simp only [build_primary_lightmap, hS, hT, hbl, hls, hlt]
  constructor
  · generalize hg1 : (build_primary_lightmap e g surf).1 = g1 at hbl ⊢
    generalize hq1 : (build_primary_lightmap e g surf).2 = q1 at hbl hS hT ⊢
    simp only [build_primary_lightmap, hS, hT, hbl]
    rw [← hg1]
    rfl
  · obtain ⟨w, hw⟩ := row_loop_overwrite e
      (add_light_styles e g surf (S_MAX surf * T_MAX surf)).1 (S_MAX surf)
      ((surf.light_t * e.k.LM_BLOCK_WIDTH + surf.light_s) * 4) (T_MAX surf).toNat
    rw [hb2, hw, hb1, hw]
    funext idx
    show (w idx).getD ((w idx).getD (g.lm.buffer idx)) = (w idx).getD (g.lm.buffer idx)
    cases w idx <;> rfl

/-- C16: running `build_primary_lightmap` twice in a row, with the style table and the
colour configuration fixed, leaves the atlas buffer `lm.buffer` equal, byte for byte, to
the one a single run leaves. -/
theorem build_primary_lightmap_idempotent (e : env_t) (g : gl_t) (surf : mface_t) :
    (build_primary_lightmap e (build_primary_lightmap e g surf).1
      (build_primary_lightmap e g surf).2).1.lm.buffer =
        (build_primary_lightmap e g surf).1.lm.buffer :=
  (build_primary_lightmap_rerun e g surf).2

/-! ### Vertex offsets -/

/-- The fields of the surface that `LM_PlaceSurface` leaves alone, and the number of the
first vertex among them. -/
theorem LM_PlaceSurface_firstvert (e : env_t) (g : gl_t) (surf : mface_t) (vbo : Nat → vec_t)
    (base : Nat) (inuse : Nat → Nat) (s t : Nat) :
    (LM_PlaceSurface e g surf vbo base inuse s t).surf.firstvert = surf.firstvert := by
  simp only [LM_PlaceSurface]
  rw [build_primary_lightmap_surf]

/-- `LM_BuildSurface` never changes the number of the first vertex of the surface. -/
theorem LM_BuildSurface_firstvert (e : env_t) (g : gl_t) (surf : mface_t)
    (vbo : Nat → vec_t) (base : Nat) :
    (LM_BuildSurface e g surf vbo base).surf.firstvert = surf.firstvert := by
  cases hok : (LM_BuildSurface e g surf vbo base).ok with
  | false => rw [(LM_BuildSurface_failed e g surf vbo base hok).1]
  | true =>
    obtain ⟨-, g', inuse, s, t, hr⟩ := LM_BuildSurface_ok e g surf vbo base hok
    rw [hr]
    exact LM_PlaceSurface_firstvert e g' surf vbo base inuse s t

/-- `LM_BuildSurface` writes only the slots 5 and 6 of the vertex records of the surface. -/
theorem LM_BuildSurface_vbo_frame (e : env_t) (g : gl_t) (surf : mface_t)
    (vbo : Nat → vec_t) (base idx : Nat)
    (h : ¬ (base ≤ idx ∧ idx < base + 7 * surf.numsurfedges) ∨ (idx - base) % 7 < 5) :
    (LM_BuildSurface e g surf vbo base).vbo idx = vbo idx := by
  cases hok : (LM_BuildSurface e g surf vbo base).ok with
  | false => rw [(LM_BuildSurface_failed e g surf vbo base hok).2]
  | true =>
    obtain ⟨-, g', inuse, s, t, hr⟩ := LM_BuildSurface_ok e g surf vbo base hok
    rw [hr, (LM_PlaceSurface_result e g' surf vbo base inuse s t).2.2.2.2.2.2.2]
    simp only
    by_cases h1 : base ≤ idx ∧ idx < base + 7 * surf.numsurfedges
    · rw [if_pos h1, if_neg (by omega), if_neg (by omega)]
    · rw [if_neg h1]

/-- The surface and the vertex array right before the test `if (!surf->lightmap)`: the
number of edges and of the first vertex, and the vertex records apart from their slots 5
and 6. -/
theorem lightmap_decision_frame (e : env_t) (g : gl_t) (surf : mface_t) (vbo : Nat → vec_t)
    (base count : Nat) :
    (lightmap_decision e g surf vbo base count).surf.numsurfedges = surf.numsurfedges ∧
    (lightmap_decision e g surf vbo base count).surf.firstvert = count ∧
    ∀ idx, (¬ (base ≤ idx ∧ idx < base + 7 * surf.numsurfedges) ∨ (idx - base) % 7 < 5) →
      (lightmap_decision e g surf vbo base count).vbo idx =
        (build_surface_poly { surf with firstvert := count } vbo base).2 idx := by
  have hn : (build_surface_poly { surf with firstvert := count } vbo base).1.numsurfedges =
      surf.numsurfedges := rfl
  have hf : (build_surface_poly { surf with firstvert := count } vbo base).1.firstvert =
      count := rfl
  unfold lightmap_decision
  by_cases h1 : e.gl_fullbright ≠ 0 ∨
      (build_surface_poly { surf with firstvert := count } vbo base).1.drawflags &&&
        e.k.SURF_NOLM_MASK ≠ 0
  · rw [if_pos h1]
    exact ⟨rfl, rfl, fun idx _ => rfl⟩
  · rw [if_neg h1]
    by_cases h2 : (build_surface_poly { surf with firstvert := count } vbo base).1.lightmap ≠ 0
    · rw [if_pos h2]
      have a1 := LM_BuildSurface_numsurfedges e g
        (build_surface_poly { surf with firstvert := count } vbo base).1
        (build_surface_poly { surf with firstvert := count } vbo base).2 base
      have a2 := LM_BuildSurface_firstvert e g
        (build_surface_poly { surf with firstvert := count } vbo base).1
        (build_surface_poly { surf with firstvert := count } vbo base).2 base
      have a3 := fun idx => LM_BuildSurface_vbo_frame e g
        (build_surface_poly { surf with firstvert := count } vbo base).1
        (build_surface_poly { surf with firstvert := count } vbo base).2 base idx
      rw [hn] at a1 a3
      rw [hf] at a2
      by_cases h3 : (LM_BuildSurface e g
          (build_surface_poly { surf with firstvert := count } vbo base).1
          (build_surface_poly { surf with firstvert := count } vbo base).2 base).ok = false
      · rw [if_pos h3]
        exact ⟨a1, a2, a3⟩
      · rw [if_neg h3]
        exact ⟨a1, a2, a3⟩
    · rw [if_neg h2]
      exact ⟨rfl, rfl, fun idx _ => rfl⟩

/-- The post-processing of a surface writes only the vertex records of the surface, fills
their slots 0 to 4 with the compiled position and texture coordinates, and records
`count` as the number of the first vertex. -/
theorem post_process_frame (e : env_t) (g : gl_t) (surf : mface_t) (vbo : Nat → vec_t)
    (base count : Nat) :
    (post_process_surface e g surf vbo base count).2.1.firstvert = count ∧
    (∀ idx, ¬ (base ≤ idx ∧ idx < base + 7 * surf.numsurfedges) →
      (post_process_surface e g surf vbo base count).2.2 idx = vbo idx) ∧
    ∀ k c, k < surf.numsurfedges → c < 5 →
      (post_process_surface e g surf vbo base count).2.2 (base + 7 * k + c) =
        vertex_slot surf k c := by
  obtain ⟨hn, hf, hv⟩ := lightmap_decision_frame e g surf vbo base count
  have hp := fun idx => build_surface_poly_vbo { surf with firstvert := count } vbo base idx
  have hpn : ({ surf with firstvert := count } : mface_t).numsurfedges = surf.numsurfedges :=
    rfl
  rw [post_process_eq]
  by_cases h : (lightmap_decision e g surf vbo base count).surf.lightmap = 0
  · rw [if_pos h]
    simp only [duplicate_surface_lmtc_closed, hn]
    refine ⟨hf, fun idx hidx => ?_, fun k c hk hc => ?_⟩
    · rw [if_neg (by omega), hv idx (Or.inl hidx), hp, hpn, if_neg hidx]
    · rw [if_neg (by omega), hv _ (Or.inr (by omega)), hp, hpn, if_pos (by omega)]
      have e1 : (base + 7 * k + c - base) / 7 = k := by omega
      have e2 : (base + 7 * k + c - base) % 7 = c := by omega
      rw [e1, e2]
      rfl
  · rw [if_neg h]
    refine ⟨hf, fun idx hidx => ?_, fun k c hk hc => ?_⟩
    · show (lightmap_decision e g surf vbo base count).vbo idx = vbo idx
      rw [hv idx (Or.inl hidx), hp, hpn, if_neg hidx]
    · show (lightmap_decision e g surf vbo base count).vbo (base + 7 * k + c) =
        vertex_slot surf k c
      rw [hv _ (Or.inr (by omega)), hp, hpn, if_pos (by omega)]
      have e1 : (base + 7 * k + c - base) / 7 = k := by omega
      have e2 : (base + 7 * k + c - base) % 7 = c := by omega
      rw [e1, e2]
      rfl

/-- The final buffer of a state of the chunked path. -/
theorem final_buffer_vbo (st : load_t) (hh : st.has_vertices = false) (idx : Nat) :
    final_buffer st idx =
      if st.lastvert * 7 ≤ idx ∧ idx < st.lastvert * 7 + st.tess_numverts * 7 then
        st.tess_vertices (idx - st.lastvert * 7)
      else st.buffer_data idx := by
  simp only [final_buffer, hh, Bool.false_eq_true, if_false, upload_surface_vbo, VERTEX_SIZE]

/-- The state after the statement "upload VBO chunk if needed": the invariant holds, the
staging array is the same, and the final buffer is the same. -/
theorem flush_if_needed_fields (e : env_t) (st : load_t) (surf : mface_t)
    (hh : st.has_vertices = false) (hinv : st.lastvert + st.tess_numverts = st.count) :
    (flush_if_needed e st surf).has_vertices = false ∧
    (flush_if_needed e st surf).tess_vertices = st.tess_vertices ∧
    (flush_if_needed e st surf).lastvert + (flush_if_needed e st surf).tess_numverts =
      st.count ∧
    ∀ idx, final_buffer (flush_if_needed e st surf) idx = final_buffer st idx := by
  unfold flush_if_needed
  by_cases ho : st.tess_numverts + surf.numsurfedges > e.k.TESS_MAX_VERTICES
  · rw [if_pos ho]
    refine ⟨hh, rfl, rfl, fun idx => ?_⟩
    rw [final_buffer_vbo { upload_surface_vbo st st.lastvert with lastvert := st.count } hh,
      final_buffer_vbo st hh]
    have e1 : ({ upload_surface_vbo st st.lastvert with lastvert := st.count } :
        load_t).tess_numverts = 0 := rfl
    rw [e1, if_neg (by omega)]
    simp only [upload_surface_vbo, VERTEX_SIZE]
  · rw [if_neg ho]
    exact ⟨hh, rfl, hinv, fun idx => rfl⟩

/-- The fields of the state after the loop body, for a surface that is not sky and fits the
staging array, with the buffer object in use. -/
theorem GL_LoadWorld_surface_vbo_fields (e : env_t) (st : load_t) (surf : mface_t)
    (hh : st.has_vertices = false)
    (hsky : (hack_flags e surf).drawflags &&& e.k.SURF_SKY = 0)
    (hn : surf.numsurfedges ≤ e.k.TESS_MAX_VERTICES) :
    (GL_LoadWorld_surface e st surf).1.has_vertices = false ∧
    (GL_LoadWorld_surface e st surf).1.lastvert = (flush_if_needed e st surf).lastvert ∧
    (GL_LoadWorld_surface e st surf).1.tess_numverts =
      (flush_if_needed e st surf).tess_numverts + surf.numsurfedges ∧
    (GL_LoadWorld_surface e st surf).1.buffer_data =
      (flush_if_needed e st surf).buffer_data ∧
    (GL_LoadWorld_surface e st surf).1.tess_vertices =
      (post_process_surface e st.g (hack_flags e surf) st.tess_vertices
        ((flush_if_needed e st surf).tess_numverts * VERTEX_SIZE) st.count).2.2 ∧
    (GL_LoadWorld_surface e st surf).1.count = st.count + surf.numsurfedges := by
  have hF : (GL_LoadWorld_surface e st surf).1.has_vertices = false := by
    rw [GL_LoadWorld_surface_has_vertices]
    exact hh
  have h := GL_LoadWorld_surface_vbo e st surf hh hsky hn
  refine ⟨hF, ?_, ?_, ?_, ?_, ?_⟩ <;> simp only [h]

/-- The loop body for a sky surface changes nothing but the surface's flags. -/
theorem GL_LoadWorld_surface_sky (e : env_t) (st : load_t) (surf : mface_t)
    (hsky : (hack_flags e surf).drawflags &&& e.k.SURF_SKY ≠ 0) :
    GL_LoadWorld_surface e st surf = (st, hack_flags e surf) := by
  unfold GL_LoadWorld_surface
  simp only [hsky, ne_eq, not_false_eq_true, if_true]

/-- The loop body for a surface with too many vertices for the staging array only logs. -/
theorem GL_LoadWorld_surface_too_many (e : env_t) (st : load_t) (surf : mface_t)
    (hh : st.has_vertices = false)
    (hsky : (hack_flags e surf).drawflags &&& e.k.SURF_SKY = 0)
    (hn : surf.numsurfedges > e.k.TESS_MAX_VERTICES) :
    GL_LoadWorld_surface e st surf =
      ({ st with g := { st.g with eprintf := emsg_t.too_many_verts :: st.g.eprintf } },
        hack_flags e surf) := by
  have hn2 : (hack_flags e surf).numsurfedges > e.k.TESS_MAX_VERTICES := hn
  unfold GL_LoadWorld_surface
  simp only [hsky, ne_eq, not_true_eq_false, if_false, hh, Bool.false_eq_true, hn2, if_true]

/-- The loop body keeps the chunk invariant, never lowers `count`, and leaves the part of
the final buffer below `count` as it was. -/
theorem GL_LoadWorld_surface_final (e : env_t) (st : load_t) (surf : mface_t)
    (hinv : chunk_invariant st) :
    chunk_invariant (GL_LoadWorld_surface e st surf).1 ∧
    st.count ≤ (GL_LoadWorld_surface e st surf).1.count ∧
    ∀ idx, idx < 7 * st.count →
      final_buffer (GL_LoadWorld_surface e st surf).1 idx = final_buffer st idx := by
  by_cases hsky : (hack_flags e surf).drawflags &&& e.k.SURF_SKY = 0
  · by_cases hh : st.has_vertices = true
    · have hh2 : (GL_LoadWorld_surface e st surf).1.has_vertices = true := by
        rw [GL_LoadWorld_surface_has_vertices]
        exact hh
      refine ⟨fun h => ?_, ?_, fun idx hidx => ?_⟩
      · rw [hh2] at h
        exact absurd h (by decide)
      · rw [GL_LoadWorld_surface_hunk e st surf hh hsky]
        exact Nat.le_add_right _ _
      · have hv : (GL_LoadWorld_surface e st surf).1.vertices =
            (post_process_surface e st.g (hack_flags e surf) st.vertices
              (st.count * VERTEX_SIZE) st.count).2.2 := by
          rw [GL_LoadWorld_surface_hunk e st surf hh hsky]
        simp only [final_buffer, hh2, hh, if_true]
        rw [hv]
        exact (post_process_frame e st.g (hack_flags e surf) st.vertices
          (st.count * VERTEX_SIZE) st.count).2.1 idx (by simp only [VERTEX_SIZE]; omega)
    · have hf : st.has_vertices = false := by
        cases h : st.has_vertices
        · rfl
        · exact absurd h hh
      by_cases hn : surf.numsurfedges ≤ e.k.TESS_MAX_VERTICES
      · obtain ⟨a1, a2, a3, a4, a5, a6⟩ :=
          GL_LoadWorld_surface_vbo_fields e st surf hf hsky hn
        obtain ⟨b1, b2, b3, b4⟩ := flush_if_needed_fields e st surf hf (hinv hf)
        refine ⟨fun _ => ?_, ?_, fun idx hidx => ?_⟩
        · rw [a2, a3, a6]
          omega
        · rw [a6]
          exact Nat.le_add_right _ _
        · rw [final_buffer_vbo _ a1, a2, a3, a4, a5, ← b4 idx, final_buffer_vbo _ b1, b2]
          by_cases hr : (flush_if_needed e st surf).lastvert * 7 ≤ idx
          · rw [if_pos (by omega), if_pos (by omega)]
            exact (post_process_frame e st.g (hack_flags e surf) st.tess_vertices
              ((flush_if_needed e st surf).tess_numverts * VERTEX_SIZE) st.count).2.1 _
                (by simp only [VERTEX_SIZE]; omega)
          · rw [if_neg (by omega), if_neg (by omega)]
      · rw [GL_LoadWorld_surface_too_many e st surf hf hsky (by omega)]
        exact ⟨hinv, Nat.le_refl _, fun idx _ => rfl⟩
  · rw [GL_LoadWorld_surface_sky e st surf hsky]
    exact ⟨hinv, Nat.le_refl _, fun idx _ => rfl⟩

/-- The loop body for a surface that is not sky and not skipped for its size: the surface
gets `count` as its first vertex, `count` advances by its number of edges, and the final
buffer holds at the float offset `7 * count` what the body compiled. -/
theorem GL_LoadWorld_surface_placed (e : env_t) (st : load_t) (surf : mface_t)
    (hinv : chunk_invariant st)
    (hsky : (hack_flags e surf).drawflags &&& e.k.SURF_SKY = 0)
    (hproc : st.has_vertices = true ∨ surf.numsurfedges ≤ e.k.TESS_MAX_VERTICES) :
    (GL_LoadWorld_surface e st surf).2.firstvert = st.count ∧
    (GL_LoadWorld_surface e st surf).1.count = st.count + surf.numsurfedges ∧
    (∀ j, j < 7 * surf.numsurfedges →
      final_buffer (GL_LoadWorld_surface e st surf).1 (7 * st.count + j) =
        compiled_array (GL_LoadWorld_surface e st surf).1 (compiled_base e st surf + j)) ∧
    ∀ k c, k < surf.numsurfedges → c < 5 →
      compiled_array (GL_LoadWorld_surface e st surf).1
        (compiled_base e st surf + 7 * k + c) = vertex_slot surf k c := by
  obtain ⟨c1, c2, -⟩ := GL_LoadWorld_surface_compiled e st surf hsky hproc
  obtain ⟨f1, -, f3⟩ := post_process_frame e st.g (hack_flags e surf) (compiled_array st)
    (compiled_base e st surf) st.count
  have hslots : ∀ k c, k < surf.numsurfedges → c < 5 →
      compiled_array (GL_LoadWorld_surface e st surf).1
        (compiled_base e st surf + 7 * k + c) = vertex_slot surf k c := by
    intro k c hk hc
    rw [c2]
    exact f3 k c hk hc
  by_cases hh : st.has_vertices = true
  · have hh2 : (GL_LoadWorld_surface e st surf).1.has_vertices = true := by
      rw [GL_LoadWorld_surface_has_vertices]
      exact hh
    refine ⟨?_, ?_, fun j _ => ?_, hslots⟩
    · rw [c1]
      exact f1
    · rw [GL_LoadWorld_surface_hunk e st surf hh hsky]
    · have e1 : compiled_base e st surf + j = 7 * st.count + j := by
        simp only [compiled_base, hh, if_true, VERTEX_SIZE]
        omega
      rw [e1]
      simp only [final_buffer, compiled_array, hh2, if_true]
  · have hf : st.has_vertices = false := by
      cases h : st.has_vertices
      · rfl
      · exact absurd h hh
    have hn : surf.numsurfedges ≤ e.k.TESS_MAX_VERTICES := by
      rcases hproc with h | h
      · exact absurd h hh
      · exact h
    obtain ⟨a1, a2, a3, a4, a5, a6⟩ := GL_LoadWorld_surface_vbo_fields e st surf hf hsky hn
    obtain ⟨-, -, b3, -⟩ := flush_if_needed_fields e st surf hf (hinv hf)
    refine ⟨?_, a6, fun j hj => ?_, hslots⟩
    · rw [c1]
      exact f1
    · have e1 : compiled_base e st surf + j =
          (flush_if_needed e st surf).tess_numverts * 7 + j := by
        simp only [compiled_base, hf, Bool.false_eq_true, if_false, VERTEX_SIZE]
      have e2 : 7 * st.count + j - (flush_if_needed e st surf).lastvert * 7 =
          (flush_if_needed e st surf).tess_numverts * 7 + j := by omega
      rw [final_buffer_vbo _ a1, a2, a3, if_pos (by omega), e1, e2]
      simp only [compiled_array, a1, Bool.false_eq_true, if_false]

/-- The surface loop keeps the chunk invariant, never lowers `count`, and leaves the part
of the final buffer below `count` as it was. -/
theorem GL_LoadWorld_surfaces_final (e : env_t) (st : load_t) (faces : List mface_t)
    (hinv : chunk_invariant st) :
    chunk_invariant (GL_LoadWorld_surfaces e st faces).1 ∧
    st.count ≤ (GL_LoadWorld_surfaces e st faces).1.count ∧
    ∀ idx, idx < 7 * st.count →
      final_buffer (GL_LoadWorld_surfaces e st faces).1 idx = final_buffer st idx := by
  induction faces generalizing st with
  | nil => exact ⟨hinv, Nat.le_refl _, fun idx _ => rfl⟩
  | cons surf rest ih =>
    obtain ⟨s1, s2, s3⟩ := GL_LoadWorld_surface_final e st surf hinv
    obtain ⟨r1, r2, r3⟩ := ih (GL_LoadWorld_surface e st surf).1 s1
    refine ⟨r1, Nat.le_trans s2 r2, fun idx hidx => ?_⟩
    have h := r3 idx (by omega)
    rw [← s3 idx hidx, ← h]
    rfl

/-- The buffer that the build leaves is the final buffer of the state in which the surface
loop ends. -/
theorem GL_LoadWorld_build_buffer (e : env_t) (st : load_t) (faces : List mface_t) :
    world_buffer (GL_LoadWorld_build e st faces).1 =
      final_buffer (GL_LoadWorld_surfaces e (begin_load e st) faces).1 ∧
    (GL_LoadWorld_build e st faces).2 =
      (GL_LoadWorld_surfaces e (begin_load e st) faces).2 := by
  unfold GL_LoadWorld_build world_buffer final_buffer
  simp only
  by_cases hh : (GL_LoadWorld_surfaces e (begin_load e st) faces).1.has_vertices = true
  · simp only [hh, if_true, Bool.true_eq_false, if_false, and_self]
  · have hf : (GL_LoadWorld_surfaces e (begin_load e st) faces).1.has_vertices = false := by
      cases h : (GL_LoadWorld_surfaces e (begin_load e st) faces).1.has_vertices
      · rfl
      · exact absurd h hh
    have hu : (upload_surface_vbo (GL_LoadWorld_surfaces e (begin_load e st) faces).1
        (GL_LoadWorld_surfaces e (begin_load e st) faces).1.lastvert).has_vertices = false :=
      hf
    simp only [hf, if_true, hu, Bool.false_eq_true, if_false, and_self]

/-- C18: in both vertex-buffer paths of `GL_LoadWorld` (hunk arena, and buffer object filled
by chunked uploads from a staging array that starts empty), for a face that is not sky and
not skipped for its size, the loop records `count` as the face's `firstvert`, the chunk
invariant `lastvert + tess.numverts = count` holds when the face is reached, and the buffer
left by the build holds at the vertex offsets `firstvert .. firstvert + numsurfedges - 1`
the vertex records that the loop body compiled for the face, whose slots 0 to 4 are the
position and the texture coordinates of the face's vertices. -/
theorem firstvert_matches_buffer (e : env_t) (st : load_t) (pre post : List mface_t)
    (surf : mface_t) (hempty : st.has_vertices = false → st.tess_numverts = 0)
    (hsky : (hack_flags e surf).drawflags &&& e.k.SURF_SKY = 0)
    (hproc : st.has_vertices = true ∨ surf.numsurfedges ≤ e.k.TESS_MAX_VERTICES) :
    (GL_LoadWorld_build e st (pre ++ surf :: post)).2 =
      (GL_LoadWorld_surfaces e (begin_load e st) pre).2 ++
        (GL_LoadWorld_surface e (GL_LoadWorld_surfaces e (begin_load e st) pre).1 surf).2 ::
          (GL_LoadWorld_surfaces e
            (GL_LoadWorld_surface e (GL_LoadWorld_surfaces e (begin_load e st) pre).1 surf).1
            post).2 ∧
    (GL_LoadWorld_surface e (GL_LoadWorld_surfaces e (begin_load e st) pre).1
      surf).2.firstvert = (GL_LoadWorld_surfaces e (begin_load e st) pre).1.count ∧
    chunk_invariant (GL_LoadWorld_surfaces e (begin_load e st) pre).1 ∧
    (∀ k c, k < surf.numsurfedges → c < 7 →
      world_buffer (GL_LoadWorld_build e st (pre ++ surf :: post)).1
          (((GL_LoadWorld_surface e (GL_LoadWorld_surfaces e (begin_load e st) pre).1
            surf).2.firstvert + k) * VERTEX_SIZE + c) =
        compiled_array
          (GL_LoadWorld_surface e (GL_LoadWorld_surfaces e (begin_load e st) pre).1 surf).1
          (compiled_base e (GL_LoadWorld_surfaces e (begin_load e st) pre).1 surf +
            VERTEX_SIZE * k + c)) ∧
    ∀ k c, k < surf.numsurfedges → c < 5 →
      world_buffer (GL_LoadWorld_build e st (pre ++ surf :: post)).1
          (((GL_LoadWorld_surface e (GL_LoadWorld_surfaces e (begin_load e st) pre).1
            surf).2.firstvert + k) * VERTEX_SIZE + c) =
        vertex_slot surf k c := by
  have inv0 : chunk_invariant (begin_load e st) := by
    intro h
    show 0 + st.tess_numverts = 0
    rw [hempty h]
  have invL := (GL_LoadWorld_surfaces_final e (begin_load e st) pre inv0).1
  have hhv : (GL_LoadWorld_surfaces e (begin_load e st) pre).1.has_vertices =
      st.has_vertices := by
    rw [GL_LoadWorld_surfaces_has_vertices]
    rfl
  have hprocL : (GL_LoadWorld_surfaces e (begin_load e st) pre).1.has_vertices = true ∨
      surf.numsurfedges ≤ e.k.TESS_MAX_VERTICES := by
    rw [hhv]
    exact hproc
  obtain ⟨hb1, hb2⟩ := GL_LoadWorld_build_buffer e st (pre ++ surf :: post)
  have happ := GL_LoadWorld_surfaces_append e (begin_load e st) pre (surf :: post)
  rw [hb1, hb2, happ]
  generalize GL_LoadWorld_surfaces e (begin_load e st) pre = L at invL hprocL ⊢
  obtain ⟨p1, p2, p3, p4⟩ := GL_LoadWorld_surface_placed e L.1 surf invL hsky hprocL
  have invR := (GL_LoadWorld_surface_final e L.1 surf invL).1
  have fin := (GL_LoadWorld_surfaces_final e (GL_LoadWorld_surface e L.1 surf).1 post
    invR).2.2
  have hbuf : ∀ k c, k < surf.numsurfedges → c < 7 →
      final_buffer (GL_LoadWorld_surfaces e L.1 (surf :: post)).1
          (((GL_LoadWorld_surface e L.1 surf).2.firstvert + k) * VERTEX_SIZE + c) =
        compiled_array (GL_LoadWorld_surface e L.1 surf).1
          (compiled_base e L.1 surf + (VERTEX_SIZE * k + c)) := by
    intro k c hk hc
    have e1 : ((GL_LoadWorld_surface e L.1 surf).2.firstvert + k) * VERTEX_SIZE + c =
        7 * L.1.count + (7 * k + c) := by
      rw [p1]
      simp only [VERTEX_SIZE]
      omega
    have e2 : VERTEX_SIZE * k + c = 7 * k + c := rfl
    rw [e1, e2, ← p3 (7 * k + c) (by omega)]
    exact fin (7 * L.1.count + (7 * k + c)) (by rw [p2]; omega)
  refine ⟨rfl, p1, invL, fun k c hk hc => ?_, fun k c hk hc => ?_⟩
  · rw [Nat.add_assoc]
    exact hbuf k c hk hc
  · have h := hbuf k c hk (by omega)
    have e2 : VERTEX_SIZE * k + c = 7 * k + c := rfl
    rw [e2, ← Nat.add_assoc, p4 k c hk hc] at h
    exact h

/-- Witness for C18: two sample triangles loaded through the buffer object. The second one
is recorded at vertex offset 3, and the buffer holds the position of its vertex 1 there. -/
theorem firstvert_matches_buffer_witness :
    (GL_LoadWorld_surface sample_env
      (GL_LoadWorld_surfaces sample_env (begin_load sample_env sample_vbo_load)
        [dark_surf]).1 sample_surf).2.firstvert =
      (GL_LoadWorld_surfaces sample_env (begin_load sample_env sample_vbo_load)
        [dark_surf]).1.count ∧
    world_buffer (GL_LoadWorld_build sample_env sample_vbo_load
        ([dark_surf] ++ sample_surf :: [])).1
      (((GL_LoadWorld_surface sample_env
        (GL_LoadWorld_surfaces sample_env (begin_load sample_env sample_vbo_load)
          [dark_surf]).1 sample_surf).2.firstvert + 1) * VERTEX_SIZE + 0) =
      vertex_slot sample_surf 1 0 :=
  ⟨(firstvert_matches_buffer sample_env sample_vbo_load [dark_surf] [] sample_surf
      (fun _ => rfl) rfl (Or.inr (by decide))).2.1,
    (firstvert_matches_buffer sample_env sample_vbo_load [dark_surf] [] sample_surf
      (fun _ => rfl) rfl (Or.inr (by decide))).2.2.2.2 1 0 (by decide) (by decide)⟩

/-! ### Bounds of the texel block -/

/-- The texel block of a surface whose bounds fit the 32-bit `int`s of
`build_surface_poly`: after `build_surface_poly` the raw texel coordinate of every vertex,
which is what the slots 5 and 6 of its record hold, lies between `texturemins[k]` and
`texturemins[k] + extents[k]`, and `texturemins[k]` and `extents[k]` are multiples of 16
with `extents[k] >= 0`, also where the coordinates lie beyond the values 99999 and -99999
the running bounds start from. -/
theorem build_surface_poly_contains (surf : mface_t) (vbo : Nat → vec_t) (base k i : Nat)
    (hk : k < 2) (hi : i < surf.numsurfedges) (hf : block_fits_int surf k) :
    (build_surface_poly surf vbo base).2 (base + VERTEX_SIZE * i + 5 + k) = raw_tc surf k i ∧
    (((build_surface_poly surf vbo base).1.texturemins k : ℤ) : vec_t) ≤ raw_tc surf k i ∧
    raw_tc surf k i ≤
      (((build_surface_poly surf vbo base).1.texturemins k +
        (build_surface_poly surf vbo base).1.extents k : ℤ) : vec_t) ∧
    (16 : ℤ) ∣ (build_surface_poly surf vbo base).1.texturemins k ∧
    (16 : ℤ) ∣ (build_surface_poly surf vbo base).1.extents k ∧
    0 ≤ (build_surface_poly surf vbo base).1.extents k := by
  obtain ⟨fl, ce, e1, e2, h1, h2⟩ := raw_tc_between surf vbo base k i hk hi hf
  have hle : fl ≤ ce := by
    have h3 : ((fl * 16 : ℤ) : vec_t) ≤ ((ce * 16 : ℤ) : vec_t) := le_trans h1 h2
    have h4 : fl * 16 ≤ ce * 16 := by exact_mod_cast h3
    omega
  refine ⟨?_, ?_, ?_, ?_, ?_, ?_⟩
  · rw [build_surface_poly_vbo, if_pos (by simp only [VERTEX_SIZE]; omega)]
    have a1 : (base + VERTEX_SIZE * i + 5 + k - base) / 7 = i := by
      simp only [VERTEX_SIZE]
      omega
    have a2 : (base + VERTEX_SIZE * i + 5 + k - base) % 7 = 5 + k := by
      simp only [VERTEX_SIZE]
      omega
    rw [a1, a2]
    have hk' : k = 0 ∨ k = 1 := by omega
    rcases hk' with h | h <;> subst h <;> simp [vertex_slot]
  · rw [e1]
    exact h1
  · rw [e1, e2]
    have e3 : fl * 16 + (ce - fl) * 16 = ce * 16 := by ring
    rw [e3]
    exact h2
  · rw [e1]
    exact Dvd.intro_left fl rfl
  · rw [e2]
    exact Dvd.intro_left (ce - fl) rfl
  · rw [e2]
    omega

/-- The block bounds of the far surface fit the 32-bit `int`s on the first axis. -/
theorem far_surf_fits : block_fits_int far_surf 0 := by
  have htc : ∀ i, raw_tc far_surf 0 i = 200000 := by
    intro i
    simp [raw_tc, loop_point, DotProduct, far_surf, sample_surf, sample_edge, sample_texinfo,
      vec3]
  have hn : far_surf.numsurfedges = 1 := rfl
  have f1 : Int.floor (min (99999 : vec_t) 200000 / 16) = 6249 := by
    rw [Int.floor_eq_iff]
    norm_num
  have f2 : Int.ceil (max (-99999 : vec_t) 200000 / 16) = 12500 := by
    rw [Int.ceil_eq_iff]
    norm_num
  unfold block_fits_int
  rw [hn]
  simp only [run_min, run_max, htc, f1, f2]
  norm_num

/-- The single vertex of the far surface, at raw coordinate 200000 on the first axis,
beyond the value 99999 the running minimum starts from, lies inside the stored block. -/
theorem build_surface_poly_contains_witness :
    block_fits_int far_surf 0 ∧
    (((build_surface_poly far_surf (fun _ => 0) 0).1.texturemins 0 : ℤ) : vec_t) ≤
      raw_tc far_surf 0 0 ∧
    raw_tc far_surf 0 0 ≤
      (((build_surface_poly far_surf (fun _ => 0) 0).1.texturemins 0 +
        (build_surface_poly far_surf (fun _ => 0) 0).1.extents 0 : ℤ) : vec_t) :=
  ⟨far_surf_fits,
    (build_surface_poly_contains far_surf (fun _ => 0) 0 0 0 (by decide) (by decide)
      far_surf_fits).2.1,
    (build_surface_poly_contains far_surf (fun _ => 0) 0 0 0 (by decide) (by decide)
      far_surf_fits).2.2.1⟩

/-- The log of `LM_UploadBlock` is the one it was given. -/
theorem LM_UploadBlock_eprintf (k : glconst_t) (g : gl_t) :
    (LM_UploadBlock k g).eprintf = g.eprintf := by
  unfold LM_UploadBlock
  split_ifs <;> rfl

/-- The message "MAX_BLOCKLIGHTS exceeded" is in the log after `LM_BuildSurface` only if it
was there before. -/
theorem LM_BuildSurface_log (e : env_t) (g : gl_t) (surf : mface_t) (vbo : Nat → vec_t)
    (base : Nat)
    (h : emsg_t.MAX_BLOCKLIGHTS_exceeded ∈ (LM_BuildSurface e g surf vbo base).g.eprintf) :
    emsg_t.MAX_BLOCKLIGHTS_exceeded ∈ g.eprintf := by
  unfold LM_BuildSurface at h
  simp only [MAX_SURFACE_EXTENTS] at h
  by_cases h1 : surf.extents 0 < 0 ∨ surf.extents 0 > 2048 ∨
      surf.extents 1 < 0 ∨ surf.extents 1 > 2048
  · rw [if_pos h1] at h
    simpa using h
  rw [if_neg h1] at h
  have hS := block_side_bounds (surf.extents 0) (by omega) (by omega)
  have hT := block_side_bounds (surf.extents 1) (by omega) (by omega)
  have h2 : ¬ S_MAX surf * T_MAX surf > MAX_BLOCKLIGHTS := by
    have hm : MAX_BLOCKLIGHTS = 129 * 129 := by decide
    rw [hm]
    simp only [S_MAX, T_MAX]
    nlinarith
  rw [if_neg h2] at h
  by_cases h3 : (surf.lightmap : ℤ) + (surf.numstyles : ℤ) * (S_MAX surf * T_MAX surf) * 3 >
      ((e.bsp.lightmap + e.bsp.numlightmapbytes : Nat) : ℤ)
  · rw [if_pos h3] at h
    simpa using h
  rw [if_neg h3] at h
  unfold LM_BuildSurface_alloc at h
  cases ha : LM_AllocBlock e g.lm (S_MAX surf).toNat (T_MAX surf).toNat with
  | some r =>
    obtain ⟨inuse, s, t⟩ := r
    rw [ha] at h
    simp only at h
    rw [(LM_PlaceSurface_globals e g surf vbo base inuse s t).2.2.2.2.2.1] at h
    exact h
  | none =>
    rw [ha] at h
    simp only at h
    by_cases h4 : (LM_UploadBlock e.k g).lm.nummaps = e.k.LM_MAX_LIGHTMAPS
    · rw [if_pos h4] at h
      simp only [LM_UploadBlock_eprintf] at h
      simpa using h
    rw [if_neg h4] at h
    cases hb : LM_AllocBlock e (LM_InitBlock e.k (LM_UploadBlock e.k g).lm)
        (S_MAX surf).toNat (T_MAX surf).toNat with
    | none =>
      rw [hb] at h
      simp only [LM_UploadBlock_eprintf] at h
      simpa using h
    | some r =>
      obtain ⟨inuse, s, t⟩ := r
      rw [hb] at h
      simp only at h
      rw [(LM_PlaceSurface_globals e _ surf vbo base inuse s t).2.2.2.2.2.1] at h
      simp only [LM_UploadBlock_eprintf] at h
      exact h

/-- What `add_light_styles` leaves beyond the first `3 * size` entries of `blocklights`:
the old contents. -/
theorem add_light_styles_beyond (e : env_t) (g : gl_t) (surf : mface_t) (size : ℤ)
    (idx : Nat) (h : 3 * size.toNat ≤ idx) :
    (add_light_styles e g surf size).1 idx = g.blocklights idx := by
  by_cases h0 : surf.numstyles = 0
  · simp only [add_light_styles, if_pos h0]
    rw [if_neg]
    have : (size * 3).toNat = 3 * size.toNat := by omega
    omega
  · rw [add_light_styles_blocklights e g surf size h0 idx, if_neg (by omega)]

/-- C26: for a surface whose extents pass the first validation of `LM_BuildSurface`, the
block sides `smax` and `tmax` lie between 1 and `MAX_LIGHTMAP_EXTENTS` = 129, so the size
`smax * tmax` is at most `MAX_BLOCKLIGHTS`, the test `size > MAX_BLOCKLIGHTS` is false, and
`add_light_styles` changes no entry at or beyond index `3 * MAX_BLOCKLIGHTS`, the length of
`blocklights`; the message "MAX_BLOCKLIGHTS exceeded" is never added to the log by
`LM_BuildSurface`. -/
theorem MAX_BLOCKLIGHTS_unreachable (e : env_t) (g : gl_t) (surf : mface_t)
    (vbo : Nat → vec_t) (base : Nat) :
    (valid_extents surf →
      (1 ≤ S_MAX surf ∧ S_MAX surf ≤ MAX_LIGHTMAP_EXTENTS) ∧
      (1 ≤ T_MAX surf ∧ T_MAX surf ≤ MAX_LIGHTMAP_EXTENTS) ∧
      MAX_LIGHTMAP_EXTENTS = 129 ∧
      ¬ S_MAX surf * T_MAX surf > MAX_BLOCKLIGHTS ∧
      (∀ j c : Nat, (j : ℤ) < S_MAX surf * T_MAX surf → c < 3 →
        ((3 * j + c : Nat) : ℤ) < MAX_BLOCKLIGHTS * 3) ∧
      ∀ idx : Nat, MAX_BLOCKLIGHTS * 3 ≤ (idx : ℤ) →
        (add_light_styles e g surf (S_MAX surf * T_MAX surf)).1 idx = g.blocklights idx) ∧
    (emsg_t.MAX_BLOCKLIGHTS_exceeded ∈ (LM_BuildSurface e g surf vbo base).g.eprintf →
      emsg_t.MAX_BLOCKLIGHTS_exceeded ∈ g.eprintf) := by
  refine ⟨fun hv => ?_, LM_BuildSurface_log e g surf vbo base⟩
  obtain ⟨a0, a1, b0, b1⟩ := hv
  simp only [MAX_SURFACE_EXTENTS] at a1 b1
  have hS := block_side_bounds (surf.extents 0) a0 a1
  have hT := block_side_bounds (surf.extents 1) b0 b1
  have hm : MAX_BLOCKLIGHTS = 129 * 129 := by decide
  have hl : MAX_LIGHTMAP_EXTENTS = 129 := by decide
  have hsz : S_MAX surf * T_MAX surf ≤ 129 * 129 := by
    simp only [S_MAX, T_MAX]
    nlinarith
  refine ⟨by rw [hl]; exact hS, by rw [hl]; exact hT, hl, by rw [hm]; omega, ?_, ?_⟩
  · intro j c hj hc
    rw [hm]
    push_cast
    omega
  · intro idx hidx
    rw [hm] at hidx
    refine add_light_styles_beyond e g surf _ idx ?_
    have h0 : 0 ≤ S_MAX surf * T_MAX surf := by
      simp only [S_MAX, T_MAX]
      nlinarith
    omega

/-- Witness for C26: the sample block of 10 x 10 texels. -/
theorem MAX_BLOCKLIGHTS_unreachable_witness :
    ¬ S_MAX lit_surf * T_MAX lit_surf > MAX_BLOCKLIGHTS :=
  ((MAX_BLOCKLIGHTS_unreachable sample_env sample_gl lit_surf (fun _ => 0) 0).1
    ⟨by decide, by decide, by decide, by decide⟩).2.2.2.1

/-! ### Frame of the primary lightmap -/

/-- A byte of a page texel that lies in a row range written by `build_primary_lightmap`
belongs to a texel of the surface's rectangle. -/
theorem written_byte_inside (W ls lt n i x y c : Nat) (hs : ls + n ≤ W) (hx : x < W)
    (hc : c < 4)
    (h : (lt * W + ls) * 4 + 4 * (W * i) ≤ (y * W + x) * 4 + c ∧
      (y * W + x) * 4 + c < (lt * W + ls) * 4 + 4 * (W * i) + 4 * n) :
    y = lt + i ∧ ls ≤ x ∧ x < ls + n := by
  obtain ⟨h1, h2⟩ := h
  have hA : (lt + i) * W = lt * W + W * i := by ring
  have hB : (y + 1) * W = y * W + W := by ring
  have hC : (lt + i + 1) * W = lt * W + W * i + W := by ring
  have h3 : (lt + i) * W < (y + 1) * W := by omega
  have h4 : y * W < (lt + i + 1) * W := by omega
  have h5 : lt + i < y + 1 := Nat.lt_of_mul_lt_mul_right h3
  have h6 : y < lt + i + 1 := Nat.lt_of_mul_lt_mul_right h4
  have h7 : y = lt + i := by omega
  subst h7
  omega

/-- C25: for a surface whose block `[light_s, light_s + smax)` lies within the page width,
`build_primary_lightmap` leaves unchanged every byte of `lm.buffer` that belongs to a page
texel `(x, y)` outside the rectangle `[light_s, light_s + smax) x
[light_t, light_t + tmax)`; in particular the texels of any rectangle of the page that is
disjoint from it are unchanged. -/
theorem build_primary_lightmap_outside (e : env_t) (g : gl_t) (surf : mface_t)
    (hs : surf.light_s + (S_MAX surf).toNat ≤ e.k.LM_BLOCK_WIDTH) :
    (∀ x y c : Nat, x < e.k.LM_BLOCK_WIDTH → c < 4 →
      ¬ (surf.light_s ≤ x ∧ x < surf.light_s + (S_MAX surf).toNat ∧
        surf.light_t ≤ y ∧ y < surf.light_t + (T_MAX surf).toNat) →
      (build_primary_lightmap e g surf).1.lm.buffer ((y * e.k.LM_BLOCK_WIDTH + x) * 4 + c) =
        g.lm.buffer ((y * e.k.LM_BLOCK_WIDTH + x) * 4 + c)) ∧
    ∀ s2 t2 w2 h2 : Nat, s2 + w2 ≤ e.k.LM_BLOCK_WIDTH →
      (∀ x y, s2 ≤ x ∧ x < s2 + w2 ∧ t2 ≤ y ∧ y < t2 + h2 →
        ¬ (surf.light_s ≤ x ∧ x < surf.light_s + (S_MAX surf).toNat ∧
          surf.light_t ≤ y ∧ y < surf.light_t + (T_MAX surf).toNat)) →
      ∀ x y c : Nat, s2 ≤ x ∧ x < s2 + w2 ∧ t2 ≤ y ∧ y < t2 + h2 → c < 4 →
        (build_primary_lightmap e g surf).1.lm.buffer
            ((y * e.k.LM_BLOCK_WIDTH + x) * 4 + c) =
          g.lm.buffer ((y * e.k.LM_BLOCK_WIDTH + x) * 4 + c) := by
  have hsurf := add_light_styles_surf e g surf (S_MAX surf * T_MAX surf)
  have hls : (add_light_styles e g surf (S_MAX surf * T_MAX surf)).2.light_s = surf.light_s := by
    rw [hsurf]
  have hlt : (add_light_styles e g surf (S_MAX surf * T_MAX surf)).2.light_t = surf.light_t := by
    rw [hsurf]
  have key : ∀ x y c : Nat, x < e.k.LM_BLOCK_WIDTH → c < 4 →
      ¬ (surf.light_s ≤ x ∧ x < surf.light_s + (S_MAX surf).toNat ∧
        surf.light_t ≤ y ∧ y < surf.light_t + (T_MAX surf).toNat) →
      (build_primary_lightmap e g surf).1.lm.buffer ((y * e.k.LM_BLOCK_WIDTH + x) * 4 + c) =
        g.lm.buffer ((y * e.k.LM_BLOCK_WIDTH + x) * 4 + c) := by
    intro x y c hx hc hout
    simp only [build_primary_lightmap, hls, hlt]
    refine (row_loop_inv e _ (S_MAX surf) g.lm.buffer surf.light_s _ _).2.2.2 _ ?_
    intro i hi hr
    obtain ⟨h1, h2, h3⟩ := written_byte_inside e.k.LM_BLOCK_WIDTH surf.light_s surf.light_t
      (S_MAX surf).toNat i x y c hs hx hc hr
    exact hout ⟨h2, h3, by omega, by omega⟩
  refine ⟨key, fun s2 t2 w2 h2 hw hdis x y c hin hc => ?_⟩
  exact key x y c (by omega) hc (hdis x y hin)

/-- Witness for C25: the sample block of 10 x 10 texels at the origin of the page leaves the
texel `(10, 0)` as it was. -/
theorem build_primary_lightmap_outside_witness :
    (build_primary_lightmap sample_env sample_gl lit_surf).1.lm.buffer
        ((0 * sample_env.k.LM_BLOCK_WIDTH + 10) * 4 + 0) =
      sample_gl.lm.buffer ((0 * sample_env.k.LM_BLOCK_WIDTH + 10) * 4 + 0) :=
  (build_primary_lightmap_outside sample_env sample_gl lit_surf (by decide)).1 10 0 0
    (by decide) (by decide) (by decide)

/-! ### The staging array -/

/-- The loop body never leaves more than `TESS_MAX_VERTICES` vertices staged. -/
theorem GL_LoadWorld_surface_stage (e : env_t) (st : load_t) (surf : mface_t)
    (hb : st.tess_numverts ≤ e.k.TESS_MAX_VERTICES) :
    (GL_LoadWorld_surface e st surf).1.tess_numverts ≤ e.k.TESS_MAX_VERTICES := by
  by_cases hsky : (hack_flags e surf).drawflags &&& e.k.SURF_SKY = 0
  · by_cases hh : st.has_vertices = true
    · rw [GL_LoadWorld_surface_hunk e st surf hh hsky]
      exact hb
    · have hf : st.has_vertices = false := by
        cases h : st.has_vertices
        · rfl
        · exact absurd h hh
      by_cases hn : surf.numsurfedges ≤ e.k.TESS_MAX_VERTICES
      · rw [(GL_LoadWorld_surface_vbo_fields e st surf hf hsky hn).2.2.1]
        unfold flush_if_needed
        by_cases ho : st.tess_numverts + surf.numsurfedges > e.k.TESS_MAX_VERTICES
        · rw [if_pos ho]
          show 0 + surf.numsurfedges ≤ e.k.TESS_MAX_VERTICES
          omega
        · rw [if_neg ho]
          omega
      · rw [GL_LoadWorld_surface_too_many e st surf hf hsky (by omega)]
        exact hb
  · rw [GL_LoadWorld_surface_sky e st surf hsky]
    exact hb

/-- The surface loop never leaves more than `TESS_MAX_VERTICES` vertices staged. -/
theorem GL_LoadWorld_surfaces_stage (e : env_t) (st : load_t) (faces : List mface_t)
    (hb : st.tess_numverts ≤ e.k.TESS_MAX_VERTICES) :
    (GL_LoadWorld_surfaces e st faces).1.tess_numverts ≤ e.k.TESS_MAX_VERTICES := by
  induction faces generalizing st with
  | nil => exact hb
  | cons surf rest ih =>
    exact ih (GL_LoadWorld_surface e st surf).1 (GL_LoadWorld_surface_stage e st surf hb)

/-- C23: in `GL_LoadWorld` started with `tess.numverts = 0`, the number of staged vertices
is at most `TESS_MAX_VERTICES` after every face of the loop. In any state of the chunked
path, a face with more than `TESS_MAX_VERTICES` vertices is skipped
(only the log grows), a face that would overflow the stage is appended after
`upload_surface_vbo(lastvert)` has flushed the stage and reset it to 0, and any other face
is appended to the stage as it is. -/
theorem stage_never_overflows (e : env_t) (st : load_t) (faces : List mface_t)
    (h0 : st.tess_numverts = 0) :
    (GL_LoadWorld_surfaces e (begin_load e st) faces).1.tess_numverts ≤
      e.k.TESS_MAX_VERTICES ∧
    ∀ (s : load_t) (surf : mface_t), s.has_vertices = false →
      (hack_flags e surf).drawflags &&& e.k.SURF_SKY = 0 →
      (surf.numsurfedges > e.k.TESS_MAX_VERTICES →
        GL_LoadWorld_surface e s surf =
          ({ s with g := { s.g with eprintf := emsg_t.too_many_verts :: s.g.eprintf } },
            hack_flags e surf)) ∧
      (surf.numsurfedges ≤ e.k.TESS_MAX_VERTICES →
        s.tess_numverts + surf.numsurfedges > e.k.TESS_MAX_VERTICES →
        (GL_LoadWorld_surface e s surf).1.tess_numverts = surf.numsurfedges ∧
        (GL_LoadWorld_surface e s surf).1.buffer_data =
          (upload_surface_vbo s s.lastvert).buffer_data ∧
        (GL_LoadWorld_surface e s surf).1.lastvert = s.count) ∧
      (surf.numsurfedges ≤ e.k.TESS_MAX_VERTICES →
        s.tess_numverts + surf.numsurfedges ≤ e.k.TESS_MAX_VERTICES →
        (GL_LoadWorld_surface e s surf).1.tess_numverts =
          s.tess_numverts + surf.numsurfedges ∧
        (GL_LoadWorld_surface e s surf).1.buffer_data = s.buffer_data ∧
        (GL_LoadWorld_surface e s surf).1.lastvert = s.lastvert) := by
  refine ⟨GL_LoadWorld_surfaces_stage e _ faces ?_, fun s surf hs hsky => ⟨?_, ?_, ?_⟩⟩
  · show st.tess_numverts ≤ e.k.TESS_MAX_VERTICES
    rw [h0]
    exact Nat.zero_le _
  · intro hn
    exact GL_LoadWorld_surface_too_many e s surf hs hsky hn
  · intro hn ho
    obtain ⟨-, a2, a3, a4, -, -⟩ := GL_LoadWorld_surface_vbo_fields e s surf hs hsky hn
    rw [a2, a3, a4]
    simp only [flush_if_needed, if_pos ho, and_self, and_true]
    exact Nat.zero_add _
  · intro hn ho
    obtain ⟨-, a2, a3, a4, -, -⟩ := GL_LoadWorld_surface_vbo_fields e s surf hs hsky hn
    rw [a2, a3, a4]
    have ho' : ¬ s.tess_numverts + surf.numsurfedges > e.k.TESS_MAX_VERTICES := by omega
    simp only [flush_if_needed, if_neg ho', and_self]

/-- Witness for C23: the stage after two sample triangles loaded through the buffer
object. -/
theorem stage_never_overflows_witness :
    (GL_LoadWorld_surfaces sample_env (begin_load sample_env sample_vbo_load)
      [dark_surf, sample_surf]).1.tess_numverts ≤ sample_env.k.TESS_MAX_VERTICES :=
  (stage_never_overflows sample_env sample_vbo_load [dark_surf, sample_surf] rfl).1

/-! ### The retry of the allocation -/

/-- The allocation part of `LM_BuildSurface` when the first `LM_AllocBlock` fails and the
page count after the upload is not `LM_MAX_LIGHTMAPS`: the second attempt decides. -/
theorem LM_BuildSurface_alloc_retry (e : env_t) (g : gl_t) (surf : mface_t)
    (vbo : Nat → vec_t) (base : Nat) (smax tmax : ℤ)
    (h1 : LM_AllocBlock e g.lm smax.toNat tmax.toNat = none)
    (hne : (LM_UploadBlock e.k g).lm.nummaps ≠ e.k.LM_MAX_LIGHTMAPS) :
    LM_BuildSurface_alloc e g surf vbo base smax tmax =
      match LM_AllocBlock e (retry_state e g).lm smax.toNat tmax.toNat with
      | none =>
        ⟨false, { retry_state e g with
          eprintf := emsg_t.LM_AllocBlock_failed :: (retry_state e g).eprintf }, surf, vbo⟩
      | some (inuse, s, t) => LM_PlaceSurface e (retry_state e g) surf vbo base inuse s t := by
  unfold LM_BuildSurface_alloc
  rw [h1]
  simp only [if_neg hne]
  rfl

/-- The upload of a dirty page raises the page count by one. -/
theorem LM_UploadBlock_dirty (k : glconst_t) (g : gl_t) (hd : g.lm.dirty = true) :
    (LM_UploadBlock k g).lm.nummaps = g.lm.nummaps + 1 ∧
    (LM_UploadBlock k g).textures (k.TEXNUM_LIGHTMAP + g.lm.nummaps) =
      (fun i => if i < k.LM_BLOCK_WIDTH * k.LM_BLOCK_HEIGHT * 4 then g.lm.buffer i else 0) := by
  unfold LM_UploadBlock
  rw [if_neg (by rw [hd]; simp)]
  simp only [store_apply, if_true, and_self]

/-- C22: when, for a validated surface, the first `LM_AllocBlock` of `LM_BuildSurface`
fails on a dirty page and `lm.nummaps + 1 < LM_MAX_LIGHTMAPS`, the page is uploaded as
texture `TEXNUM_LIGHTMAP + lm.nummaps` and `lm.nummaps` goes up by exactly 1, `lm.inuse`
is all zeros at the second attempt, a surface placed by the second attempt gets the page
`TEXNUM_LIGHTMAP + (old lm.nummaps + 1)` and the origin the allocator returned for the
empty page, and if the second attempt fails the call returns failure. -/
theorem LM_BuildSurface_retry (e : env_t) (g : gl_t) (surf : mface_t) (vbo : Nat → vec_t)
    (base : Nat) (hv : passes_validation e surf)
    (h1 : LM_AllocBlock e g.lm (S_MAX surf).toNat (T_MAX surf).toNat = none)
    (hd : g.lm.dirty = true) (hm : g.lm.nummaps + 1 < e.k.LM_MAX_LIGHTMAPS) :
    (LM_UploadBlock e.k g).lm.nummaps = g.lm.nummaps + 1 ∧
    (LM_UploadBlock e.k g).textures (e.k.TEXNUM_LIGHTMAP + g.lm.nummaps) =
      (fun i => if i < e.k.LM_BLOCK_WIDTH * e.k.LM_BLOCK_HEIGHT * 4 then g.lm.buffer i
        else 0) ∧
    (retry_state e g).lm.nummaps = g.lm.nummaps + 1 ∧
    (∀ i, i < e.k.LM_BLOCK_WIDTH → (retry_state e g).lm.inuse i = 0) ∧
    (∀ u s t,
      LM_AllocBlock e (retry_state e g).lm (S_MAX surf).toNat (T_MAX surf).toNat =
        some (u, s, t) →
      LM_BuildSurface e g surf vbo base =
        LM_PlaceSurface e (retry_state e g) surf vbo base u s t ∧
      (LM_BuildSurface e g surf vbo base).ok = true ∧
      (LM_BuildSurface e g surf vbo base).surf.texnum 1 =
        e.k.TEXNUM_LIGHTMAP + (g.lm.nummaps + 1) ∧
      (LM_BuildSurface e g surf vbo base).surf.light_s = s ∧
      (LM_BuildSurface e g surf vbo base).surf.light_t = t ∧
      (LM_BuildSurface e g surf vbo base).g.lm.nummaps = g.lm.nummaps + 1 ∧
      (LM_BuildSurface e g surf vbo base).g.lm.inuse = u) ∧
    (LM_AllocBlock e (retry_state e g).lm (S_MAX surf).toNat (T_MAX surf).toNat = none →
      (LM_BuildSurface e g surf vbo base).ok = false ∧
      (LM_BuildSurface e g surf vbo base).surf = surf ∧
      (LM_BuildSurface e g surf vbo base).vbo = vbo ∧
      (LM_BuildSurface e g surf vbo base).g.lm.nummaps = g.lm.nummaps + 1 ∧
      (LM_BuildSurface e g surf vbo base).g.eprintf =
        emsg_t.LM_AllocBlock_failed :: g.eprintf) := by
  obtain ⟨hup, htex⟩ := LM_UploadBlock_dirty e.k g hd
  have hne : (LM_UploadBlock e.k g).lm.nummaps ≠ e.k.LM_MAX_LIGHTMAPS := by
    rw [hup]
    omega
  have hn2 : (retry_state e g).lm.nummaps = g.lm.nummaps + 1 := by
    simp only [retry_state, LM_InitBlock, hup]
  have hrun := LM_BuildSurface_alloc_retry e g surf vbo base (S_MAX surf) (T_MAX surf) h1 hne
  rw [← LM_BuildSurface_valid e g surf vbo base hv] at hrun
  refine ⟨hup, htex, hn2, fun i hi => ?_, fun u s t h2 => ?_, fun h2 => ?_⟩
  · simp only [retry_state, LM_InitBlock, zero_loop_closed, if_pos hi]
  · rw [h2] at hrun
    simp only at hrun
    obtain ⟨r1, r2, r3, r4, -⟩ := LM_PlaceSurface_result e (retry_state e g) surf vbo base u s t
    obtain ⟨q1, -, q3, -⟩ := LM_PlaceSurface_globals e (retry_state e g) surf vbo base u s t
    rw [hrun]
    refine ⟨rfl, r1, ?_, r2, r3, ?_, q3⟩
    · rw [r4, hn2]
    · rw [q1, hn2]
  · rw [h2] at hrun
    simp only at hrun
    rw [hrun]
    refine ⟨rfl, rfl, rfl, hn2, ?_⟩
    show emsg_t.LM_AllocBlock_failed :: (LM_UploadBlock e.k g).eprintf = _
    rw [LM_UploadBlock_eprintf]

/-- The page of `full_gl` has no room for the sample block of 10 x 10 texels. -/
theorem full_gl_no_room :
    LM_AllocBlock sample_env full_gl.lm (S_MAX lit_surf).toNat (T_MAX lit_surf).toNat =
      none := by
  have hS : (S_MAX lit_surf).toNat = 10 := by decide
  have hT : (T_MAX lit_surf).toNat = 10 := by decide
  rw [hS, hT]
  have hk1 : sample_env.k.LM_BLOCK_WIDTH = 256 := rfl
  have hk2 : sample_env.k.LM_BLOCK_HEIGHT = 256 := rfl
  have ha : sample_env.alloc = GL_AllocBlock := rfl
  have hi : full_gl.lm.inuse = fun _ => 256 := rfl
  simp only [LM_AllocBlock, hk1, hk2, ha, hi]
  apply GL_AllocBlock_full
  intro x _
  exact ⟨0, by omega, by omega⟩

/-- Witness for C22: the sample block on the full dirty page of `full_gl`. The page count
goes from 0 to 1 and the columns are reset. -/
theorem LM_BuildSurface_retry_witness :
    (LM_UploadBlock sample_env.k full_gl).lm.nummaps = full_gl.lm.nummaps + 1 ∧
    ∀ i, i < sample_env.k.LM_BLOCK_WIDTH → (retry_state sample_env full_gl).lm.inuse i = 0 :=
  ⟨(LM_BuildSurface_retry sample_env full_gl lit_surf (fun _ => 0) 0
      ⟨⟨by decide, by decide, by decide, by decide⟩, by decide⟩ full_gl_no_room rfl
      (by decide)).1,
    (LM_BuildSurface_retry sample_env full_gl lit_surf (fun _ => 0) 0
      ⟨⟨by decide, by decide, by decide, by decide⟩, by decide⟩ full_gl_no_room rfl
      (by decide)).2.2.2.1⟩

/-! ### Blocks of one page -/

/-- The scan of the modelled allocator: a position it returns was scanned, its height is
the highest filled column of the run, and the block fits under the page height. -/
theorem GL_AllocBlock_scan (height : Nat) (inuse : Nat → Nat) (w h n x top : Nat)
    (hs : forLoop n
      (fun x (best : Option (Nat × Nat)) =>
        if column_top inuse x w + h ≤ height then
          match best with
          | none => some (x, column_top inuse x w)
          | some (bx, bt) =>
            if column_top inuse x w < bt then some (x, column_top inuse x w) else some (bx, bt)
        else best) none = some (x, top)) :
    x < n ∧ top = column_top inuse x w ∧ top + h ≤ height := by
  induction n with
  | zero => exact absurd hs (by simp [forLoop])
  | succ n ih =>
    rw [forLoop] at hs
    by_cases hfit : column_top inuse n w + h ≤ height
    · rw [if_pos hfit] at hs
      cases hp : forLoop n
        (fun x (best : Option (Nat × Nat)) =>
          if column_top inuse x w + h ≤ height then
            match best with
            | none => some (x, column_top inuse x w)
            | some (bx, bt) =>
              if column_top inuse x w < bt then some (x, column_top inuse x w)
              else some (bx, bt)
          else best) none with
      | none =>
        rw [hp] at hs
        simp only [Option.some.injEq, Prod.mk.injEq] at hs
        obtain ⟨h1, h2⟩ := hs
        subst h1 h2
        exact ⟨Nat.lt_succ_self _, rfl, hfit⟩
      | some r =>
        obtain ⟨bx, bt⟩ := r
        rw [hp] at hs ih
        simp only at hs
        by_cases hlt : column_top inuse n w < bt
        · rw [if_pos hlt] at hs
          simp only [Option.some.injEq, Prod.mk.injEq] at hs
          obtain ⟨h1, h2⟩ := hs
          subst h1 h2
          exact ⟨Nat.lt_succ_self _, rfl, hfit⟩
        · rw [if_neg hlt] at hs
          obtain ⟨a1, a2, a3⟩ := ih hs
          exact ⟨Nat.lt_succ_of_lt a1, a2, a3⟩
    · rw [if_neg hfit] at hs
      obtain ⟨a1, a2, a3⟩ := ih hs
      exact ⟨Nat.lt_succ_of_lt a1, a2, a3⟩

/-- A placement by the modelled allocator: the block lies in the page, on top of every
column of its run, and the columns of the run are raised to its upper edge. -/
theorem GL_AllocBlock_some (width height : Nat) (inuse u : Nat → Nat) (w h x top : Nat)
    (ha : GL_AllocBlock width height inuse w h = some (u, x, top)) :
    x + w ≤ width ∧ top + h ≤ height ∧ (∀ j, j < w → inuse (x + j) ≤ top) ∧
    u = fun i => if x ≤ i ∧ i < x + w then top + h else inuse i := by
  simp only [GL_AllocBlock] at ha
  split at ha
  · exact absurd ha (by simp)
  · rename_i bx bt hp
    simp only [Option.some.injEq, Prod.mk.injEq] at ha
    obtain ⟨h1, h2, h3⟩ := ha
    subst h2 h3
    obtain ⟨a1, a2, a3⟩ := GL_AllocBlock_scan height inuse w h _ bx bt hp
    refine ⟨by omega, a3, fun j hj => ?_, h1.symm⟩
    rw [a2]
    exact le_column_top inuse bx w j hj

/-- The blocks placed by successive calls, on a page whose column heights lie above a list
of earlier blocks: each lies in the page, no two of them overlap, and none overlaps an
earlier block. -/
theorem LM_AllocBlocks_inv (e : env_t) (halloc : e.alloc = GL_AllocBlock)
    (reqs : List (Nat × Nat)) :
    ∀ (lm : lightmap_builder_t) (placed : List block_t), below_heights lm.inuse placed →
      (∀ b, b ∈ (LM_AllocBlocks e lm reqs).2 →
        b.s + b.w ≤ e.k.LM_BLOCK_WIDTH ∧ b.t + b.h ≤ e.k.LM_BLOCK_HEIGHT) ∧
      List.Pairwise (fun a b => ¬ blocks_overlap a b) (LM_AllocBlocks e lm reqs).2 ∧
      ∀ b, b ∈ (LM_AllocBlocks e lm reqs).2 → ∀ p, p ∈ placed → ¬ blocks_overlap p b := by
  induction reqs with
  | nil =>
    intro lm placed _
    exact ⟨fun b hb => absurd hb (List.not_mem_nil b), List.Pairwise.nil,
      fun b hb => absurd hb (List.not_mem_nil b)⟩
  | cons req rest ih =>
    intro lm placed hbelow
    rw [LM_AllocBlocks]
    cases ha : LM_AllocBlock e lm req.1 req.2 with
    | none =>
      simp only
      exact ih lm placed hbelow
    | some r =>
      obtain ⟨u, x, top⟩ := r
      simp only
      have ha2 : GL_AllocBlock e.k.LM_BLOCK_WIDTH e.k.LM_BLOCK_HEIGHT lm.inuse req.1 req.2 =
          some (u, x, top) := by
        rw [← halloc]
        exact ha
      obtain ⟨b1, b2, b3, b4⟩ := GL_AllocBlock_some _ _ _ _ _ _ _ _ ha2
      have hnew : ∀ p, p ∈ placed → ¬ blocks_overlap p ⟨x, top, req.1, req.2⟩ := by
        rintro p hp ⟨cx, cy, ⟨p1, p2, p3, p4⟩, ⟨n1, n2, n3, n4⟩⟩
        simp only at n1 n2 n3 n4
        have h1 := hbelow p hp cx p1 p2
        have h2 := b3 (cx - x) (by omega)
        have e1 : x + (cx - x) = cx := by omega
        rw [e1] at h2
        omega
      have hbelow2 : below_heights u (⟨x, top, req.1, req.2⟩ :: placed) := by
        intro b hb cx c1 c2
        rw [b4]
        simp only
        rcases List.mem_cons.mp hb with h | h
        · subst h
          rw [if_pos ⟨c1, c2⟩]
        · have h1 := hbelow b h cx c1 c2
          by_cases hc : x ≤ cx ∧ cx < x + req.1
          · rw [if_pos hc]
            have h2 := b3 (cx - x) (by omega)
            have e1 : x + (cx - x) = cx := by omega
            rw [e1] at h2
            omega
          · rw [if_neg hc]
            exact h1
      obtain ⟨i1, i2, i3⟩ := ih { lm with inuse := u } (⟨x, top, req.1, req.2⟩ :: placed)
        hbelow2
      refine ⟨fun b hb => ?_, ?_, fun b hb p hp => ?_⟩
      · rcases List.mem_cons.mp hb with h | h
        · subst h
          exact ⟨b1, b2⟩
        · exact i1 b h
      · exact List.Pairwise.cons (fun b hb => i3 b hb _ (List.mem_cons_self _ _)) i2
      · rcases List.mem_cons.mp hb with h | h
        · subst h
          exact hnew p hp
        · exact i3 b h p (List.mem_cons_of_mem _ hp)

/-- C21: with the allocator of the specification, the texel blocks placed by successive
calls of `LM_AllocBlock` on a page, from its reset by `LM_InitBlock` on, lie fully within
the page bounds `LM_BLOCK_WIDTH x LM_BLOCK_HEIGHT`, and no two of their rectangles
`[s, s + w) x [t, t + h)` overlap. -/
theorem placed_blocks_disjoint (e : env_t) (lm : lightmap_builder_t)
    (reqs : List (Nat × Nat)) (halloc : e.alloc = GL_AllocBlock) :
    (∀ b, b ∈ (LM_AllocBlocks e (LM_InitBlock e.k lm) reqs).2 →
      b.s + b.w ≤ e.k.LM_BLOCK_WIDTH ∧ b.t + b.h ≤ e.k.LM_BLOCK_HEIGHT) ∧
    List.Pairwise (fun a b => ¬ blocks_overlap a b)
      (LM_AllocBlocks e (LM_InitBlock e.k lm) reqs).2 := by
  obtain ⟨h1, h2, -⟩ := LM_AllocBlocks_inv e halloc reqs (LM_InitBlock e.k lm) []
    (fun b hb => absurd hb (List.not_mem_nil b))
  exact ⟨h1, h2⟩

/-- Witness for C21: three blocks of 100 x 100, 200 x 100 and 100 x 100 texels on a sample
page. -/
theorem placed_blocks_disjoint_witness :
    List.Pairwise (fun a b => ¬ blocks_overlap a b)
      (LM_AllocBlocks sample_env (LM_InitBlock sample_env.k sample_gl.lm)
        [(100, 100), (200, 100), (100, 100)]).2 :=
  (placed_blocks_disjoint sample_env sample_gl.lm [(100, 100), (200, 100), (100, 100)]
    rfl).2

/-! ### Block bounds beyond 32 bits -/

/-- The raw texel coordinates of the surface with a vertex at 2^32. -/
theorem wrap_surf_tc :
    raw_tc wrap_surf 0 0 = 0 ∧ raw_tc wrap_surf 0 1 = 4294967296 ∧
    raw_tc wrap_surf 1 0 = 0 ∧ raw_tc wrap_surf 1 1 = 0 := by
  refine ⟨?_, ?_, ?_, ?_⟩ <;>
    simp [raw_tc, loop_point, DotProduct, wrap_surf, sample_surf, sample_edge, sample_texinfo,
      vec3]

/-- The bounds `build_surface_poly` stores for the surface with a vertex at 2^32: the
difference `bmaxs[0] - bmins[0] = 2^28` shifted left by 4 is 0 in 32 bits. -/
theorem wrap_surf_bounds (vbo : Nat → vec_t) (base k : Nat) (hk : k < 2) :
    (build_surface_poly wrap_surf vbo base).1.texturemins k = 0 ∧
    (build_surface_poly wrap_surf vbo base).1.extents k = 0 := by
  obtain ⟨t00, t01, t10, t11⟩ := wrap_surf_tc
  have hn : wrap_surf.numsurfedges = 2 := rfl
  have f1 : Int.floor ((0 : vec_t) / 16) = 0 := by
    rw [Int.floor_eq_iff]
    norm_num
  have f2 : Int.ceil ((4294967296 : vec_t) / 16) = 268435456 := by
    rw [Int.ceil_eq_iff]
    norm_num
  have f3 : Int.ceil ((0 : vec_t) / 16) = 0 := by
    rw [Int.ceil_eq_iff]
    norm_num
  have m1 : min (min (99999 : vec_t) 0) 4294967296 = 0 := by norm_num
  have m2 : min (min (99999 : vec_t) 0) 0 = 0 := by norm_num
  have m3 : max (max (-99999 : vec_t) 0) 4294967296 = 4294967296 := by norm_num
  have m4 : max (max (-99999 : vec_t) 0) 0 = 0 := by norm_num
  obtain ⟨e1, e2⟩ := build_surface_poly_stored wrap_surf vbo base k hk
  rw [e1, e2, hn]
  have hk' : k = 0 ∨ k = 1 := by omega
  rcases hk' with h | h <;> subst h
  · simp only [run_min, run_max, t00, t01, m1, m3, f1, f2]
    norm_num [wrap_int]
  · simp only [run_min, run_max, t10, t11, m2, m4, f1, f3]
    norm_num [wrap_int]

/-- The surface with a vertex at 2^32, compiled and lit from the start-up globals, passes
the validations with its block of 1 x 1 texels and is placed at the origin of page 0. -/
theorem wrap_build :
    build_and_light sample_env sample_gl wrap_surf (fun _ => 0) 0 =
      LM_PlaceSurface sample_env sample_gl (build_surface_poly wrap_surf (fun _ => 0) 0).1
        (build_surface_poly wrap_surf (fun _ => 0) 0).2 0
        (fun i => if 0 ≤ i ∧ i < 0 + 1 then 0 + 1 else 0) 0 0 := by
  obtain ⟨-, x0⟩ := wrap_surf_bounds (fun _ => 0) 0 0 (by norm_num)
  obtain ⟨-, x1⟩ := wrap_surf_bounds (fun _ => 0) 0 1 (by norm_num)
  have hS : S_MAX (build_surface_poly wrap_surf (fun _ => 0) 0).1 = 1 := by
    simp only [S_MAX, x0]
    norm_num
  have hT : T_MAX (build_surface_poly wrap_surf (fun _ => 0) 0).1 = 1 := by
    simp only [T_MAX, x1]
    norm_num
  unfold build_and_light
  apply LM_BuildSurface_placed
  · refine ⟨⟨by rw [x0], by rw [x0]; norm_num, by rw [x1],
      by rw [x1]; norm_num⟩, ?_⟩
    rw [hS, hT]
    have h1 : (build_surface_poly wrap_surf (fun _ => 0) 0).1.lightmap = 1000 := rfl
    have h2 : (build_surface_poly wrap_surf (fun _ => 0) 0).1.numstyles = 1 := rfl
    rw [h1, h2]
    norm_num [sample_env]
  · rw [hS, hT]
    have h1 : (1 : ℤ).toNat = 1 := rfl
    simp only [LM_AllocBlock, sample_env, sample_gl, sample_const, h1]
    exact GL_AllocBlock_empty 256 256 (fun _ => 0) 1 1 (fun _ _ => rfl) (by norm_num)
      (by norm_num)

/-- C1 fails on the code: the face with loop vertices at raw texel coordinates 0 and 2^32
gets `extents[0] = 0`, since `(bmaxs[0] - bmins[0]) << 4 = 2^32` is 0 in a 32-bit `int`;
`LM_BuildSurface` accepts it with a block of 1 x 1 texels at the origin `(0, 0)`, which
satisfies `s + smax <= LM_BLOCK_WIDTH` and `t + tmax <= LM_BLOCK_HEIGHT`, and the second
vertex gets the lightmap coordinate `vbo[5] = (2^32 + 8) / 4096`, beyond
`(s + smax) / LM_BLOCK_WIDTH = 1 / 256`. -/
theorem wrapped_extents_accepted :
    (build_and_light sample_env sample_gl wrap_surf (fun _ => 0) 0).ok = true ∧
    (build_and_light sample_env sample_gl wrap_surf (fun _ => 0) 0).surf.extents 0 = 0 ∧
    (build_and_light sample_env sample_gl wrap_surf (fun _ => 0) 0).surf.light_s = 0 ∧
    (build_and_light sample_env sample_gl wrap_surf (fun _ => 0) 0).surf.light_t = 0 ∧
    S_MAX (build_and_light sample_env sample_gl wrap_surf (fun _ => 0) 0).surf = 1 ∧
    T_MAX (build_and_light sample_env sample_gl wrap_surf (fun _ => 0) 0).surf = 1 ∧
    sample_env.k.LM_BLOCK_WIDTH = 256 ∧ sample_env.k.LM_BLOCK_HEIGHT = 256 ∧
    (build_and_light sample_env sample_gl wrap_surf (fun _ => 0) 0).vbo
      (0 + VERTEX_SIZE * 1 + 5) = (4294967296 + 8) / 4096 ∧
    ¬ ((build_and_light sample_env sample_gl wrap_surf (fun _ => 0) 0).vbo
        (0 + VERTEX_SIZE * 1 + 5) ≤
      (((build_and_light sample_env sample_gl wrap_surf (fun _ => 0) 0).surf.light_s : vec_t) +
        (S_MAX (build_and_light sample_env sample_gl wrap_surf (fun _ => 0) 0).surf : vec_t)) /
        (sample_env.k.LM_BLOCK_WIDTH : vec_t)) := by
  obtain ⟨y0, x0⟩ := wrap_surf_bounds (fun _ => 0) 0 0 (by norm_num)
  obtain ⟨-, x1⟩ := wrap_surf_bounds (fun _ => 0) 0 1 (by norm_num)
  obtain ⟨-, t01, -, -⟩ := wrap_surf_tc
  obtain ⟨r1, r2, r3, -, r5, r6, -, r8⟩ :=
    LM_PlaceSurface_result sample_env sample_gl (build_surface_poly wrap_surf (fun _ => 0) 0).1
      (build_surface_poly wrap_surf (fun _ => 0) 0).2 0
      (fun i => if 0 ≤ i ∧ i < 0 + 1 then 0 + 1 else 0) 0 0
  rw [← wrap_build] at r1 r2 r3 r5 r6 r8
  have hS : S_MAX (build_and_light sample_env sample_gl wrap_surf (fun _ => 0) 0).surf = 1 := by
    simp only [S_MAX, r5, x0]
    norm_num
  have hT : T_MAX (build_and_light sample_env sample_gl wrap_surf (fun _ => 0) 0).surf = 1 := by
    simp only [T_MAX, r5, x1]
    norm_num
  have hv : (build_and_light sample_env sample_gl wrap_surf (fun _ => 0) 0).vbo
      (0 + VERTEX_SIZE * 1 + 5) = (4294967296 + 8) / 4096 := by
    rw [r8]
    have hn : (build_surface_poly wrap_surf (fun _ => 0) 0).1.numsurfedges = 2 := rfl
    have hb : (build_surface_poly wrap_surf (fun _ => 0) 0).2 (0 + VERTEX_SIZE * 1 + 5) =
        4294967296 := by
      rw [build_surface_poly_vbo]
      have hn2 : wrap_surf.numsurfedges = 2 := rfl
      rw [hn2, if_pos (by simp only [VERTEX_SIZE]; omega)]
      have a1 : (0 + VERTEX_SIZE * 1 + 5 - 0) / 7 = 1 := by
        simp only [VERTEX_SIZE]
      have a2 : (0 + VERTEX_SIZE * 1 + 5 - 0) % 7 = 5 := by
        simp only [VERTEX_SIZE]
      rw [a1, a2]
      simp only [vertex_slot]
      rw [if_neg (by omega), if_neg (by omega), if_neg (by omega), if_pos trivial, t01]
    have m5 : (0 + VERTEX_SIZE * 1 + 5 - 0) % 7 = 5 := by
      simp only [VERTEX_SIZE]
    simp only [hn, hb, y0, m5, if_true]
    rw [if_pos (by simp only [VERTEX_SIZE]; omega)]
    norm_num [sample_env, sample_const, wrap_int]
  refine ⟨r1, ?_, r2, r3, hS, hT, rfl, rfl, hv, ?_⟩
  · rw [r5, x0]
  · rw [hv, r2, hS]
    norm_num [sample_env, sample_const]

/-- C24 fails on the code: for the face with loop vertices at raw texel coordinates 0 and
2^32 the locals hold `bmins[0] = 0` and `bmaxs[0] = 2^28`, and `(bmaxs[0] - bmins[0]) << 4`
is 0 in a 32-bit `int`, so `texturemins[0] = 0` and `extents[0] = 0`, while the second
vertex has the coordinate `2^32` in slot 5 of its record, above
`texturemins[0] + extents[0]`. -/
theorem wrapped_block_misses_vertex :
    1 < wrap_surf.numsurfedges ∧
    (build_surface_poly wrap_surf (fun _ => 0) 0).2 (0 + VERTEX_SIZE * 1 + 5 + 0) =
      raw_tc wrap_surf 0 1 ∧
    raw_tc wrap_surf 0 1 = 4294967296 ∧
    (build_surface_poly wrap_surf (fun _ => 0) 0).1.texturemins 0 = 0 ∧
    (build_surface_poly wrap_surf (fun _ => 0) 0).1.extents 0 = 0 ∧
    ¬ (raw_tc wrap_surf 0 1 ≤
      (((build_surface_poly wrap_surf (fun _ => 0) 0).1.texturemins 0 +
        (build_surface_poly wrap_surf (fun _ => 0) 0).1.extents 0 : ℤ) : vec_t)) := by
  obtain ⟨y0, x0⟩ := wrap_surf_bounds (fun _ => 0) 0 0 (by norm_num)
  obtain ⟨-, t01, -, -⟩ := wrap_surf_tc
  refine ⟨by decide, ?_, t01, y0, x0, ?_⟩
  · rw [build_surface_poly_vbo]
    have hn2 : wrap_surf.numsurfedges = 2 := rfl
    rw [hn2, if_pos (by simp only [VERTEX_SIZE]; omega)]
    have a1 : (0 + VERTEX_SIZE * 1 + 5 + 0 - 0) / 7 = 1 := by
      simp only [VERTEX_SIZE]
    have a2 : (0 + VERTEX_SIZE * 1 + 5 + 0 - 0) % 7 = 5 := by
      simp only [VERTEX_SIZE]
    rw [a1, a2]
    simp only [vertex_slot]
    rw [if_neg (by omega), if_neg (by omega), if_neg (by omega), if_pos trivial]
  · rw [y0, x0, t01]
    norm_num

/-! ### Faces skipped for their size -/

/-- C11 (as stated) fails: with a buffer object, a face that is not sky, has no light data
and has more loop vertices than the staging array holds is only logged. It ends without a
lightmap, none of its vertices is compiled, and the slots 5 and 3 of the record its first
vertex would have in the staging array keep the unequal values they had. -/
theorem skipped_face_slots_unset :
    (hack_flags sample_env huge_surf).drawflags &&& sample_env.k.SURF_SKY = 0 ∧
    huge_surf.lightmap = 0 ∧
    stale_vbo_load.has_vertices = false ∧
    sample_env.k.TESS_MAX_VERTICES < huge_surf.numsurfedges ∧
    (GL_LoadWorld_surface sample_env stale_vbo_load huge_surf).2.lightmap = 0 ∧
    (GL_LoadWorld_surface sample_env stale_vbo_load huge_surf).1 =
      { stale_vbo_load with
        g := { stale_vbo_load.g with eprintf := [emsg_t.too_many_verts] } } ∧
    compiled_array (GL_LoadWorld_surface sample_env stale_vbo_load huge_surf).1
        (compiled_base sample_env stale_vbo_load huge_surf + VERTEX_SIZE * 0 + 5) = 5 ∧
    compiled_array (GL_LoadWorld_surface sample_env stale_vbo_load huge_surf).1
        (compiled_base sample_env stale_vbo_load huge_surf + VERTEX_SIZE * 0 + 3) = 3 ∧
    ¬ (∀ k : Nat, k < huge_surf.numsurfedges →
      compiled_array (GL_LoadWorld_surface sample_env stale_vbo_load huge_surf).1
          (compiled_base sample_env stale_vbo_load huge_surf + VERTEX_SIZE * k + 5) =
        compiled_array (GL_LoadWorld_surface sample_env stale_vbo_load huge_surf).1
          (compiled_base sample_env stale_vbo_load huge_surf + VERTEX_SIZE * k + 3) ∧
      compiled_array (GL_LoadWorld_surface sample_env stale_vbo_load huge_surf).1
          (compiled_base sample_env stale_vbo_load huge_surf + VERTEX_SIZE * k + 6) =
        compiled_array (GL_LoadWorld_surface sample_env stale_vbo_load huge_surf).1
          (compiled_base sample_env stale_vbo_load huge_surf + VERTEX_SIZE * k + 4)) := by
  have hsky : (hack_flags sample_env huge_surf).drawflags &&& sample_env.k.SURF_SKY = 0 := by
    decide
  have hn : sample_env.k.TESS_MAX_VERTICES < huge_surf.numsurfedges := by decide
  have hs := GL_LoadWorld_surface_too_many sample_env stale_vbo_load huge_surf rfl hsky hn
  have hb : compiled_base sample_env stale_vbo_load huge_surf = 0 := by
    simp [compiled_base, flush_if_needed, upload_surface_vbo, stale_vbo_load, sample_vbo_load,
      sample_load, huge_surf, sample_env, sample_const]
  have h5 : compiled_array (GL_LoadWorld_surface sample_env stale_vbo_load huge_surf).1
      (compiled_base sample_env stale_vbo_load huge_surf + VERTEX_SIZE * 0 + 5) = 5 := by
    rw [hs, hb]
    simp [compiled_array, stale_vbo_load, sample_vbo_load, sample_load, VERTEX_SIZE]
  have h3 : compiled_array (GL_LoadWorld_surface sample_env stale_vbo_load huge_surf).1
      (compiled_base sample_env stale_vbo_load huge_surf + VERTEX_SIZE * 0 + 3) = 3 := by
    rw [hs, hb]
    simp [compiled_array, stale_vbo_load, sample_vbo_load, sample_load, VERTEX_SIZE]
  refine ⟨hsky, rfl, rfl, hn, ?_, ?_, h5, h3, ?_⟩
  · rw [hs]
    rfl
  · rw [hs]
    rfl
  · intro h
    have h0 := (h 0 (by decide)).1
    rw [h5, h3] at h0
    norm_num at h0
/-! ### Binary32 rounding in the colour adjuster -/

end Q2Surf
